import Mathlib

/-!
# Boiler supervisory controller (`tarefas/tarefa_rtos_dupla/caldeira_main.c`)

Shallow embedding of the FreeRTOS boiler controller.

* The C enumerations and the telemetry record are Lean inductives / a structure.
  The three `float` fields only ever hold the literals written by the handlers
  (300.0, 90.0, ...), all exactly representable; they are modelled as rationals.
* The body of each task loop is a straight-line program once the received
  command is known. It is embedded as the list of the effects it performs, in
  program order (`Acao`). `printf` calls are logging only and are left out.
* `executa` runs such a list for one task in isolation; `Sistema`, `passo`,
  `assenta`, `ciclo` and `sistema` run the four handlers together under the
  fixed-priority scheduling the design relies on, with task bodies taking no
  time; `avanca` and `intercala` let ticks and posts of the sampler fall between
  any two statements of a handler.
* `float` arithmetic (LED brightness, temperature conversion) is exact rational
  arithmetic followed by the rounding `f32` after each operation.

The file also covers `adc_to_celsius` of `projects/pico_temp_unity_test` (namespace
`Temperatura`) and the Galton board of `projects/galton_board_v1.1` (namespace
`GaltonBoard`).
-/

namespace Caldeira

/-! ## Types of the source -/

/-- The C enumeration `estado_caldeira_t` (declaration order = numeric order 0..3). -/
inductive estado_caldeira_t
  | CALDEIRA_OK
  | CALDEIRA_NIVEL_BAIXO
  | CALDEIRA_TEMP_ALTA
  | CALDEIRA_PRESSAO_ALTA
  deriving DecidableEq, Repr, Fintype

/-- The C struct `dados_caldeira_t`; the three `float` fields are rationals. -/
structure dados_caldeira_t where
  estado : estado_caldeira_t
  pressao : ℚ
  temperatura : ℚ
  nivel_agua : ℚ
  aquecedor : Bool
  bomba : Bool
  alivio : Bool
  deriving DecidableEq

/-- The C enumeration `joystick_dir_t`. -/
inductive joystick_dir_t
  | JOY_CENTER
  | JOY_RIGHT
  | JOY_LEFT
  | JOY_DOWN
  | JOY_UP
  deriving DecidableEq, Repr

open estado_caldeira_t joystick_dir_t

/-- One effect performed by a task body, in the order the C statements run:
the seven field assignments to the global `estado_atual`, the LED matrix call
`exibir_cor_matriz(r, g, b)`, the non-blocking `xQueueSend(xEstadoQueue, &c, 0)`
and `vTaskDelay(pdMS_TO_TICKS(ms))`. -/
inductive Acao
  | set_estado (v : estado_caldeira_t)
  | set_pressao (v : ℚ)
  | set_temperatura (v : ℚ)
  | set_nivel_agua (v : ℚ)
  | set_aquecedor (v : Bool)
  | set_bomba (v : Bool)
  | set_alivio (v : Bool)
  | exibir_cor_matriz (r g b : Nat)
  | xQueueSend (c : estado_caldeira_t)
  | vTaskDelay (ms : Nat)
  deriving DecidableEq

/-! ## The four state handlers

Each definition is the body of the `while (true)` loop of the C task of the
same name, after `xQueueReceive(xEstadoQueue, &estado_recebido, portMAX_DELAY)`
has returned `pdTRUE` with `estado_recebido`. The final `vTaskDelay` sits after
the `if`/`else` in the source, so it is appended on both branches. -/

/-- The loop `for (int i = 5; i > 0; i--) { vTaskDelay(1000 ms); exibir_cor_matriz(255,0,0); }`
of `tarefa_caldeira_pressao`, by recursion on the loop variable `i`. -/
def contagem_regressiva : Nat → List Acao
  | 0 => []
  | i + 1 =>
    [Acao.vTaskDelay 1000, Acao.exibir_cor_matriz 255 0 0] ++ contagem_regressiva i

/-- Loop body of `tarefa_caldeira_ok` (lines 378-407). -/
def tarefa_caldeira_ok (estado_recebido : estado_caldeira_t) : List Acao :=
  (if estado_recebido = CALDEIRA_OK then
    [Acao.set_estado CALDEIRA_OK,
     Acao.set_pressao 300,
     Acao.set_temperatura 90,
     Acao.set_nivel_agua 54,
     Acao.set_aquecedor true,
     Acao.set_bomba false,
     Acao.set_alivio false,
     Acao.exibir_cor_matriz 0 255 0]
  else
    [Acao.xQueueSend estado_recebido])
  ++ [Acao.vTaskDelay 500]

/-- Loop body of `tarefa_caldeira_nivel` (lines 417-444). -/
def tarefa_caldeira_nivel (estado_recebido : estado_caldeira_t) : List Acao :=
  (if estado_recebido = CALDEIRA_NIVEL_BAIXO then
    [Acao.set_estado CALDEIRA_NIVEL_BAIXO,
     Acao.set_pressao 310,
     Acao.set_temperatura 95,
     Acao.set_nivel_agua 19,
     Acao.set_aquecedor false,
     Acao.set_bomba true,
     Acao.set_alivio false,
     Acao.exibir_cor_matriz 255 255 0]
  else
    [Acao.xQueueSend estado_recebido])
  ++ [Acao.vTaskDelay 400]

/-- Loop body of `tarefa_caldeira_temperatura` (lines 454-481). -/
def tarefa_caldeira_temperatura (estado_recebido : estado_caldeira_t) : List Acao :=
  (if estado_recebido = CALDEIRA_TEMP_ALTA then
    [Acao.set_estado CALDEIRA_TEMP_ALTA,
     Acao.set_pressao 330,
     Acao.set_temperatura 150,
     Acao.set_nivel_agua 5,
     Acao.set_aquecedor false,
     Acao.set_bomba false,
     Acao.set_alivio false,
     Acao.exibir_cor_matriz 255 165 0]
  else
    [Acao.xQueueSend estado_recebido])
  ++ [Acao.vTaskDelay 300]

/-- Loop body of `tarefa_caldeira_pressao` (lines 491-538): profile, red
indicator, the five-iteration countdown, then the automatic `CALDEIRA_OK` post. -/
def tarefa_caldeira_pressao (estado_recebido : estado_caldeira_t) : List Acao :=
  (if estado_recebido = CALDEIRA_PRESSAO_ALTA then
    [Acao.set_estado CALDEIRA_PRESSAO_ALTA,
     Acao.set_pressao 500,
     Acao.set_temperatura 120,
     Acao.set_nivel_agua 54,
     Acao.set_aquecedor true,
     Acao.set_bomba true,
     Acao.set_alivio true,
     Acao.exibir_cor_matriz 255 0 0]
    ++ contagem_regressiva 5
    ++ [Acao.xQueueSend CALDEIRA_OK]
  else
    [Acao.xQueueSend estado_recebido])
  ++ [Acao.vTaskDelay 200]

/-- The four handler tasks created in `main`. -/
inductive Tarefa
  | ok
  | nivel
  | temperatura
  | pressao
  deriving DecidableEq, Repr, Fintype

/-- The task function passed to `xTaskCreate` for each handler. -/
def Tarefa.corpo : Tarefa → estado_caldeira_t → List Acao
  | Tarefa.ok => tarefa_caldeira_ok
  | Tarefa.nivel => tarefa_caldeira_nivel
  | Tarefa.temperatura => tarefa_caldeira_temperatura
  | Tarefa.pressao => tarefa_caldeira_pressao

/-- The `uxPriority` argument of the `xTaskCreate` call of each handler in `main`. -/
def Tarefa.prioridade : Tarefa → Nat
  | Tarefa.ok => 1
  | Tarefa.nivel => 2
  | Tarefa.temperatura => 3
  | Tarefa.pressao => 4

/-- The state each handler compares `estado_recebido` with. -/
def Tarefa.vinculo : Tarefa → estado_caldeira_t
  | Tarefa.ok => CALDEIRA_OK
  | Tarefa.nivel => CALDEIRA_NIVEL_BAIXO
  | Tarefa.temperatura => CALDEIRA_TEMP_ALTA
  | Tarefa.pressao => CALDEIRA_PRESSAO_ALTA

/-- The argument (in ms) of the `vTaskDelay` that closes each handler's loop body. -/
def Tarefa.periodo : Tarefa → Nat
  | Tarefa.ok => 500
  | Tarefa.nivel => 400
  | Tarefa.temperatura => 300
  | Tarefa.pressao => 200

/-- The handler whose comparison constant is `c`. -/
def dono : estado_caldeira_t → Tarefa
  | CALDEIRA_OK => Tarefa.ok
  | CALDEIRA_NIVEL_BAIXO => Tarefa.nivel
  | CALDEIRA_TEMP_ALTA => Tarefa.temperatura
  | CALDEIRA_PRESSAO_ALTA => Tarefa.pressao

/-! ## One task in isolation -/

/-- Capacity given to `xQueueCreate(10, sizeof(estado_caldeira_t))` in `main`. -/
def CAPACIDADE_FILA : Nat := 10

/-- Modelled from the spec: FreeRTOS `xQueueSend(q, &item, 0)` on the bounded FIFO
command queue (the library is not part of the sources). With a free slot the item
is appended at the tail; on a full queue the call returns at once and the item is
dropped. -/
def xQueueSend (fila : List estado_caldeira_t) (item : estado_caldeira_t) :
    List estado_caldeira_t :=
  if fila.length < CAPACIDADE_FILA then fila ++ [item] else fila

/-- The memory one task acts on: the queue `xEstadoQueue` (oldest item first) and
the global `estado_atual`. -/
structure Mundo where
  fila : List estado_caldeira_t
  estado_atual : dados_caldeira_t
  deriving DecidableEq

/-- Effect of one assignment on `estado_atual`; the other actions leave it alone. -/
def Acao.escreve (a : Acao) (d : dados_caldeira_t) : dados_caldeira_t :=
  match a with
  | Acao.set_estado v => { d with estado := v }
  | Acao.set_pressao v => { d with pressao := v }
  | Acao.set_temperatura v => { d with temperatura := v }
  | Acao.set_nivel_agua v => { d with nivel_agua := v }
  | Acao.set_aquecedor v => { d with aquecedor := v }
  | Acao.set_bomba v => { d with bomba := v }
  | Acao.set_alivio v => { d with alivio := v }
  | Acao.exibir_cor_matriz _ _ _ => d
  | Acao.xQueueSend _ => d
  | Acao.vTaskDelay _ => d

/-- Effect of one action on the queue: only `xQueueSend` touches it. -/
def Acao.enfileira (a : Acao) (fila : List estado_caldeira_t) : List estado_caldeira_t :=
  match a with
  | Acao.xQueueSend c => Caldeira.xQueueSend fila c
  | _ => fila

/-- Effect of one action on the memory. -/
def Acao.efeito (a : Acao) (m : Mundo) : Mundo :=
  { fila := a.enfileira m.fila, estado_atual := a.escreve m.estado_atual }

/-- Runs a list of actions in program order, with no other task interleaved. -/
def executa : List Acao → Mundo → Mundo
  | [], m => m
  | a :: resto, m => executa resto (a.efeito m)

/-- One full loop iteration of handler `t` run without interruption:
`xQueueReceive` takes the oldest command (blocking, hence `none`, on an empty
queue), then the body runs. -/
def iteracao (t : Tarefa) (m : Mundo) : Option Mundo :=
  match m.fila with
  | [] => none
  | c :: resto => some (executa (t.corpo c) { m with fila := resto })

/-- The commands a list of actions posts, in order. -/
def envios : List Acao → List estado_caldeira_t
  | [] => []
  | Acao.xQueueSend c :: resto => c :: envios resto
  | _ :: resto => envios resto

/-- The profile table of section 4.3 of the specification, one record per state; the
writes of the handlers are compared with it. -/
def perfil_spec : estado_caldeira_t → dados_caldeira_t
  | CALDEIRA_OK =>
    { estado := CALDEIRA_OK, pressao := 300, temperatura := 90, nivel_agua := 54,
      aquecedor := true, bomba := false, alivio := false }
  | CALDEIRA_NIVEL_BAIXO =>
    { estado := CALDEIRA_NIVEL_BAIXO, pressao := 310, temperatura := 95, nivel_agua := 19,
      aquecedor := false, bomba := true, alivio := false }
  | CALDEIRA_TEMP_ALTA =>
    { estado := CALDEIRA_TEMP_ALTA, pressao := 330, temperatura := 150, nivel_agua := 5,
      aquecedor := false, bomba := false, alivio := false }
  | CALDEIRA_PRESSAO_ALTA =>
    { estado := CALDEIRA_PRESSAO_ALTA, pressao := 500, temperatura := 120, nivel_agua := 54,
      aquecedor := true, bomba := true, alivio := true }

/-! ## The input sampler -/

/-- The macro `JOY_CENTER_MIN`. -/
def JOY_CENTER_MIN : Nat := 1800

/-- The macro `JOY_CENTER_MAX`. -/
def JOY_CENTER_MAX : Nat := 2300

/-- The macro `JOY_THRESHOLD`. -/
def JOY_THRESHOLD : Nat := 1000

/-- The decision part of `ler_joystick` (lines 266-279), as a function of the two
samples `x` and `y` it has read with `adc_read()`. Both are `uint16_t`, promoted to
`int` in the comparisons, so no wrap-around occurs; `1800 - 1000` is not negative. -/
def ler_joystick (x y : Nat) : joystick_dir_t :=
  if x > JOY_CENTER_MAX + JOY_THRESHOLD then JOY_RIGHT
  else if x < JOY_CENTER_MIN - JOY_THRESHOLD then JOY_LEFT
  else if y > JOY_CENTER_MAX + JOY_THRESHOLD then JOY_UP
  else if y < JOY_CENTER_MIN - JOY_THRESHOLD then JOY_DOWN
  else JOY_CENTER

/-- One cycle of the `while (true)` loop of `tarefa_joystick` (lines 335-367), given
the direction `ler_joystick()` returned: the actions performed and the new value of
the local `dir_anterior`. -/
def tarefa_joystick_ciclo (dir_anterior dir_atual : joystick_dir_t) :
    List Acao × joystick_dir_t :=
  ((if dir_atual ≠ dir_anterior ∧ dir_atual ≠ JOY_CENTER then
      [Acao.xQueueSend
        (match dir_atual with
         | JOY_RIGHT => CALDEIRA_OK
         | JOY_LEFT => CALDEIRA_NIVEL_BAIXO
         | JOY_DOWN => CALDEIRA_TEMP_ALTA
         | JOY_UP => CALDEIRA_PRESSAO_ALTA
         | JOY_CENTER => CALDEIRA_OK)]
    else [])
    ++ [Acao.vTaskDelay 100],
   dir_atual)

/-- The sampler loop over a finite sequence of sampled directions, starting with
the given `dir_anterior`: the list of actions of each cycle. -/
def tarefa_joystick : joystick_dir_t → List joystick_dir_t → List (List Acao)
  | _, [] => []
  | dir_anterior, d :: ds =>
    (tarefa_joystick_ciclo dir_anterior d).1 ::
      tarefa_joystick (tarefa_joystick_ciclo dir_anterior d).2 ds

/-! ## The four handlers under the fixed-priority scheduler

FreeRTOS itself is outside the sources. The definitions of this section state
the runtime behaviour the design depends on: strict fixed-priority preemptive
scheduling, a FIFO queue whose blocked receivers are released highest priority
first, and `vTaskDelay` blocking the caller for the given time. Task bodies are
taken to run in zero time, so all activity happens on the 100 ms grid of the
sampler (every delay in the source is a multiple of 100 ms). -/

/-- Modelled from the spec: the scheduler's view of one handler task. `cont` is
what remains of the current loop iteration (`[]`: the task is at its
`xQueueReceive`), `acorda` the time in ms at which its last `vTaskDelay` ends. -/
structure TCB where
  cont : List Acao
  acorda : Nat
  deriving DecidableEq

/-- What is recorded of a run: the sampler posting `c`, handler `t` receiving `c`
from the queue, handler `t` performing action `a`. -/
inductive Evento
  | joystick (c : estado_caldeira_t)
  | recebe (t : Tarefa) (c : estado_caldeira_t)
  | faz (t : Tarefa) (a : Acao)
  deriving DecidableEq

/-- Modelled from the spec: the state of the running system, namely the clock in ms,
the queue `xEstadoQueue`, the global `estado_atual`, the four handler tasks and the
record of what happened so far. -/
structure Sistema where
  agora : Nat
  fila : List estado_caldeira_t
  estado_atual : dados_caldeira_t
  ok : TCB
  nivel : TCB
  temperatura : TCB
  pressao : TCB
  historico : List Evento
  deriving DecidableEq

/-- The control block of handler `t`. -/
def Sistema.tcb (s : Sistema) : Tarefa → TCB
  | Tarefa.ok => s.ok
  | Tarefa.nivel => s.nivel
  | Tarefa.temperatura => s.temperatura
  | Tarefa.pressao => s.pressao

/-- Replaces the control block of handler `t`. -/
def Sistema.com_tcb (s : Sistema) (t : Tarefa) (b : TCB) : Sistema :=
  match t with
  | Tarefa.ok => { s with ok := b }
  | Tarefa.nivel => { s with nivel := b }
  | Tarefa.temperatura => { s with temperatura := b }
  | Tarefa.pressao => { s with pressao := b }

/-- Modelled from the spec: a handler can run when its delay has ended and it either
has statements left or is at `xQueueReceive` with a command available. -/
def Sistema.pronta (s : Sistema) (t : Tarefa) : Bool :=
  decide ((s.tcb t).acorda ≤ s.agora) && (!(s.tcb t).cont.isEmpty || !s.fila.isEmpty)

/-- The handlers by descending `uxPriority` (4, 3, 2, 1). -/
def ordem_de_prioridade : List Tarefa :=
  [Tarefa.pressao, Tarefa.temperatura, Tarefa.nivel, Tarefa.ok]

/-- Modelled from the spec: the scheduler runs the highest-priority ready task; in
particular, of the handlers blocked on the queue the highest-priority one is
released first. -/
def Sistema.escolhida (s : Sistema) : Option Tarefa :=
  ordem_de_prioridade.find? s.pronta

/-- Modelled from the spec: handler `t` runs one statement. At `xQueueReceive` it takes
the oldest command and enters its loop body; otherwise it performs the next action
of the body, where `vTaskDelay ms` puts it to sleep until `agora + ms`. -/
def passo (s : Sistema) (t : Tarefa) : Sistema :=
  match (s.tcb t).cont with
  | [] =>
    match s.fila with
    | [] => s
    | c :: resto =>
      { (s.com_tcb t { cont := t.corpo c, acorda := (s.tcb t).acorda }) with
        fila := resto
        historico := s.historico ++ [Evento.recebe t c] }
  | a :: resto =>
    { (s.com_tcb t
        { cont := resto
          acorda := match a with
            | Acao.vTaskDelay ms => s.agora + ms
            | _ => (s.tcb t).acorda }) with
      fila := a.enfileira s.fila
      estado_atual := a.escreve s.estado_atual
      historico := s.historico ++ [Evento.faz t a] }

/-- Modelled from the spec: lets the ready handlers run, always the highest-priority
one, until none is ready; `none` when the step budget does not suffice. -/
def assenta : Nat → Sistema → Option Sistema
  | 0, s => if s.escolhida = none then some s else none
  | n + 1, s =>
    match s.escolhida with
    | none => some s
    | some t => assenta n (passo s t)

/-- Step budget for `assenta`, well above what one sampler period needs. -/
def ORCAMENTO : Nat := 200

/-- The sampler (priority 5, above every handler) performs its posts. -/
def posta : List estado_caldeira_t → Sistema → Sistema
  | [], s => s
  | c :: cs, s =>
    posta cs { s with
      fila := xQueueSend s.fila c
      historico := s.historico ++ [Evento.joystick c] }

/-- Modelled from the spec: one sampler period. The sampler, having the highest
priority, posts first; the handlers then run until all are blocked; the clock
advances by the sampler's `vTaskDelay` of 100 ms. -/
def ciclo (cs : List estado_caldeira_t) (s : Sistema) : Option Sistema :=
  (assenta ORCAMENTO (posta cs s)).map fun r => { r with agora := r.agora + 100 }

/-- The same period repeated with the sampler posting nothing. -/
def ocioso : Nat → Sistema → Option Sistema
  | 0, s => some s
  | n + 1, s => (ciclo [] s).bind (ocioso n)

/-- The whole system driven by the sequence of sampled directions: each direction
goes through one cycle of `tarefa_joystick`, whose posts enter `ciclo`. -/
def sistema : List joystick_dir_t → joystick_dir_t → Sistema → Option Sistema
  | [], _, s => some s
  | d :: ds, dir_anterior, s =>
    (ciclo (envios (tarefa_joystick_ciclo dir_anterior d).1) s).bind
      (sistema ds (tarefa_joystick_ciclo dir_anterior d).2)

/-- All four handlers blocked in `xQueueReceive` on the empty queue, at time 0, with
telemetry `d`. -/
def repouso (d : dados_caldeira_t) : Sistema :=
  { agora := 0
    fila := []
    estado_atual := d
    ok := { cont := [], acorda := 0 }
    nivel := { cont := [], acorda := 0 }
    temperatura := { cont := [], acorda := 0 }
    pressao := { cont := [], acorda := 0 }
    historico := [] }

/-- The handlers that received command `c`, in the order they received it. -/
def recebedores (c : estado_caldeira_t) : List Evento → List Tarefa
  | [] => []
  | Evento.recebe t x :: h => if x = c then t :: recebedores c h else recebedores c h
  | _ :: h => recebedores c h

/-- The claims of a run: receptions of a command by the handler bound to it. -/
def reivindicacoes : List Evento → List (Tarefa × estado_caldeira_t)
  | [] => []
  | Evento.recebe t x :: h =>
    if x = t.vinculo then (t, x) :: reivindicacoes h else reivindicacoes h
  | _ :: h => reivindicacoes h

/-- The `xQueueSend` calls made by handlers in a run, in order. -/
def reenvios : List Evento → List (Tarefa × estado_caldeira_t)
  | [] => []
  | Evento.faz t (Acao.xQueueSend c) :: h => (t, c) :: reenvios h
  | _ :: h => reenvios h

/-- The commands posted by the sampler in a run, in order. -/
def postados : List Evento → List estado_caldeira_t
  | [] => []
  | Evento.joystick c :: h => c :: postados h
  | _ :: h => postados h

/-- The actions performed by handler `t` in a run, in order. -/
def acoes_de (t : Tarefa) : List Evento → List Acao
  | [] => []
  | Evento.faz u a :: h => if u = t then a :: acoes_de t h else acoes_de t h
  | _ :: h => acoes_de t h

/-! ## Start-up: the global `estado_atual` and `main` -/

/-- The numeric value of each enumerator of `estado_caldeira_t` (`CALDEIRA_OK = 0`, the
others in declaration order). -/
def estado_caldeira_t.valor : estado_caldeira_t → Nat
  | CALDEIRA_OK => 0
  | CALDEIRA_NIVEL_BAIXO => 1
  | CALDEIRA_TEMP_ALTA => 2
  | CALDEIRA_PRESSAO_ALTA => 3

/-- The static initialiser of the global `estado_atual` (lines 130-138). -/
def estado_atual : dados_caldeira_t :=
  { estado := CALDEIRA_OK
    pressao := 300
    temperatura := 90
    nivel_agua := 54
    aquecedor := true
    bomba := false
    alivio := false }

/-- The six task functions `main` passes to `xTaskCreate`. -/
inductive Funcao
  | tarefa_joystick
  | tarefa_caldeira_ok
  | tarefa_caldeira_nivel
  | tarefa_caldeira_temperatura
  | tarefa_caldeira_pressao
  | tarefa_display
  deriving DecidableEq, Repr, Fintype

/-- The `xTaskCreate` calls of `main` in program order (lines 596-629): the task
function and the `uxPriority` argument of each. -/
def tabela_de_tarefas : List (Funcao × Nat) :=
  [(Funcao.tarefa_joystick, 5),
   (Funcao.tarefa_caldeira_ok, 1),
   (Funcao.tarefa_caldeira_nivel, 2),
   (Funcao.tarefa_caldeira_temperatura, 3),
   (Funcao.tarefa_caldeira_pressao, 4),
   (Funcao.tarefa_display, 1)]

/-- The task function of each handler. -/
def Tarefa.funcao : Tarefa → Funcao
  | Tarefa.ok => Funcao.tarefa_caldeira_ok
  | Tarefa.nivel => Funcao.tarefa_caldeira_nivel
  | Tarefa.temperatura => Funcao.tarefa_caldeira_temperatura
  | Tarefa.pressao => Funcao.tarefa_caldeira_pressao

/-- What `main` does from line 586 on, in order: the queue creation, each task
creation, the initial post, the scheduler start, and `trava` for the endless
`while(1);` it enters on a failure. -/
inductive Inicializacao
  | xQueueCreate (uxQueueLength : Nat)
  | xTaskCreate (pxTaskCode : Funcao) (uxPriority : Nat)
  | xQueueSend (c : estado_caldeira_t)
  | vTaskStartScheduler
  | trava
  deriving DecidableEq, Repr

/-- The chain of `if (xTaskCreate(...) != pdPASS) { ...; while(1); }` statements of
`main` over the remaining calls, then the initial `xQueueSend` of `CALDEIRA_OK` and
`vTaskStartScheduler()`. `criou f` tells whether the creation of `f` returns `pdPASS`.
The scheduler start hands control to the tasks and is the last step recorded. -/
def cria_tarefas (criou : Funcao → Bool) : List (Funcao × Nat) → List Inicializacao
  | [] => [Inicializacao.xQueueSend CALDEIRA_OK, Inicializacao.vTaskStartScheduler]
  | (f, p) :: resto =>
    Inicializacao.xTaskCreate f p ::
      (if criou f then cria_tarefas criou resto else [Inicializacao.trava])

/-- The function `main` from the queue creation on (lines 586-645); the hardware
initialisation before it has no failure path. `fila_criada` tells whether
`xQueueCreate` returns a non-NULL handle. -/
def main (fila_criada : Bool) (criou : Funcao → Bool) : List Inicializacao :=
  Inicializacao.xQueueCreate CAPACIDADE_FILA ::
    (if fila_criada then cria_tarefas criou tabela_de_tarefas else [Inicializacao.trava])

/-- The tasks a run of `main` has created: the task function and the `uxPriority` of
each `xTaskCreate` call it made, in order. -/
def criadas : List Inicializacao → List (Funcao × Nat)
  | [] => []
  | Inicializacao.xTaskCreate f p :: resto => (f, p) :: criadas resto
  | _ :: resto => criadas resto

/-! ## Single-precision arithmetic

The sources compute with C `float`. A `float` value is a rational number, and each
arithmetic operation returns the exact result rounded to the nearest value with a
24-bit significand, ties to even (IEEE 754 binary32, the default rounding). `f32` is
that rounding. All values met here are far from the overflow and subnormal ranges,
which are left out. -/

/-- The number of binary digits of `n` (0 for 0), by halving at most `fuel` times. -/
def digitos_binarios : Nat → Nat → Nat
  | 0, _ => 0
  | fuel + 1, n => if n = 0 then 0 else digitos_binarios fuel (n / 2) + 1

/-- The integer nearest to `N / D`, ties to the even one (`D > 0`). -/
def arredonda_par (N D : Nat) : Nat :=
  if 2 * (N % D) < D then N / D
  else if D < 2 * (N % D) then N / D + 1
  else if (N / D) % 2 = 0 then N / D
  else N / D + 1

/-- The exponent `e` with `2 ^ e ≤ |q| < 2 ^ (e + 1)`, for `q ≠ 0`: the difference of the
bit lengths of numerator and denominator, or one less. -/
def expoente (q : ℚ) : Int :=
  if q.den * 2 ^ ((digitos_binarios q.num.natAbs q.num.natAbs : Int) -
        (digitos_binarios q.den q.den : Int)).toNat ≤
      q.num.natAbs * 2 ^ ((digitos_binarios q.den q.den : Int) -
        (digitos_binarios q.num.natAbs q.num.natAbs : Int)).toNat then
    (digitos_binarios q.num.natAbs q.num.natAbs : Int) - (digitos_binarios q.den q.den : Int)
  else
    (digitos_binarios q.num.natAbs q.num.natAbs : Int) - (digitos_binarios q.den q.den : Int) - 1

/-- Rounding of the exact value `q` to binary32: `|q| / 2 ^ (e - 23)`, the significand in
units of the last place, is rounded to an integer, ties to even. -/
def f32 (q : ℚ) : ℚ :=
  if q = 0 then 0
  else
    ((q.num.sign *
        ((arredonda_par (q.num.natAbs * 2 ^ (23 - expoente q).toNat)
            (q.den * 2 ^ (expoente q - 23).toNat) * 2 ^ (expoente q - 23).toNat : Nat) : Int)
      : Int) : ℚ) / ((2 ^ (23 - expoente q).toNat : Nat) : ℚ)

/-! ## The LED matrix -/

/-- The macro `LED_COUNT`. -/
def LED_COUNT : Nat := 25

/-- The macro `BRIGHTNESS_FACTOR`, the `float` literal `0.01f`. -/
def BRIGHTNESS_FACTOR : ℚ := f32 (1 / 100)

/-- The function `apply_brightness` (lines 150-152): the `uint8_t` argument is converted to
`float` (exactly), multiplied by `BRIGHTNESS_FACTOR` in single precision, and the
product converted to `uint8_t`, which drops the fraction. -/
def apply_brightness (color_value : Nat) : Nat :=
  (f32 ((color_value : ℚ) * BRIGHTNESS_FACTOR)).floor.toNat % 256

/-- The C struct `pixel_t` (field order G, R, B). -/
structure pixel_t where
  G : Nat
  R : Nat
  B : Nat
  deriving DecidableEq, Repr

/-- The function `neopixel_set_led` (lines 181-187) on the global buffer `leds`. -/
def neopixel_set_led (index r g b : Nat) (leds : List pixel_t) : List pixel_t :=
  if index < LED_COUNT then
    leds.set index { R := apply_brightness r, G := apply_brightness g, B := apply_brightness b }
  else leds

/-- The loop `for (int i = 0; i < LED_COUNT; i++) neopixel_set_led(i, r, g, b);` of
`exibir_cor_matriz`, from index `i` with `n` iterations left. -/
def exibir_cor_matriz_laco (r g b : Nat) : Nat → Nat → List pixel_t → List pixel_t
  | 0, _, leds => leds
  | n + 1, i, leds => exibir_cor_matriz_laco r g b n (i + 1) (neopixel_set_led i r g b leds)

/-- The function `exibir_cor_matriz` (lines 223-228) on the buffer `leds`; the transmission
by `neopixel_write` reads the buffer and leaves it as it is. -/
def exibir_cor_matriz (r g b : Nat) (leds : List pixel_t) : List pixel_t :=
  exibir_cor_matriz_laco r g b LED_COUNT 0 leds

/-- The colours a list of actions passes to `exibir_cor_matriz`, in order. -/
def cores : List Acao → List (Nat × Nat × Nat)
  | [] => []
  | Acao.exibir_cor_matriz r g b :: resto => (r, g, b) :: cores resto
  | _ :: resto => cores resto

/-- The function `get_led_index` (lines 211-219) on C `int`s. The test `y % 2 == 0` has the
same outcome for the truncating `%` of C and the `%` of `Int`. -/
def get_led_index (x y : Int) : Int :=
  if y % 2 = 0 then 24 - (y * 5 + x) else 24 - (y * 5 + (4 - x))

/-! ## The display -/

/-- The calls `atualizar_display` makes on the display driver. -/
inductive Desenho
  | ssd1306_clear
  | ssd1306_draw_string (x y : Nat) (texto : String)
  | render_on_display
  deriving DecidableEq, Repr

/-- The local table `estados` of `atualizar_display`. -/
def estados : List String := ["OK", "Nv Low", "Tp High", "Pr high"]

/-- The text `b ? "On" : "Off"`. -/
def on_off (b : Bool) : String := if b then ("On") else ("Off")

/-- The length of the local buffer `char texto[32]` of `atualizar_display`. -/
def TAMANHO_TEXTO : Nat := 32

/-- Modelled from the spec: the call `sprintf(texto, ...)` of the C library (not part of
the sources) on the local buffer `texto`, given the characters the format expands to.
The call stores them followed by a terminating NUL and checks no bound: when they do
not fit in the buffer it writes past its end, which is undefined behaviour (`none`). -/
def sprintf (expandido : String) : Option String :=
  if expandido.utf8ByteSize + 1 ≤ TAMANHO_TEXTO then some expandido else none

/-- Modelled from the spec: the conversion `%.0f` as ISO C defines it (the C library is not
part of the sources): a minus sign for a negative value, then all decimal digits of the
value rounded to an integer (to nearest, ties to even), with no exponent. -/
def formato_0f (q : ℚ) : String :=
  (if q < 0 then ("-") else ("")) ++ Nat.repr (arredonda_par q.num.natAbs q.den)

/-- The function `atualizar_display` (lines 288-322): the driver calls it makes, and the
record behind the pointer `dados` when it returns; `none` when one of its `sprintf`
calls overruns the buffer `texto`. `fmt` is the rendering of a `float` by the
conversion `%.0f` of the library; the table lookup `estados[dados->estado]` uses the
numeric value of the enumerator as index. -/
def atualizar_display (fmt : ℚ → String) (dados : dados_caldeira_t) :
    Option (List Desenho × dados_caldeira_t) := do
  let linha1 ← sprintf ("Estado: " ++ estados.getD dados.estado.valor (""))
  let linha2 ← sprintf ("Pressao:" ++ fmt dados.pressao ++ " kPa")
  let linha3 ← sprintf ("Temp:   " ++ fmt dados.temperatura ++ " C")
  let linha4 ← sprintf ("Nivel:  " ++ fmt dados.nivel_agua ++ "%")
  let linha5 ← sprintf ("Aquec:  " ++ on_off dados.aquecedor)
  let linha6 ← sprintf ("Bomba:  " ++ on_off dados.bomba)
  let linha7 ← sprintf ("Alivio: " ++ on_off dados.alivio)
  some
    ([Desenho.ssd1306_clear,
      Desenho.ssd1306_draw_string 0 0 linha1,
      Desenho.ssd1306_draw_string 0 8 linha2,
      Desenho.ssd1306_draw_string 0 16 linha3,
      Desenho.ssd1306_draw_string 0 24 linha4,
      Desenho.ssd1306_draw_string 0 32 linha5,
      Desenho.ssd1306_draw_string 0 40 linha6,
      Desenho.ssd1306_draw_string 0 48 linha7,
      Desenho.render_on_display],
     dados)

/-- The text lines drawn by a list of driver calls: position and text, in order. -/
def linhas : List Desenho → List (Nat × Nat × String)
  | [] => []
  | Desenho.ssd1306_draw_string x y texto :: resto => (x, y, texto) :: linhas resto
  | _ :: resto => linhas resto

/-! ## Telemetry records reachable by handler iterations -/

/-- The telemetry records reached from the initial `estado_atual` by loop iterations of the
handlers, each run as one step (`iteracao`), in any order and on any queue contents. -/
inductive TelemetriaAlcancavel : dados_caldeira_t → Prop
  | inicial : TelemetriaAlcancavel estado_atual
  | passo (t : Tarefa) (fila : List estado_caldeira_t) (d : dados_caldeira_t) (m : Mundo) :
      TelemetriaAlcancavel d → iteracao t { fila := fila, estado_atual := d } = some m →
      TelemetriaAlcancavel m.estado_atual

/-! ## Auxiliary definitions for the proofs -/

/-- The state `s` with `estado_atual` replaced by `e`. -/
def Sistema.com_dados (s : Sistema) (e : dados_caldeira_t) : Sistema :=
  { s with estado_atual := e }

/-- For each field of `dados_caldeira_t`, the value last assigned to it, if any. -/
structure Escritas where
  estado : Option estado_caldeira_t
  pressao : Option ℚ
  temperatura : Option ℚ
  nivel_agua : Option ℚ
  aquecedor : Option Bool
  bomba : Option Bool
  alivio : Option Bool

/-- The record `d` after the assignments of `p`. -/
def Escritas.aplica (p : Escritas) (d : dados_caldeira_t) : dados_caldeira_t :=
  { estado := p.estado.getD d.estado
    pressao := p.pressao.getD d.pressao
    temperatura := p.temperatura.getD d.temperatura
    nivel_agua := p.nivel_agua.getD d.nivel_agua
    aquecedor := p.aquecedor.getD d.aquecedor
    bomba := p.bomba.getD d.bomba
    alivio := p.alivio.getD d.alivio }

/-- No assignment at all. -/
def Escritas.nada : Escritas :=
  ⟨none, none, none, none, none, none, none⟩

/-- The assignments of `p` followed by those of `q`. -/
def Escritas.depois (p q : Escritas) : Escritas :=
  { estado := q.estado.orElse fun _ => p.estado
    pressao := q.pressao.orElse fun _ => p.pressao
    temperatura := q.temperatura.orElse fun _ => p.temperatura
    nivel_agua := q.nivel_agua.orElse fun _ => p.nivel_agua
    aquecedor := q.aquecedor.orElse fun _ => p.aquecedor
    bomba := q.bomba.orElse fun _ => p.bomba
    alivio := q.alivio.orElse fun _ => p.alivio }

/-- The assignment made by one action. -/
def Acao.escritas : Acao → Escritas
  | Acao.set_estado v => { Escritas.nada with estado := some v }
  | Acao.set_pressao v => { Escritas.nada with pressao := some v }
  | Acao.set_temperatura v => { Escritas.nada with temperatura := some v }
  | Acao.set_nivel_agua v => { Escritas.nada with nivel_agua := some v }
  | Acao.set_aquecedor v => { Escritas.nada with aquecedor := some v }
  | Acao.set_bomba v => { Escritas.nada with bomba := some v }
  | Acao.set_alivio v => { Escritas.nada with alivio := some v }
  | _ => Escritas.nada

/-- All four handlers are at `xQueueReceive` and the queue is empty. -/
def Sistema.parada (s : Sistema) : Bool :=
  s.fila.isEmpty && s.ok.cont.isEmpty && s.nivel.cont.isEmpty &&
    s.temperatura.cont.isEmpty && s.pressao.cont.isEmpty

/-- The check `P` holds now and after each of the next `n` sampler periods in which
the sampler posts nothing (and each of those periods completes). -/
def sempre (P : Sistema → Bool) : Nat → Sistema → Bool
  | 0, s => P s
  | n + 1, s =>
    P s && match ciclo [] s with
      | some r => sempre P n r
      | none => false

/-- A telemetry record used to probe a run; it differs from `sonda1` in every field. -/
def sonda0 : dados_caldeira_t :=
  ⟨CALDEIRA_OK, 300, 90, 54, true, false, false⟩

/-- A telemetry record used to probe a run; it differs from `sonda0` in every field. -/
def sonda1 : dados_caldeira_t :=
  ⟨CALDEIRA_TEMP_ALTA, 0, 0, 0, false, true, true⟩

/-- Handler `t` is not in a delay: its last `vTaskDelay` has ended. -/
def Sistema.acordada (s : Sistema) (t : Tarefa) : Bool :=
  decide ((s.tcb t).acorda ≤ s.agora)

/-- The state `s` after handler `t` has taken a step that leaves it with control block
`b`, the queue `f` and the telemetry `e`, and adds `ev` to the record of the run. -/
def Sistema.apos (s : Sistema) (t : Tarefa) (b : TCB) (f : List estado_caldeira_t)
    (e : dados_caldeira_t) (ev : List Evento) : Sistema :=
  { (s.com_tcb t b) with fila := f, estado_atual := e, historico := s.historico ++ ev }

/-- One truth value per handler. -/
def selecao (ok nivel temperatura pressao : Bool) : Tarefa → Bool
  | Tarefa.ok => ok
  | Tarefa.nivel => nivel
  | Tarefa.temperatura => temperatura
  | Tarefa.pressao => pressao

/-- The state at time 0 with the empty queue in which every handler is at its
`xQueueReceive`, blocked on the queue when `f` holds of it and in a delay otherwise. -/
def bloqueadas (f : Tarefa → Bool) : Sistema :=
  { agora := 0
    fila := []
    estado_atual := sonda0
    ok := { cont := [], acorda := if f Tarefa.ok then 0 else 1 }
    nivel := { cont := [], acorda := if f Tarefa.nivel then 0 else 1 }
    temperatura := { cont := [], acorda := if f Tarefa.temperatura then 0 else 1 }
    pressao := { cont := [], acorda := if f Tarefa.pressao then 0 else 1 }
    historico := [] }

/-- Within one instant `s` behaves as `n`: the queues are equal, the same handlers are
awake and those have the same statements left; the record of `s` is `h0` followed by
the record of `n`. -/
structure Instante (h0 : List Evento) (s n : Sistema) : Prop where
  fila : s.fila = n.fila
  acordada : ∀ t, s.acordada t = n.acordada t
  cont : ∀ t, s.acordada t = true → (s.tcb t).cont = (n.tcb t).cont
  historico : s.historico = h0 ++ n.historico

/-- The action is one of the seven stores to the global `estado_atual`. -/
def Acao.armazena : Acao → Bool
  | Acao.set_estado _ => true
  | Acao.set_pressao _ => true
  | Acao.set_temperatura _ => true
  | Acao.set_nivel_agua _ => true
  | Acao.set_aquecedor _ => true
  | Acao.set_bomba _ => true
  | Acao.set_alivio _ => true
  | _ => false

/-- The number of stores among the statements `c` a handler has left. -/
def pendentes (c : List Acao) : Nat := c.countP Acao.armazena

/-- A handler with the statements `c` left is inside its seven-field write sequence: it has
made the first store and not yet the last. -/
def em_escrita (c : List Acao) : Bool :=
  decide (0 < pendentes c) && decide (pendentes c < 7)

/-- The handlers that are inside their write sequence, by descending priority. -/
def Sistema.escritores (s : Sistema) : List Tarefa :=
  ordem_de_prioridade.filter fun t => em_escrita (s.tcb t).cont

/-- Modelled from the spec: what can happen next in the running system. The scheduler lets
the highest-priority ready handler perform its next statement (`corre`); time passes,
which ends delays (`tique`); the sampler, which has the highest priority and preempts
any handler, posts a command (`joystick`). The sources fix no execution times, so a tick
or a post can fall between any two statements of a handler. -/
inductive Entrada
  | corre
  | tique (ms : Nat)
  | joystick (c : estado_caldeira_t)
  deriving DecidableEq

/-- Modelled from the spec: the effect of one `Entrada` on the system. -/
def avanca (s : Sistema) : Entrada → Sistema
  | Entrada.corre =>
    match s.escolhida with
    | some t => passo s t
    | none => s
  | Entrada.tique ms => { s with agora := s.agora + ms }
  | Entrada.joystick c => posta [c] s

/-- The system after a sequence of `Entrada`, a preemptive interleaving of the tasks. -/
def intercala : List Entrada → Sistema → Sistema
  | [], s => s
  | e :: es, s => intercala es (avanca s e)

/-- In the interleaving `es` from `s` no handler is preempted inside its write sequence:
whenever a tick or a post of the sampler comes while a handler is inside it, that
handler is still the one the scheduler runs next. -/
def sem_preempcao_na_escrita : List Entrada → Sistema → Bool
  | [], _ => true
  | e :: es, s =>
    (decide (e = Entrada.corre) ||
        s.escritores.all fun t => decide ((avanca s e).escolhida = some t)) &&
      sem_preempcao_na_escrita es (avanca s e)

/-- The seven stores of handler `t`, in program order. -/
def Tarefa.escritas (t : Tarefa) : List Acao :=
  (t.corpo t.vinculo).filter Acao.armazena

/-- The stores handler `t` has made so far when it is inside its write sequence with the
statements `c` left (none when it is not inside it). -/
def feitas (t : Tarefa) (c : List Acao) : List Acao :=
  if em_escrita c then t.escritas.take (7 - pendentes c) else []

/-- The record `d` after the stores of a list of actions, in order. -/
def escreve_todas : List Acao → dados_caldeira_t → dados_caldeira_t
  | [], d => d
  | a :: resto, d => escreve_todas resto (a.escreve d)

/-- The state in which `vTaskStartScheduler` leaves the system: the `CALDEIRA_OK` posted by
`main` on the queue, the initial telemetry, every handler about to call
`xQueueReceive`. -/
def partida : Sistema :=
  { repouso estado_atual with fila := [CALDEIRA_OK] }

/-- What the single-writer property needs of a state: every handler is somewhere in a loop
body; a handler inside its write sequence is the one the scheduler runs next; and the
telemetry is a profile on which at most one handler has made the first stores of its
own profile. -/
structure UmEscritor (s : Sistema) : Prop where
  forma : ∀ t, ∃ x, (s.tcb t).cont ∈ (t.corpo x).tails
  escolhida : ∀ t, em_escrita (s.tcb t).cont = true → s.escolhida = some t
  registro : ∃ S0 t0, (∀ u, u ≠ t0 → em_escrita (s.tcb u).cont = false) ∧
    s.estado_atual = escreve_todas (feitas t0 (s.tcb t0).cont) (perfil_spec S0)

end Caldeira

/-! # Temperature conversion (`projects/pico_temp_unity_test/src/temperature.c`) -/

namespace Temperatura

open Caldeira (f32)

/-- The constant `ADC_VOLTAGE_REF = 3.3f`. -/
def ADC_VOLTAGE_REF : ℚ := f32 (33 / 10)

/-- The constant `ADC_RESOLUTION = 4095.0f`. -/
def ADC_RESOLUTION : ℚ := f32 4095

/-- The constant `ADC_TEMP_OFFSET = 0.706f`. -/
def ADC_TEMP_OFFSET : ℚ := f32 (706 / 1000)

/-- The constant `ADC_TEMP_SLOPE = 0.001721f`. -/
def ADC_TEMP_SLOPE : ℚ := f32 (1721 / 1000000)

/-- The local `voltage` of `adc_to_celsius`: `(float)adc_val * ADC_VOLTAGE_REF / ADC_RESOLUTION`,
each operation in single precision (the conversion of a `uint16_t` is exact). -/
def voltage (adc_val : Nat) : ℚ :=
  f32 (f32 ((adc_val : ℚ) * ADC_VOLTAGE_REF) / ADC_RESOLUTION)

/-- The function `adc_to_celsius` (lines 9-17):
`27.0f - (voltage - ADC_TEMP_OFFSET) / ADC_TEMP_SLOPE` in single precision. -/
def adc_to_celsius (adc_val : Nat) : ℚ :=
  f32 (27 - f32 (f32 (voltage adc_val - ADC_TEMP_OFFSET) / ADC_TEMP_SLOPE))

/-- The formula of `adc_to_celsius` in exact arithmetic with the decimal constants,
the way the claim writes it: `27 - (a * 3.3 / 4095 - 0.706) / 0.001721`. -/
def adc_to_celsius_exato (a : ℚ) : ℚ :=
  27 - (a * (33 / 10) / 4095 - 706 / 1000) / (1721 / 1000000)

/-- The value `adc_val_float = (0.706f * 4095.0f) / 3.3f` computed by
`test_adc_to_celsius_known_value`, in single precision. -/
def adc_val_float : ℚ :=
  f32 (f32 (f32 (706 / 1000) * f32 4095) / f32 (33 / 10))

/-- The function `roundf` for a non-negative argument: nearest integer, halves upwards. -/
def roundf (x : ℚ) : Int := (x + 1 / 2).floor

end Temperatura

/-! # Galton board (`projects/galton_board_v1.1/include/galton.c`) -/

namespace GaltonBoard

/-- The C enumeration `simulation_state_t`. -/
inductive simulation_state_t
  | STATE_WELCOME
  | STATE_RUNNING
  | STATE_COMPLETE
  deriving DecidableEq, Repr

/-- The C struct `ball_position_t`; the `int` fields are integers (the values stay far
from the range limits of `int`). -/
structure ball_position_t where
  active : Bool
  current_level : Int
  position : Int
  direction : Int
  steps : Int
  deriving DecidableEq, Repr

open simulation_state_t

/-- The macro `NUM_LEVELS`. -/
def NUM_LEVELS : Int := 7

/-- The macro `NUM_BINS`. -/
def NUM_BINS : Int := NUM_LEVELS + 1

/-- The macro `NUM_BALLS`. -/
def NUM_BALLS : Int := 75

/-- The macro `DELAY_MS`. -/
def DELAY_MS : Nat := 20

/-- The static variables of `galton.c`. The array `bins` is the list of its `NUM_BINS`
elements; `last_update_time` is a `uint32_t`. -/
structure Estado where
  bins : List Int
  current_ball : Int
  current_state : simulation_state_t
  last_update_time : Nat
  ball_position : ball_position_t
  deriving DecidableEq, Repr

/-- The statement `bins[i]++` for an index inside the array. An index outside it touches
none of the elements (in C the access is undefined). -/
def incrementa : Nat → List Int → List Int
  | _, [] => []
  | 0, b :: bs => (b + 1) :: bs
  | i + 1, b :: bs => b :: incrementa i bs

/-- The function `galton_reset` (lines 51-71); `last_update_time` is not touched. -/
def galton_reset (g : Estado) : Estado :=
  { g with
    bins := List.replicate NUM_BINS.toNat 0
    current_ball := 0
    ball_position := { active := false, current_level := 0, position := 0, direction := 0,
                       steps := 0 }
    current_state := STATE_WELCOME }

/-- The function `galton_set_state` (lines 162-171); `agora` is the value of
`to_ms_since_boot(get_absolute_time())`. -/
def galton_set_state (state : simulation_state_t) (agora : Nat) (g : Estado) : Estado :=
  { g with
    current_state := state
    last_update_time := if state = STATE_RUNNING then agora % 2 ^ 32 else g.last_update_time }

/-- The function `galton_update` (lines 210-285). `current_time` is the value read from the
clock and `rand` the value `rand()` returns if it is called. The difference
`current_time - last_update_time` is unsigned 32-bit, hence taken modulo `2 ^ 32`. -/
def galton_update (current_time rand : Nat) (g : Estado) : Estado :=
  if g.current_state ≠ STATE_RUNNING then g
  else if (current_time % 2 ^ 32 + 2 ^ 32 - g.last_update_time) % 2 ^ 32 < DELAY_MS / 3 then g
  else if g.current_ball ≥ NUM_BALLS then
    { g with last_update_time := current_time % 2 ^ 32, current_state := STATE_COMPLETE }
  else if !g.ball_position.active then
    { g with
      last_update_time := current_time % 2 ^ 32
      ball_position := { active := true, current_level := 0, position := 0, direction := 0,
                         steps := 0 } }
  else if g.ball_position.steps + 1 ≥ 3 then
    if g.ball_position.current_level ≥ NUM_LEVELS then
      { g with
        last_update_time := current_time % 2 ^ 32
        bins := incrementa g.ball_position.position.toNat g.bins
        current_ball := g.current_ball + 1
        ball_position := { g.ball_position with steps := 0, active := false } }
    else
      { g with
        last_update_time := current_time % 2 ^ 32
        ball_position :=
          { g.ball_position with
            steps := 0
            direction := ((rand % 2 : Nat) : Int)
            position :=
              if ((rand % 2 : Nat) : Int) = 1 then g.ball_position.position + 1
              else g.ball_position.position
            current_level := g.ball_position.current_level + 1 } }
  else
    { g with
      last_update_time := current_time % 2 ^ 32
      ball_position := { g.ball_position with steps := g.ball_position.steps + 1 } }

/-- The loop of `galton_get_max_bin_value` over the remaining elements, with the running
value of `max_value`. -/
def maior : List Int → Int → Int
  | [], max_value => max_value
  | b :: bs, max_value => maior bs (if b > max_value then b else max_value)

/-- The function `galton_get_max_bin_value` (lines 108-122). -/
def galton_get_max_bin_value (g : Estado) : Int :=
  maior g.bins 0

/-- The static initialisers of `galton.c` (lines 15-27). -/
def inicial : Estado :=
  { bins := List.replicate NUM_BINS.toNat 0
    current_ball := 0
    current_state := STATE_WELCOME
    last_update_time := 0
    ball_position := { active := false, current_level := 0, position := 0, direction := 0,
                       steps := 0 } }

/-- Calls `galton_update` once for each pair (clock value, value of `rand()`) of the list. -/
def atualiza : List (Nat × Nat) → Estado → Estado
  | [], g => g
  | (current_time, rand) :: resto, g => atualiza resto (galton_update current_time rand g)

/-- The states reached from a call of `galton_reset` by calls of `galton_update` and
`galton_set_state`, with any clock values and any results of `rand()`. -/
inductive Alcancavel : Estado → Prop
  | reset (g : Estado) : Alcancavel (galton_reset g)
  | update (current_time rand : Nat) (g : Estado) :
      Alcancavel g → Alcancavel (galton_update current_time rand g)
  | set_state (state : simulation_state_t) (agora : Nat) (g : Estado) :
      Alcancavel g → Alcancavel (galton_set_state state agora g)

/-- What holds in every reachable state: the array has its 8 elements, none negative,
their sum is `current_ball`, and the ball is inside the board. -/
structure Invariante (g : Estado) : Prop where
  comprimento : g.bins.length = 8
  nao_negativos : ∀ b ∈ g.bins, 0 ≤ b
  soma : g.bins.sum = g.current_ball
  bolas : g.current_ball ≤ NUM_BALLS
  posicao_min : 0 ≤ g.ball_position.position
  posicao_max : g.ball_position.position ≤ g.ball_position.current_level
  nivel : g.ball_position.current_level ≤ NUM_LEVELS
  passos_min : 0 ≤ g.ball_position.steps
  passos_max : g.ball_position.steps < 3

end GaltonBoard

/-! ## Theorems: one handler iteration -/

namespace Caldeira

open estado_caldeira_t joystick_dir_t

theorem executa_append (as bs : List Acao) (m : Mundo) :
    executa (as ++ bs) m = executa bs (executa as m) := by
  induction as generalizing m with
  | nil => rfl
  | cons a as ih => simp [executa, ih]

theorem contagem_regressiva_eq (n : Nat) :
    contagem_regressiva n =
      (List.replicate n [Acao.vTaskDelay 1000, Acao.exibir_cor_matriz 255 0 0]).flatten := by
  induction n with
  | zero => rfl
  | succ n ih => simp [contagem_regressiva, List.replicate_succ, ih]

/-- C2. When the handler bound to `S` receives `S`, it runs to the end of its loop
body and leaves in `estado_atual` exactly the literal tuple of `S`, whatever the
prior record `d` and the rest of the queue were. -/
theorem C2_perfil_do_estado (S : estado_caldeira_t) (resto : List estado_caldeira_t)
    (d : dados_caldeira_t) :
    (dono S).vinculo = S ∧
    (∃ m, iteracao (dono S) { fila := S :: resto, estado_atual := d } = some m ∧
      m.estado_atual = perfil_spec S) ∧
    perfil_spec CALDEIRA_OK = ⟨CALDEIRA_OK, 300, 90, 54, true, false, false⟩ ∧
    perfil_spec CALDEIRA_NIVEL_BAIXO = ⟨CALDEIRA_NIVEL_BAIXO, 310, 95, 19, false, true, false⟩ ∧
    perfil_spec CALDEIRA_TEMP_ALTA = ⟨CALDEIRA_TEMP_ALTA, 330, 150, 5, false, false, false⟩ ∧
    perfil_spec CALDEIRA_PRESSAO_ALTA = ⟨CALDEIRA_PRESSAO_ALTA, 500, 120, 54, true, true, true⟩ := by
  refine ⟨by cases S <;> rfl, ⟨_, rfl, ?_⟩, rfl, rfl, rfl, rfl⟩
  cases S <;> rfl

theorem corpo_nao_vinculado (t : Tarefa) (c : estado_caldeira_t) (hc : c ≠ t.vinculo) :
    t.corpo c = [Acao.xQueueSend c, Acao.vTaskDelay t.periodo] := by
  cases t <;> cases c <;> first | rfl | exact absurd rfl hc

/-- C4. A handler that receives a command other than its bound state leaves
`estado_atual` untouched and posts that same value once: starting from a queue
`c :: resto` within the capacity, the queue afterwards is `resto ++ [c]`. -/
theorem C4_comando_alheio_intacto (t : Tarefa) (c : estado_caldeira_t)
    (resto : List estado_caldeira_t) (d : dados_caldeira_t)
    (hc : c ≠ t.vinculo) (hcap : (c :: resto).length ≤ CAPACIDADE_FILA) :
    iteracao t { fila := c :: resto, estado_atual := d } =
      some { fila := resto ++ [c], estado_atual := d } ∧
    envios (t.corpo c) = [c] := by
  have hlen : resto.length < CAPACIDADE_FILA := by
    simp only [List.length_cons] at hcap
    omega
  simp [iteracao, corpo_nao_vinculado t c hc, executa, Acao.efeito, Acao.enfileira,
    Acao.escreve, xQueueSend, hlen, envios]

/-- Witness for C4: `tarefa_caldeira_ok` receives `CALDEIRA_NIVEL_BAIXO`. -/
theorem C4_comando_alheio_intacto_witness :
    iteracao Tarefa.ok
        { fila := [CALDEIRA_NIVEL_BAIXO, CALDEIRA_PRESSAO_ALTA],
          estado_atual := perfil_spec CALDEIRA_TEMP_ALTA } =
      some { fila := [CALDEIRA_PRESSAO_ALTA] ++ [CALDEIRA_NIVEL_BAIXO],
             estado_atual := perfil_spec CALDEIRA_TEMP_ALTA } ∧
    envios (Tarefa.ok.corpo CALDEIRA_NIVEL_BAIXO) = [CALDEIRA_NIVEL_BAIXO] :=
  C4_comando_alheio_intacto Tarefa.ok CALDEIRA_NIVEL_BAIXO [CALDEIRA_PRESSAO_ALTA]
    (perfil_spec CALDEIRA_TEMP_ALTA) (by decide) (by decide)

theorem count_xQueueSend_ne (fila : List estado_caldeira_t) (a b : estado_caldeira_t)
    (h : a ≠ b) : (xQueueSend fila a).count b = fila.count b := by
  unfold xQueueSend
  split
  · simp [List.count_append, List.count_cons, h]
  · rfl

/-- C6. For every command value `S` exactly one handler is bound to `S`; when that
handler receives `S` from the queue `S :: resto`, the queue it leaves holds one
occurrence of `S` less, and none of the posts of its loop body is `S`. -/
theorem C6_reivindicado_uma_vez (S : estado_caldeira_t) (resto : List estado_caldeira_t)
    (d : dados_caldeira_t) :
    (∃! t : Tarefa, t.vinculo = S) ∧
    (dono S).vinculo = S ∧
    (∃ m, iteracao (dono S) { fila := S :: resto, estado_atual := d } = some m ∧
      m.fila.count S + 1 = (S :: resto).count S) ∧
    S ∉ envios ((dono S).corpo S) := by
  refine ⟨⟨dono S, by cases S <;> rfl, ?_⟩, by cases S <;> rfl, ⟨_, rfl, ?_⟩,
    by cases S <;> decide⟩
  · intro t ht
    cases t <;> cases S <;> first | rfl | exact absurd ht (by decide)
  · cases S
    · simp [dono, Tarefa.corpo, tarefa_caldeira_ok, executa, Acao.efeito, Acao.enfileira]
    · simp [dono, Tarefa.corpo, tarefa_caldeira_nivel, executa, Acao.efeito, Acao.enfileira]
    · simp [dono, Tarefa.corpo, tarefa_caldeira_temperatura, executa, Acao.efeito,
        Acao.enfileira]
    · simp [dono, Tarefa.corpo, tarefa_caldeira_pressao, contagem_regressiva, executa,
        Acao.efeito, Acao.enfileira, count_xQueueSend_ne]

/-- C10, as stated, fails: after re-posting the non-matching `CALDEIRA_NIVEL_BAIXO` the
next action of `tarefa_caldeira_ok` is its 500 ms `vTaskDelay`, not the receive; so
it is false that a bounce is followed by no delay. -/
theorem C10_atraso_apos_reenvio :
    Tarefa.ok.corpo CALDEIRA_NIVEL_BAIXO =
      [Acao.xQueueSend CALDEIRA_NIVEL_BAIXO, Acao.vTaskDelay 500] ∧
    ¬ (∀ (t : Tarefa) (c : estado_caldeira_t), c ≠ t.vinculo →
        ∀ ms : Nat, Acao.vTaskDelay ms ∉ t.corpo c) := by
  refine ⟨rfl, fun h => ?_⟩
  exact h Tarefa.ok CALDEIRA_NIVEL_BAIXO (by decide) 500 (by decide)

/-- C10, amended. Every loop iteration of a handler ends with its delay (500, 400, 300
and 200 ms for OK, NIVEL_BAIXO, TEMP_ALTA and PRESSAO_ALTA), after a claim as well as
after a bounce: for a non-matching command the body is exactly the re-post followed
by that delay, and only then does the handler return to `xQueueReceive`. -/
theorem C10_atraso_em_toda_iteracao (t : Tarefa) (c : estado_caldeira_t) :
    (∃ antes, t.corpo c = antes ++ [Acao.vTaskDelay t.periodo] ∧
      ∀ ms : Nat, Acao.vTaskDelay ms ∈ antes → c = t.vinculo) ∧
    (c ≠ t.vinculo → t.corpo c = [Acao.xQueueSend c, Acao.vTaskDelay t.periodo]) ∧
    Tarefa.ok.periodo = 500 ∧ Tarefa.nivel.periodo = 400 ∧
    Tarefa.temperatura.periodo = 300 ∧ Tarefa.pressao.periodo = 200 := by
  refine ⟨?_, corpo_nao_vinculado t c, rfl, rfl, rfl, rfl⟩
  by_cases hc : c = t.vinculo
  · subst hc
    cases t
    · exact ⟨_, rfl, fun _ _ => rfl⟩
    · exact ⟨_, rfl, fun _ _ => rfl⟩
    · exact ⟨_, rfl, fun _ _ => rfl⟩
    · exact ⟨_, rfl, fun _ _ => rfl⟩
  · refine ⟨[Acao.xQueueSend c], by rw [corpo_nao_vinculado t c hc]; rfl, fun ms hms => ?_⟩
    simp at hms

/-- Witness for C10, amended: `tarefa_caldeira_temperatura` receives `CALDEIRA_OK`. -/
theorem C10_atraso_em_toda_iteracao_witness :
    Tarefa.temperatura.corpo CALDEIRA_OK =
      [Acao.xQueueSend CALDEIRA_OK, Acao.vTaskDelay Tarefa.temperatura.periodo] :=
  (C10_atraso_em_toda_iteracao Tarefa.temperatura CALDEIRA_OK).2.1 (by decide)

/-! ## Theorems: the input sampler -/

theorem envios_ciclo_length (dir_anterior d : joystick_dir_t) :
    (envios (tarefa_joystick_ciclo dir_anterior d).1).length =
      if d ≠ JOY_CENTER ∧ d ≠ dir_anterior then 1 else 0 := by
  cases dir_anterior <;> cases d <;> rfl

theorem tarefa_joystick_getD (ds : List joystick_dir_t) :
    ∀ (dir_anterior : joystick_dir_t) (i : Nat), i < ds.length →
      (envios ((tarefa_joystick dir_anterior ds).getD i [])).length =
        if ds.getD i JOY_CENTER ≠ JOY_CENTER ∧
            ds.getD i JOY_CENTER ≠ (dir_anterior :: ds).getD i JOY_CENTER then 1 else 0 := by
  induction ds with
  | nil => intro _ i h; simp at h
  | cons d ds ih =>
    intro dir_anterior i h
    cases i with
    | zero => simpa [tarefa_joystick] using envios_ciclo_length dir_anterior d
    | succ j =>
      have hj : j < ds.length := by simpa using h
      simpa [tarefa_joystick, tarefa_joystick_ciclo] using ih d j hj

theorem tarefa_joystick_mantido (d : joystick_dir_t) (n : Nat) :
    ((tarefa_joystick d (List.replicate n d)).map fun as => (envios as).length) =
      List.replicate n 0 := by
  induction n with
  | zero => rfl
  | succ n ih =>
    have h0 := envios_ciclo_length d d
    simp only [ne_eq, not_true_eq_false, and_false, if_false] at h0
    simp only [List.replicate_succ, tarefa_joystick, List.map_cons, h0]
    exact congrArg _ ih

/-- C3. With `dir_anterior` initialised to `JOY_CENTER`, the sampler posts on cycle `i`
exactly one command if the sampled direction is not `JOY_CENTER` and differs from the
direction of cycle `i - 1` (element `i` of `JOY_CENTER :: ds`), and nothing otherwise.
Holding a non-center direction for `n + 1` cycles posts one command, on the first. -/
theorem C3_emissao_por_transicao (ds : List joystick_dir_t) :
    (∀ (i : Nat) (h : i < ds.length),
      ((envios ((tarefa_joystick JOY_CENTER ds).getD i [])).length = 1 ↔
        (ds[i] ≠ JOY_CENTER ∧ ds[i] ≠ (JOY_CENTER :: ds).getD i JOY_CENTER)) ∧
      ((envios ((tarefa_joystick JOY_CENTER ds).getD i [])).length = 0 ↔
        ¬ (ds[i] ≠ JOY_CENTER ∧ ds[i] ≠ (JOY_CENTER :: ds).getD i JOY_CENTER))) ∧
    (∀ (d : joystick_dir_t) (n : Nat), d ≠ JOY_CENTER →
      ((tarefa_joystick JOY_CENTER (List.replicate (n + 1) d)).map
        fun as => (envios as).length) = 1 :: List.replicate n 0) := by
  constructor
  · intro i h
    have key := tarefa_joystick_getD ds JOY_CENTER i h
    have hget : ds.getD i JOY_CENTER = ds[i] := by
      simp [List.getD_eq_getElem?_getD, List.getElem?_eq_getElem h]
    rw [hget] at key
    by_cases hc : ds[i] ≠ JOY_CENTER ∧ ds[i] ≠ (JOY_CENTER :: ds).getD i JOY_CENTER
    · rw [if_pos hc] at key
      rw [key]
      exact ⟨⟨fun _ => hc, fun _ => rfl⟩, ⟨fun h0 => absurd h0 (by decide), fun hn => absurd hc hn⟩⟩
    · rw [if_neg hc] at key
      rw [key]
      exact ⟨⟨fun h0 => absurd h0 (by decide), fun hp => absurd hp hc⟩, ⟨fun _ => hc, fun _ => rfl⟩⟩
  · intro d n hd
    have h0 := envios_ciclo_length JOY_CENTER d
    rw [if_pos ⟨hd, hd⟩] at h0
    simp only [List.replicate_succ, tarefa_joystick, List.map_cons, h0]
    exact congrArg _ (tarefa_joystick_mantido d n)

/-- Witness for C3: the third cycle of RIGHT, RIGHT, UP, and LEFT held three cycles. -/
theorem C3_emissao_por_transicao_witness :
    ((envios ((tarefa_joystick JOY_CENTER [JOY_RIGHT, JOY_RIGHT, JOY_UP]).getD 2 [])).length = 1 ↔
      ([JOY_RIGHT, JOY_RIGHT, JOY_UP][2] ≠ JOY_CENTER ∧
        [JOY_RIGHT, JOY_RIGHT, JOY_UP][2] ≠
          (JOY_CENTER :: [JOY_RIGHT, JOY_RIGHT, JOY_UP]).getD 2 JOY_CENTER)) ∧
    ((tarefa_joystick JOY_CENTER (List.replicate (2 + 1) JOY_LEFT)).map
        fun as => (envios as).length) = 1 :: List.replicate 2 0 :=
  ⟨((C3_emissao_por_transicao [JOY_RIGHT, JOY_RIGHT, JOY_UP]).1 2 (by decide)).1,
   (C3_emissao_por_transicao []).2 JOY_LEFT 2 (by decide)⟩

/-! ## Theorems: independence of a run from the initial telemetry -/

theorem Escritas.aplica_nada (d : dados_caldeira_t) : Escritas.nada.aplica d = d := rfl

theorem Acao.escreve_eq (a : Acao) (d : dados_caldeira_t) :
    a.escreve d = a.escritas.aplica d := by
  cases a <;> rfl

theorem Escritas.aplica_depois (p q : Escritas) (d : dados_caldeira_t) :
    q.aplica (p.aplica d) = (p.depois q).aplica d := by
  obtain ⟨q1, q2, q3, q4, q5, q6, q7⟩ := q
  cases q1 <;> cases q2 <;> cases q3 <;> cases q4 <;> cases q5 <;> cases q6 <;> cases q7 <;> rfl

theorem getD_sonda {α : Type} (o : Option α) (a b c : α) (hab : a ≠ b)
    (h : o.getD a = o.getD b) : o.getD c = o.getD a := by
  cases o with
  | none => exact absurd h hab
  | some _ => rfl

theorem Escritas.aplica_sonda (p : Escritas) (h : p.aplica sonda0 = p.aplica sonda1)
    (d : dados_caldeira_t) : p.aplica d = p.aplica sonda0 := by
  simp only [Escritas.aplica, dados_caldeira_t.mk.injEq] at h
  obtain ⟨h1, h2, h3, h4, h5, h6, h7⟩ := h
  simp only [Escritas.aplica, dados_caldeira_t.mk.injEq]
  exact ⟨getD_sonda _ _ _ _ (by decide) h1, getD_sonda _ _ _ _ (by norm_num [sonda0, sonda1]) h2,
    getD_sonda _ _ _ _ (by norm_num [sonda0, sonda1]) h3,
    getD_sonda _ _ _ _ (by norm_num [sonda0, sonda1]) h4,
    getD_sonda _ _ _ _ (by decide) h5, getD_sonda _ _ _ _ (by decide) h6,
    getD_sonda _ _ _ _ (by decide) h7⟩

theorem escolhida_com_dados (s : Sistema) (e : dados_caldeira_t) :
    (s.com_dados e).escolhida = s.escolhida := rfl

theorem passo_com_dados (s : Sistema) (t : Tarefa) :
    ∃ p : Escritas, ∀ e, passo (s.com_dados e) t = (passo s t).com_dados (p.aplica e) := by
  cases hc : (s.tcb t).cont with
  | nil =>
    refine ⟨Escritas.nada, fun e => ?_⟩
    cases hf : s.fila with
    | nil =>
      have h1 : ((s.com_dados e).tcb t).cont = [] := by cases t <;> exact hc
      have h2 : (s.com_dados e).fila = [] := hf
      simp only [passo, h1, h2, hc, hf]
      rfl
    | cons c resto =>
      have h1 : ((s.com_dados e).tcb t).cont = [] := by cases t <;> exact hc
      have h2 : (s.com_dados e).fila = c :: resto := hf
      simp only [passo, h1, h2, hc, hf]
      cases t <;> rfl
  | cons a resto =>
    refine ⟨a.escritas, fun e => ?_⟩
    have h1 : ((s.com_dados e).tcb t).cont = a :: resto := by cases t <;> exact hc
    simp only [passo, h1, hc, ← Acao.escreve_eq]
    cases t <;> rfl

theorem assenta_com_dados (n : Nat) :
    ∀ s : Sistema, ∃ p : Escritas, ∀ e,
      assenta n (s.com_dados e) = (assenta n s).map fun r => r.com_dados (p.aplica e) := by
  induction n with
  | zero =>
    intro s
    refine ⟨Escritas.nada, fun e => ?_⟩
    simp only [assenta, escolhida_com_dados]
    split <;> rfl
  | succ n ih =>
    intro s
    cases hs : s.escolhida with
    | none =>
      refine ⟨Escritas.nada, fun e => ?_⟩
      simp only [assenta, escolhida_com_dados, hs]
      rfl
    | some t =>
      obtain ⟨p, hp⟩ := passo_com_dados s t
      obtain ⟨q, hq⟩ := ih (passo s t)
      refine ⟨p.depois q, fun e => ?_⟩
      simp only [assenta, escolhida_com_dados, hs, hp, hq, Escritas.aplica_depois]

theorem posta_com_dados (cs : List estado_caldeira_t) :
    ∀ (s : Sistema) (e : dados_caldeira_t),
      posta cs (s.com_dados e) = (posta cs s).com_dados e := by
  induction cs with
  | nil => intro s e; rfl
  | cons c cs ih =>
    intro s e
    exact ih { s with
      fila := xQueueSend s.fila c
      historico := s.historico ++ [Evento.joystick c] } e

theorem ciclo_com_dados (cs : List estado_caldeira_t) (s : Sistema) :
    ∃ p : Escritas, ∀ e,
      ciclo cs (s.com_dados e) = (ciclo cs s).map fun r => r.com_dados (p.aplica e) := by
  obtain ⟨p, hp⟩ := assenta_com_dados ORCAMENTO (posta cs s)
  refine ⟨p, fun e => ?_⟩
  simp only [ciclo, posta_com_dados, hp, Option.map_map]
  rfl

/-- If the first sampler period from rest ends in the same state for the two probe
records, it ends in that state for every initial telemetry record. -/
theorem ciclo_repouso_sonda (cs : List estado_caldeira_t)
    (h : ciclo cs (repouso sonda0) = ciclo cs (repouso sonda1)) (d : dados_caldeira_t) :
    ciclo cs (repouso d) = ciclo cs (repouso sonda0) := by
  obtain ⟨p, hp⟩ := ciclo_com_dados cs (repouso sonda0)
  have e0 : ∀ e, ciclo cs (repouso e) =
      (ciclo cs (repouso sonda0)).map fun r => r.com_dados (p.aplica e) := hp
  cases hr : ciclo cs (repouso sonda0) with
  | none => rw [e0 d, hr]; rfl
  | some r =>
    have h0 := e0 sonda0
    have h1 := e0 sonda1
    rw [← h, hr] at h1
    rw [hr] at h0
    simp only [Option.map_some', Option.some.injEq] at h0 h1
    have hp01 : p.aplica sonda0 = p.aplica sonda1 := by
      have := congrArg Sistema.estado_atual (h0.symm.trans h1)
      exact this
    rw [e0 d, hr, Option.map_some', Escritas.aplica_sonda p hp01 d, ← h0]

/-! ## Theorems: idle sampler periods -/

theorem ocioso_add (a b : Nat) :
    ∀ s : Sistema, ocioso (a + b) s = (ocioso a s).bind (ocioso b) := by
  induction a with
  | zero => intro s; simp [ocioso]
  | succ a ih =>
    intro s
    rw [Nat.succ_add]
    simp only [ocioso]
    cases ciclo [] s with
    | none => rfl
    | some r => exact ih r

theorem sempre_ocioso (P : Sistema → Bool) (n : Nat) :
    ∀ s : Sistema, sempre P n s = true →
      ∀ k, k ≤ n → ∃ r, ocioso k s = some r ∧ P r = true := by
  induction n with
  | zero =>
    intro s h k hk
    have hk0 : k = 0 := Nat.le_zero.mp hk
    subst hk0
    exact ⟨s, rfl, h⟩
  | succ n ih =>
    intro s h k hk
    simp only [sempre, Bool.and_eq_true] at h
    obtain ⟨hP, hrest⟩ := h
    cases k with
    | zero => exact ⟨s, rfl, hP⟩
    | succ k =>
      cases hc : ciclo [] s with
      | none => rw [hc] at hrest; exact absurd hrest Bool.false_ne_true
      | some r =>
        rw [hc] at hrest
        obtain ⟨r', hr', hP'⟩ := ih r hrest k (Nat.le_of_succ_le_succ hk)
        exact ⟨r', by simp only [ocioso, hc, Option.some_bind, hr'], hP'⟩

theorem ciclo_parada (s : Sistema) (h : s.parada = true) :
    ciclo [] s = some { s with agora := s.agora + 100 } := by
  simp only [Sistema.parada, Bool.and_eq_true, List.isEmpty_iff] at h
  obtain ⟨⟨⟨⟨hf, h1⟩, h2⟩, h3⟩, h4⟩ := h
  have he : s.escolhida = none := by
    simp [Sistema.escolhida, ordem_de_prioridade, Sistema.pronta, Sistema.tcb, hf, h1, h2, h3, h4]
  simp [ciclo, posta, ORCAMENTO, assenta, he]

theorem ocioso_parada (k : Nat) :
    ∀ s : Sistema, s.parada = true →
      ∃ r, ocioso k s = some r ∧ r.parada = true ∧ r.historico = s.historico ∧
        r.estado_atual = s.estado_atual := by
  induction k with
  | zero => intro s h; exact ⟨s, rfl, h, rfl, rfl⟩
  | succ k ih =>
    intro s h
    obtain ⟨r, hr, hp, hh, he⟩ := ih { s with agora := s.agora + 100 } h
    exact ⟨r, by simp only [ocioso, ciclo_parada s h, Option.some_bind, hr], hp, hh, he⟩

/-- If `P`, which reads only the record of the run, holds over `n` idle periods
and the system is then at rest, `P` holds after any number of idle periods. -/
theorem ocioso_sempre (Q : List Evento → Bool) (n : Nat) (s : Sistema)
    (h : sempre (fun r => Q r.historico) n s = true)
    (hp : sempre Sistema.parada 0 ((ocioso n s).getD s) = true) :
    ∀ k, ∃ r, ocioso k s = some r ∧ Q r.historico = true := by
  intro k
  by_cases hk : k ≤ n
  · exact sempre_ocioso _ n s h k hk
  · obtain ⟨rn, hrn, hQ⟩ := sempre_ocioso _ n s h n (Nat.le_refl n)
    rw [hrn] at hp
    obtain ⟨r, hr, _, hh, _⟩ := ocioso_parada (k - n) rn hp
    refine ⟨r, ?_, by rw [hh]; exact hQ⟩
    have : k = n + (k - n) := by omega
    rw [this, ocioso_add, hrn]
    exact hr

/-! ## Theorems: the four handlers together -/

/-- The scheduler scans the handlers by strictly descending `uxPriority`, and scans all of them. -/
theorem ordem_de_prioridade_decrescente :
    ordem_de_prioridade.map Tarefa.prioridade = [4, 3, 2, 1] ∧
    ∀ t : Tarefa, t ∈ ordem_de_prioridade := by
  refine ⟨rfl, fun t => ?_⟩
  cases t <;> decide

theorem ciclo_um_comando (S : estado_caldeira_t) (d : dados_caldeira_t) :
    ciclo [S] (repouso d) = ciclo [S] (repouso sonda0) :=
  ciclo_repouso_sonda [S] (by cases S <;> decide!) d

/-- C1. With all four handlers blocked in `xQueueReceive` on the empty queue and
the highest-priority waiter released first, a command `S` posted once is received
by the handlers of priority 4, 3, ... down to the priority of the handler bound to
`S`, in strictly descending order; that handler is the only one to claim it; and
however many sampler periods follow without a new post, nobody else receives `S`. -/
theorem C1_despacho_por_prioridade (S : estado_caldeira_t) (d : dados_caldeira_t) :
    (dono S).vinculo = S ∧
    ∃ s, ciclo [S] (repouso d) = some s ∧
      (recebedores S s.historico).map Tarefa.prioridade =
        (List.range' (dono S).prioridade (5 - (dono S).prioridade)).reverse ∧
      ((recebedores S s.historico).map Tarefa.prioridade).Pairwise (fun a b => a > b) ∧
      reivindicacoes s.historico = [(dono S, S)] ∧
      ∀ k, ∃ r, ocioso k s = some r ∧
        recebedores S r.historico = recebedores S s.historico := by
  refine ⟨by cases S <;> rfl, ?_⟩
  rw [ciclo_um_comando S d]
  have key : ∃ s ∈ ciclo [S] (repouso sonda0),
      ((recebedores S s.historico).map Tarefa.prioridade =
        (List.range' (dono S).prioridade (5 - (dono S).prioridade)).reverse ∧
      ((recebedores S s.historico).map Tarefa.prioridade).Pairwise (fun a b => a > b) ∧
      reivindicacoes s.historico = [(dono S, S)]) ∧
      sempre (fun r => decide (recebedores S r.historico = recebedores S s.historico)) 51 s = true ∧
      sempre Sistema.parada 0 ((ocioso 51 s).getD s) = true := by
    cases S <;> decide!
  obtain ⟨s, hs, ⟨h1, h2, h3⟩, h4, h5⟩ := key
  refine ⟨s, hs, h1, h2, h3, fun k => ?_⟩
  obtain ⟨r, hr, hq⟩ := ocioso_sempre
    (fun h => decide (recebedores S h = recebedores S s.historico)) 51 s h4 h5 k
  exact ⟨r, hr, of_decide_eq_true hq⟩


/-- C7, as stated, fails. Joystick UP, CENTER, UP, then centred: the first
`CALDEIRA_PRESSAO_ALTA` is claimed at once and its handler sleeps in the countdown
(until t = 1000 ms); the second one, posted at t = 200 ms, is re-posted by the other
three handlers at 200, 200, 200, 500, 600, 700 and 800 ms, seven times, and is still
unclaimed in the queue at t = 900 ms. -/
theorem C7_eco_alem_de_tres :
    ∃ s, sistema [JOY_UP, JOY_CENTER, JOY_UP, JOY_CENTER, JOY_CENTER, JOY_CENTER, JOY_CENTER,
          JOY_CENTER, JOY_CENTER] JOY_CENTER (repouso (perfil_spec CALDEIRA_OK)) = some s ∧
      s.agora = 900 ∧
      postados s.historico = [CALDEIRA_PRESSAO_ALTA, CALDEIRA_PRESSAO_ALTA] ∧
      reivindicacoes s.historico = [(Tarefa.pressao, CALDEIRA_PRESSAO_ALTA)] ∧
      recebedores CALDEIRA_PRESSAO_ALTA s.historico =
        [Tarefa.pressao, Tarefa.temperatura, Tarefa.nivel, Tarefa.ok, Tarefa.temperatura,
         Tarefa.nivel, Tarefa.ok, Tarefa.temperatura] ∧
      reenvios s.historico =
        [(Tarefa.temperatura, CALDEIRA_PRESSAO_ALTA), (Tarefa.nivel, CALDEIRA_PRESSAO_ALTA),
         (Tarefa.ok, CALDEIRA_PRESSAO_ALTA), (Tarefa.temperatura, CALDEIRA_PRESSAO_ALTA),
         (Tarefa.nivel, CALDEIRA_PRESSAO_ALTA), (Tarefa.ok, CALDEIRA_PRESSAO_ALTA),
         (Tarefa.temperatura, CALDEIRA_PRESSAO_ALTA)] ∧
      s.fila = [CALDEIRA_PRESSAO_ALTA] ∧
      3 < (reenvios s.historico).length := by
  have key : ∃ s ∈ sistema [JOY_UP, JOY_CENTER, JOY_UP, JOY_CENTER, JOY_CENTER, JOY_CENTER,
          JOY_CENTER, JOY_CENTER, JOY_CENTER] JOY_CENTER (repouso (perfil_spec CALDEIRA_OK)),
      s.agora = 900 ∧
      postados s.historico = [CALDEIRA_PRESSAO_ALTA, CALDEIRA_PRESSAO_ALTA] ∧
      reivindicacoes s.historico = [(Tarefa.pressao, CALDEIRA_PRESSAO_ALTA)] ∧
      recebedores CALDEIRA_PRESSAO_ALTA s.historico =
        [Tarefa.pressao, Tarefa.temperatura, Tarefa.nivel, Tarefa.ok, Tarefa.temperatura,
         Tarefa.nivel, Tarefa.ok, Tarefa.temperatura] ∧
      reenvios s.historico =
        [(Tarefa.temperatura, CALDEIRA_PRESSAO_ALTA), (Tarefa.nivel, CALDEIRA_PRESSAO_ALTA),
         (Tarefa.ok, CALDEIRA_PRESSAO_ALTA), (Tarefa.temperatura, CALDEIRA_PRESSAO_ALTA),
         (Tarefa.nivel, CALDEIRA_PRESSAO_ALTA), (Tarefa.ok, CALDEIRA_PRESSAO_ALTA),
         (Tarefa.temperatura, CALDEIRA_PRESSAO_ALTA)] ∧
      s.fila = [CALDEIRA_PRESSAO_ALTA] ∧
      3 < (reenvios s.historico).length := by
    decide!
  exact key

theorem passo_eq_apos (s : Sistema) (t : Tarefa) :
    passo s t =
      match (s.tcb t).cont, s.fila with
      | [], [] => s
      | [], c :: resto =>
        s.apos t { cont := t.corpo c, acorda := (s.tcb t).acorda } resto s.estado_atual
          [Evento.recebe t c]
      | a :: resto, _ =>
        s.apos t
          { cont := resto
            acorda := match a with
              | Acao.vTaskDelay ms => s.agora + ms
              | _ => (s.tcb t).acorda }
          (a.enfileira s.fila) (a.escreve s.estado_atual) [Evento.faz t a] := by
  unfold passo
  cases hc : (s.tcb t).cont with
  | nil =>
    cases hf : s.fila with
    | nil => rfl
    | cons c resto => cases t <;> rfl
  | cons a resto => cases t <;> rfl

theorem apos_tcb (s : Sistema) (t u : Tarefa) (b : TCB) (f : List estado_caldeira_t)
    (e : dados_caldeira_t) (ev : List Evento) :
    (s.apos t b f e ev).tcb u = if u = t then b else s.tcb u := by
  cases t <;> cases u <;> rfl

theorem apos_campos (s : Sistema) (t : Tarefa) (b : TCB) (f : List estado_caldeira_t)
    (e : dados_caldeira_t) (ev : List Evento) :
    (s.apos t b f e ev).agora = s.agora ∧ (s.apos t b f e ev).fila = f ∧
    (s.apos t b f e ev).estado_atual = e ∧
    (s.apos t b f e ev).historico = s.historico ++ ev := by
  cases t <;> exact ⟨rfl, rfl, rfl, rfl⟩

theorem pronta_eq (s : Sistema) (t : Tarefa) :
    s.pronta t = (s.acordada t && (!(s.tcb t).cont.isEmpty || !s.fila.isEmpty)) := rfl

theorem pronta_instante (h0 : List Evento) (s n : Sistema) (h : Instante h0 s n)
    (t : Tarefa) : s.pronta t = n.pronta t := by
  rw [pronta_eq, pronta_eq, ← h.acordada t, ← h.fila]
  cases ha : s.acordada t with
  | false => rfl
  | true => rw [h.cont t ha]

theorem escolhida_instante (h0 : List Evento) (s n : Sistema) (h : Instante h0 s n) :
    s.escolhida = n.escolhida := by
  have : s.pronta = n.pronta := funext (pronta_instante h0 s n h)
  simp only [Sistema.escolhida, this]

theorem acordada_apos (s : Sistema) (t u : Tarefa) (b : TCB) (f : List estado_caldeira_t)
    (e : dados_caldeira_t) (ev : List Evento) :
    (s.apos t b f e ev).acordada u =
      if u = t then decide (b.acorda ≤ s.agora) else s.acordada u := by
  simp only [Sistema.acordada, apos_tcb, (apos_campos s t b f e ev).1]
  split <;> rfl

theorem instante_apos (h0 : List Evento) (s n : Sistema) (h : Instante h0 s n) (t : Tarefa)
    (bs bn : TCB) (f : List estado_caldeira_t) (es en : dados_caldeira_t) (ev : List Evento)
    (hcont : bs.cont = bn.cont)
    (hac : decide (bs.acorda ≤ s.agora) = decide (bn.acorda ≤ n.agora)) :
    Instante h0 (s.apos t bs f es ev) (n.apos t bn f en ev) := by
  refine ⟨?_, fun u => ?_, fun u => ?_, ?_⟩
  · rw [(apos_campos s t bs f es ev).2.1, (apos_campos n t bn f en ev).2.1]
  · rw [acordada_apos, acordada_apos]
    by_cases hu : u = t
    · rw [if_pos hu, if_pos hu]; exact hac
    · rw [if_neg hu, if_neg hu]; exact h.acordada u
  · rw [acordada_apos, apos_tcb, apos_tcb]
    by_cases hu : u = t
    · rw [if_pos hu, if_pos hu, if_pos hu]; exact fun _ => hcont
    · rw [if_neg hu, if_neg hu, if_neg hu]; exact h.cont u
  · rw [(apos_campos s t bs f es ev).2.2.2, (apos_campos n t bn f en ev).2.2.2, h.historico,
      List.append_assoc]

theorem passo_instante (h0 : List Evento) (s n : Sistema) (h : Instante h0 s n) (t : Tarefa)
    (ht : s.acordada t = true) : Instante h0 (passo s t) (passo n t) := by
  have hc := h.cont t ht
  have hf := h.fila
  have hat := h.acordada t
  rw [passo_eq_apos s t, passo_eq_apos n t, ← hc, ← hf]
  cases hcs : (s.tcb t).cont with
  | nil =>
    cases hfs : s.fila with
    | nil => exact h
    | cons c resto =>
      exact instante_apos h0 s n h t _ _ _ _ _ _ rfl hat
  | cons a resto =>
    refine instante_apos h0 s n h t _ _ _ _ _ _ rfl ?_
    cases a with
    | vTaskDelay ms =>
      show decide (s.agora + ms ≤ s.agora) = decide (n.agora + ms ≤ n.agora)
      by_cases hms : ms = 0
      · subst hms; simp
      · have h1 : ¬ (s.agora + ms ≤ s.agora) := by omega
        have h2 : ¬ (n.agora + ms ≤ n.agora) := by omega
        simp [h1, h2]
    | _ => exact hat

theorem assenta_instante (h0 : List Evento) (k : Nat) :
    ∀ s n : Sistema, Instante h0 s n → ∀ r2, assenta k n = some r2 →
      ∃ r, assenta k s = some r ∧ Instante h0 r r2 := by
  induction k with
  | zero =>
    intro s n h r2 hr
    have he := escolhida_instante h0 s n h
    simp only [assenta] at hr ⊢
    rw [he]
    split at hr
    · rename_i hn
      rw [if_pos hn]
      simp only [Option.some.injEq] at hr
      subst hr
      exact ⟨s, rfl, h⟩
    · cases hr
  | succ k ih =>
    intro s n h r2 hr
    have he := escolhida_instante h0 s n h
    simp only [assenta] at hr ⊢
    rw [he]
    cases hn : n.escolhida with
    | none =>
      rw [hn] at hr
      simp only [Option.some.injEq] at hr
      subst hr
      exact ⟨s, rfl, h⟩
    | some t =>
      rw [hn] at hr
      have hp : s.pronta t = true := by
        have := List.find?_some (he.trans hn)
        exact this
      have ha : s.acordada t = true := by
        rw [pronta_eq] at hp
        simp only [Bool.and_eq_true] at hp
        exact hp.1
      exact ih (passo s t) (passo n t) (passo_instante h0 s n h t ha) r2 hr

theorem posta_instante (h0 : List Evento) (cs : List estado_caldeira_t) :
    ∀ s n : Sistema, Instante h0 s n → Instante h0 (posta cs s) (posta cs n) := by
  induction cs with
  | nil => intro s n h; exact h
  | cons c cs ih =>
    intro s n h
    refine ih _ _ ⟨?_, fun t => ?_, fun t => ?_, ?_⟩
    · show xQueueSend s.fila c = xQueueSend n.fila c
      rw [h.fila]
    · have := h.acordada t
      cases t <;> exact this
    · have := h.cont t
      cases t <;> exact this
    · show s.historico ++ [Evento.joystick c] = h0 ++ (n.historico ++ [Evento.joystick c])
      rw [h.historico, List.append_assoc]

theorem selecao_eta (f : Tarefa → Bool) :
    selecao (f Tarefa.ok) (f Tarefa.nivel) (f Tarefa.temperatura) (f Tarefa.pressao) = f := by
  funext t
  cases t <;> rfl

theorem instante_bloqueadas (s : Sistema) (hfila : s.fila = [])
    (hcont : ∀ t, (s.tcb t).cont = [] ∨ s.agora < (s.tcb t).acorda) :
    Instante s.historico s (bloqueadas s.acordada) := by
  refine ⟨hfila, fun t => ?_, fun t ht => ?_, (List.append_nil _).symm⟩
  · cases t <;>
      · simp only [bloqueadas, Sistema.acordada, Sistema.tcb]
        split <;> simp_all [Sistema.acordada, Sistema.tcb]
  · have hn : ((bloqueadas s.acordada).tcb t).cont = [] := by cases t <;> rfl
    rw [hn]
    rcases hcont t with hc | hd
    · exact hc
    · simp only [Sistema.acordada, decide_eq_true_eq] at ht
      omega

theorem eco_bloqueadas (S : estado_caldeira_t) (b1 b2 b3 b4 : Bool) :
    selecao b1 b2 b3 b4 (dono S) = true →
    ∃ r ∈ assenta ORCAMENTO (posta [S] (bloqueadas (selecao b1 b2 b3 b4))),
      postados r.historico = [S] ∧
      reenvios r.historico =
        (ordem_de_prioridade.filter (fun t =>
          decide ((dono S).prioridade < t.prioridade) && selecao b1 b2 b3 b4 t)).map
          (fun t => (t, S)) ∧
      (reenvios r.historico).length ≤ 4 - (dono S).prioridade ∧
      (reenvios r.historico).length ≤ 3 ∧
      ((b1 && b2 && b3 && b4) = true →
        (reenvios r.historico).length = 4 - (dono S).prioridade) ∧
      recebedores S r.historico =
        ordem_de_prioridade.filter (fun t =>
          decide ((dono S).prioridade < t.prioridade) && selecao b1 b2 b3 b4 t) ++ [dono S] ∧
      reivindicacoes r.historico = [(dono S, S)] ∧
      r.fila = [] := by
  cases S <;> cases b1 <;> cases b2 <;> cases b3 <;> cases b4 <;> decide!

/-- C7, amended. A command `S` posted while its owning handler is blocked on the queue
(waiting in `xQueueReceive` on the empty queue), every other handler being blocked on the
queue as well or asleep in a delay, is re-posted once by each handler of higher priority
that is blocked on the queue, in descending priority, hence at most `4 - priority` times
and at most 3 times (exactly `4 - priority` times when no handler is in a delay); it is
then claimed by its owning handler in the same instant and the queue is empty again. -/
theorem C7_eco_limitado (s : Sistema) (S : estado_caldeira_t)
    (hfila : s.fila = [])
    (hdono : (s.tcb (dono S)).cont = [] ∧ (s.tcb (dono S)).acorda ≤ s.agora)
    (houtras : ∀ t, (s.tcb t).cont = [] ∨ s.agora < (s.tcb t).acorda) :
    ∃ r novos, ciclo [S] s = some r ∧ r.historico = s.historico ++ novos ∧
      postados novos = [S] ∧
      reenvios novos =
        (ordem_de_prioridade.filter (fun t =>
          decide ((dono S).prioridade < t.prioridade) && s.acordada t)).map
          (fun t => (t, S)) ∧
      (reenvios novos).length ≤ 4 - (dono S).prioridade ∧
      (reenvios novos).length ≤ 3 ∧
      ((∀ t, s.acordada t = true) → (reenvios novos).length = 4 - (dono S).prioridade) ∧
      recebedores S novos =
        ordem_de_prioridade.filter (fun t =>
          decide ((dono S).prioridade < t.prioridade) && s.acordada t) ++ [dono S] ∧
      reivindicacoes novos = [(dono S, S)] ∧
      r.fila = [] := by
  have hi := posta_instante s.historico [S] s _ (instante_bloqueadas s hfila houtras)
  have hd : s.acordada (dono S) = true := by
    simp only [Sistema.acordada, decide_eq_true_eq]
    exact hdono.2
  have hb := eco_bloqueadas S (s.acordada Tarefa.ok) (s.acordada Tarefa.nivel)
    (s.acordada Tarefa.temperatura) (s.acordada Tarefa.pressao)
  rw [selecao_eta] at hb
  obtain ⟨r2, hr2, h1, h2, h3, h4, h5, h6, h7, h8⟩ := hb hd
  obtain ⟨r, hr, hrel⟩ := assenta_instante s.historico ORCAMENTO _ _ hi r2 hr2
  refine ⟨{ r with agora := r.agora + 100 }, r2.historico, ?_, hrel.historico, h1, h2, h3, h4,
    fun ht => h5 ?_, h6, h7, hrel.fila.trans h8⟩
  · simp only [ciclo, hr, Option.map_some']
  · simp only [ht, Bool.and_self]

/-- Witness for C7, amended: `CALDEIRA_NIVEL_BAIXO` posted with `tarefa_caldeira_pressao`
asleep in its countdown and the other handlers blocked on the queue. -/
theorem C7_eco_limitado_witness :
    ∃ r novos,
      ciclo [CALDEIRA_NIVEL_BAIXO]
        { repouso estado_atual with
          agora := 100
          pressao := { cont := contagem_regressiva 5 ++
                        [Acao.xQueueSend CALDEIRA_OK, Acao.vTaskDelay 200],
                       acorda := 1000 } } = some r ∧
      r.historico = [] ++ novos ∧
      reenvios novos = [(Tarefa.temperatura, CALDEIRA_NIVEL_BAIXO)] ∧
      reivindicacoes novos = [(Tarefa.nivel, CALDEIRA_NIVEL_BAIXO)] ∧
      r.fila = [] :=
  have h := C7_eco_limitado
    { repouso estado_atual with
      agora := 100
      pressao := { cont := contagem_regressiva 5 ++
                    [Acao.xQueueSend CALDEIRA_OK, Acao.vTaskDelay 200],
                   acorda := 1000 } }
    CALDEIRA_NIVEL_BAIXO rfl ⟨rfl, by decide⟩
    (fun t => by cases t <;> decide)
  h.imp fun _ h2 => h2.imp fun _ h3 => ⟨h3.1, h3.2.1, h3.2.2.2.1, h3.2.2.2.2.2.2.2.2.1,
    h3.2.2.2.2.2.2.2.2.2⟩

theorem sistema_repouso_sonda (x : joystick_dir_t) (ds : List joystick_dir_t)
    (dir_anterior : joystick_dir_t)
    (h : ciclo (envios (tarefa_joystick_ciclo dir_anterior x).1) (repouso sonda0) =
      ciclo (envios (tarefa_joystick_ciclo dir_anterior x).1) (repouso sonda1))
    (d : dados_caldeira_t) :
    sistema (x :: ds) dir_anterior (repouso d) =
      sistema (x :: ds) dir_anterior (repouso sonda0) := by
  simp only [sistema]
  rw [ciclo_repouso_sonda _ h d]

/-- C9. `CALDEIRA_PRESSAO_ALTA` is posted and `CALDEIRA_OK` right after it (one sampler
period later, joystick UP then RIGHT; or both before any handler runs). In both
cases the emergency handler still performs its whole body (five countdown
iterations, then its own `CALDEIRA_OK` post), and two separate `CALDEIRA_OK` commands
go through the queue: each is bounced by `tarefa_caldeira_temperatura` and
`tarefa_caldeira_nivel` and claimed by `tarefa_caldeira_ok`. -/
theorem C9_recuperacao_nao_deduplicada (d : dados_caldeira_t) :
    (∃ s, sistema ([JOY_UP, JOY_RIGHT] ++ List.replicate 49 JOY_RIGHT) JOY_CENTER (repouso d)
        = some s ∧
      postados s.historico = [CALDEIRA_PRESSAO_ALTA, CALDEIRA_OK] ∧
      acoes_de Tarefa.pressao s.historico = tarefa_caldeira_pressao CALDEIRA_PRESSAO_ALTA ∧
      reivindicacoes s.historico =
        [(Tarefa.pressao, CALDEIRA_PRESSAO_ALTA), (Tarefa.ok, CALDEIRA_OK),
         (Tarefa.ok, CALDEIRA_OK)] ∧
      recebedores CALDEIRA_OK s.historico =
        [Tarefa.temperatura, Tarefa.nivel, Tarefa.ok,
         Tarefa.temperatura, Tarefa.nivel, Tarefa.ok]) ∧
    (∃ s, (ciclo [CALDEIRA_PRESSAO_ALTA, CALDEIRA_OK] (repouso d)).bind (ocioso 50) = some s ∧
      postados s.historico = [CALDEIRA_PRESSAO_ALTA, CALDEIRA_OK] ∧
      acoes_de Tarefa.pressao s.historico = tarefa_caldeira_pressao CALDEIRA_PRESSAO_ALTA ∧
      reivindicacoes s.historico =
        [(Tarefa.pressao, CALDEIRA_PRESSAO_ALTA), (Tarefa.ok, CALDEIRA_OK),
         (Tarefa.ok, CALDEIRA_OK)] ∧
      recebedores CALDEIRA_OK s.historico =
        [Tarefa.temperatura, Tarefa.nivel, Tarefa.ok,
         Tarefa.temperatura, Tarefa.nivel, Tarefa.ok]) := by
  have e1 : sistema ([JOY_UP, JOY_RIGHT] ++ List.replicate 49 JOY_RIGHT) JOY_CENTER (repouso d) =
      sistema ([JOY_UP, JOY_RIGHT] ++ List.replicate 49 JOY_RIGHT) JOY_CENTER (repouso sonda0) :=
    sistema_repouso_sonda JOY_UP _ JOY_CENTER (by decide!) d
  rw [e1, ciclo_repouso_sonda [CALDEIRA_PRESSAO_ALTA, CALDEIRA_OK] (by decide!) d]
  have key :
      (∃ s ∈ sistema ([JOY_UP, JOY_RIGHT] ++ List.replicate 49 JOY_RIGHT) JOY_CENTER
          (repouso sonda0),
        postados s.historico = [CALDEIRA_PRESSAO_ALTA, CALDEIRA_OK] ∧
        acoes_de Tarefa.pressao s.historico = tarefa_caldeira_pressao CALDEIRA_PRESSAO_ALTA ∧
        reivindicacoes s.historico =
          [(Tarefa.pressao, CALDEIRA_PRESSAO_ALTA), (Tarefa.ok, CALDEIRA_OK),
           (Tarefa.ok, CALDEIRA_OK)] ∧
        recebedores CALDEIRA_OK s.historico =
          [Tarefa.temperatura, Tarefa.nivel, Tarefa.ok,
           Tarefa.temperatura, Tarefa.nivel, Tarefa.ok]) ∧
      (∃ s ∈ (ciclo [CALDEIRA_PRESSAO_ALTA, CALDEIRA_OK] (repouso sonda0)).bind (ocioso 50),
        postados s.historico = [CALDEIRA_PRESSAO_ALTA, CALDEIRA_OK] ∧
        acoes_de Tarefa.pressao s.historico = tarefa_caldeira_pressao CALDEIRA_PRESSAO_ALTA ∧
        reivindicacoes s.historico =
          [(Tarefa.pressao, CALDEIRA_PRESSAO_ALTA), (Tarefa.ok, CALDEIRA_OK),
           (Tarefa.ok, CALDEIRA_OK)] ∧
        recebedores CALDEIRA_OK s.historico =
          [Tarefa.temperatura, Tarefa.nivel, Tarefa.ok,
           Tarefa.temperatura, Tarefa.nivel, Tarefa.ok]) := by
    decide!
  exact key


/-! ## Theorems: preemption inside the write sequence -/

theorem corpo_sem_escrita (t : Tarefa) (x : estado_caldeira_t) :
    em_escrita (t.corpo x) = false := by
  cases t <;> cases x <;> decide!

theorem corpo_passo (t : Tarefa) (x S0 : estado_caldeira_t) :
    ∀ c ∈ (t.corpo x).tails, ∀ a ∈ c.head?,
      (em_escrita c.tail = true → a.armazena = true) ∧
      ∃ S1, a.escreve (escreve_todas (feitas t c) (perfil_spec S0)) =
        escreve_todas (feitas t c.tail) (perfil_spec S1) := by
  cases t <;> cases x <;> cases S0 <;> decide!

theorem em_escrita_nao_vazia (c : List Acao) (h : em_escrita c = true) : c ≠ [] := by
  intro hc
  subst hc
  exact absurd h (by decide)

theorem escolhida_some_pronta (s : Sistema) (t : Tarefa) (h : s.escolhida = some t) :
    s.pronta t = true := List.find?_some h

theorem acorda_armazena (a : Acao) (g x : Nat) :
    a.armazena = true →
      (match a with
        | Acao.vTaskDelay ms => g + ms
        | _ => x) = x := by
  intro ha
  cases a <;> first | rfl | cases ha

theorem enfileira_armazena (a : Acao) (ha : a.armazena = true)
    (fila : List estado_caldeira_t) : a.enfileira fila = fila := by
  cases a <;> first | rfl | cases ha

theorem escolhida_apos_escrita (s : Sistema) (t : Tarefa) (a : Acao) (resto : List Acao)
    (h : s.escolhida = some t) (hc : (s.tcb t).cont = a :: resto) (ha : a.armazena = true)
    (hr : resto ≠ []) : (passo s t).escolhida = some t := by
  have hp := escolhida_some_pronta s t h
  have hat : s.acordada t = true := by
    rw [pronta_eq] at hp
    simp only [Bool.and_eq_true] at hp
    exact hp.1
  have e : (passo s t).pronta = s.pronta := by
    funext u
    rw [passo_eq_apos, hc, pronta_eq, pronta_eq, acordada_apos, apos_tcb,
      (apos_campos _ _ _ _ _ _).2.1]
    rw [enfileira_armazena a ha, acorda_armazena a _ _ ha]
    by_cases hu : u = t
    · subst hu
      rw [if_pos rfl, if_pos rfl]
      have h1 : decide ((s.tcb u).acorda ≤ s.agora) = true := hat
      have h2 : s.acordada u = true := hat
      rw [h1, h2, hc]
      cases resto with
      | nil => exact absurd rfl hr
      | cons b r => rfl
    · rw [if_neg hu, if_neg hu]
  simp only [Sistema.escolhida, e] at h ⊢
  exact h

theorem tcb_avanca_tique (s : Sistema) (ms : Nat) (t : Tarefa) :
    ({ s with agora := s.agora + ms } : Sistema).tcb t = s.tcb t := by
  cases t <;> rfl

theorem tcb_posta (cs : List estado_caldeira_t) :
    ∀ (s : Sistema) (t : Tarefa), (posta cs s).tcb t = s.tcb t := by
  induction cs with
  | nil => intro s t; rfl
  | cons c cs ih =>
    intro s t
    rw [posta, ih]
    cases t <;> rfl

theorem estado_posta (cs : List estado_caldeira_t) :
    ∀ s : Sistema, (posta cs s).estado_atual = s.estado_atual := by
  induction cs with
  | nil => intro s; rfl
  | cons c cs ih =>
    intro s
    rw [posta, ih]

theorem um_escritor_sem_escritor (s : Sistema) (h : UmEscritor s) (t : Tarefa)
    (hesc : s.escolhida = some t) : ∀ u, u ≠ t → em_escrita (s.tcb u).cont = false := by
  intro u hu
  cases he : em_escrita (s.tcb u).cont with
  | false => rfl
  | true =>
    have := (h.escolhida u he).symm.trans hesc
    exact absurd (Option.some.inj this) hu

theorem um_escritor_registro (s : Sistema) (h : UmEscritor s) (t : Tarefa)
    (hesc : s.escolhida = some t) :
    ∃ S0, s.estado_atual = escreve_todas (feitas t (s.tcb t).cont) (perfil_spec S0) := by
  obtain ⟨S0, t0, h1, h2⟩ := h.registro
  refine ⟨S0, ?_⟩
  by_cases ht : t0 = t
  · subst ht; exact h2
  · have a : em_escrita (s.tcb t0).cont = false :=
      um_escritor_sem_escritor s h t hesc t0 ht
    have b : em_escrita (s.tcb t).cont = false := h1 t (fun e => ht e.symm)
    rw [h2]
    simp only [feitas, a, b, Bool.false_eq_true, if_false]

theorem um_escritor_passo (s : Sistema) (h : UmEscritor s) (t : Tarefa)
    (hesc : s.escolhida = some t) : UmEscritor (passo s t) := by
  have houtras := um_escritor_sem_escritor s h t hesc
  obtain ⟨S0, hreg⟩ := um_escritor_registro s h t hesc
  obtain ⟨x, hx⟩ := h.forma t
  rw [passo_eq_apos]
  cases hc : (s.tcb t).cont with
  | nil =>
    cases hf : s.fila with
    | nil => exact h
    | cons c resto =>
      refine ⟨fun u => ?_, fun u hu => ?_, ⟨S0, t, fun u hu => ?_, ?_⟩⟩
      · rw [apos_tcb]
        by_cases huq : u = t
        · subst huq
          rw [if_pos rfl]
          exact ⟨c, (List.mem_tails _ _).mpr (List.suffix_refl _)⟩
        · rw [if_neg huq]; exact h.forma u
      · rw [apos_tcb] at hu
        by_cases huq : u = t
        · subst huq
          rw [if_pos rfl] at hu
          rw [corpo_sem_escrita] at hu
          cases hu
        · rw [if_neg huq] at hu
          rw [houtras u huq] at hu
          cases hu
      · rw [apos_tcb, if_neg hu]
        exact houtras u hu
      · rw [apos_tcb, if_pos rfl, (apos_campos _ _ _ _ _ _).2.2.1, hreg, hc]
        simp only [feitas, corpo_sem_escrita, Bool.false_eq_true, if_false]
        rfl
  | cons a resto =>
    rw [hc] at hx hreg
    have hfatos := corpo_passo t x S0 (a :: resto) hx a rfl
    obtain ⟨harm, S1, hS1⟩ := hfatos
    have hresto : resto ∈ (t.corpo x).tails :=
      (List.mem_tails _ _).mpr ((List.suffix_cons a resto).trans ((List.mem_tails _ _).mp hx))
    refine ⟨fun u => ?_, fun u hu => ?_, ⟨S1, t, fun u hu => ?_, ?_⟩⟩
    · rw [apos_tcb]
      by_cases huq : u = t
      · subst huq
        rw [if_pos rfl]
        exact ⟨x, hresto⟩
      · rw [if_neg huq]; exact h.forma u
    · rw [apos_tcb] at hu
      by_cases huq : u = t
      · subst huq
        rw [if_pos rfl] at hu
        have := escolhida_apos_escrita s u a resto hesc hc (harm hu) (em_escrita_nao_vazia _ hu)
        rw [passo_eq_apos, hc] at this
        exact this
      · rw [if_neg huq] at hu
        rw [houtras u huq] at hu
        cases hu
    · rw [apos_tcb, if_neg hu]
      exact houtras u hu
    · rw [apos_tcb, if_pos rfl, (apos_campos _ _ _ _ _ _).2.2.1, hreg]
      exact hS1

theorem um_escritor_avanca (s : Sistema) (h : UmEscritor s) (e : Entrada)
    (hg : (decide (e = Entrada.corre) ||
      s.escritores.all fun t => decide ((avanca s e).escolhida = some t)) = true) :
    UmEscritor (avanca s e) := by
  have hmem : ∀ t, em_escrita (s.tcb t).cont = true → t ∈ s.escritores := by
    intro t ht
    simp only [Sistema.escritores, List.mem_filter]
    exact ⟨(ordem_de_prioridade_decrescente).2 t, ht⟩
  cases e with
  | corre =>
    simp only [avanca]
    cases hesc : s.escolhida with
    | none => exact h
    | some t => exact um_escritor_passo s h t hesc
  | tique ms =>
    simp only [reduceCtorEq, decide_False, Bool.false_or, List.all_eq_true,
      decide_eq_true_eq] at hg
    refine ⟨fun t => ?_, fun t ht => ?_, ?_⟩
    · simp only [avanca, tcb_avanca_tique]; exact h.forma t
    · simp only [avanca, tcb_avanca_tique] at ht
      exact hg t (hmem t ht)
    · obtain ⟨S0, t0, h1, h2⟩ := h.registro
      refine ⟨S0, t0, fun u hu => ?_, ?_⟩
      · simp only [avanca, tcb_avanca_tique]; exact h1 u hu
      · simp only [avanca, tcb_avanca_tique]; exact h2
  | joystick c =>
    simp only [reduceCtorEq, decide_False, Bool.false_or, List.all_eq_true,
      decide_eq_true_eq] at hg
    refine ⟨fun t => ?_, fun t ht => ?_, ?_⟩
    · simp only [avanca, tcb_posta]; exact h.forma t
    · simp only [avanca, tcb_posta] at ht
      exact hg t (hmem t ht)
    · obtain ⟨S0, t0, h1, h2⟩ := h.registro
      refine ⟨S0, t0, fun u hu => ?_, ?_⟩
      · simp only [avanca, tcb_posta]; exact h1 u hu
      · simp only [avanca, tcb_posta, estado_posta]; exact h2

theorem um_escritor_intercala (es : List Entrada) :
    ∀ s : Sistema, UmEscritor s → sem_preempcao_na_escrita es s = true →
      UmEscritor (intercala es s) := by
  induction es with
  | nil => intro s h _; exact h
  | cons e es ih =>
    intro s h hg
    simp only [sem_preempcao_na_escrita, Bool.and_eq_true] at hg
    exact ih _ (um_escritor_avanca s h e hg.1) hg.2

theorem sem_preempcao_take (es : List Entrada) :
    ∀ (s : Sistema) (n : Nat), sem_preempcao_na_escrita es s = true →
      sem_preempcao_na_escrita (es.take n) s = true := by
  induction es with
  | nil => intro s n h; simp [sem_preempcao_na_escrita]
  | cons e es ih =>
    intro s n h
    cases n with
    | zero => rfl
    | succ n =>
      simp only [sem_preempcao_na_escrita, Bool.and_eq_true, List.take_succ_cons] at h ⊢
      exact ⟨h.1, ih _ n h.2⟩

theorem um_escritor_inicial (s : Sistema)
    (hc : s.ok.cont = [] ∧ s.nivel.cont = [] ∧ s.temperatura.cont = [] ∧ s.pressao.cont = [])
    (hd : ∃ S, s.estado_atual = perfil_spec S) : UmEscritor s := by
  have hnil : ∀ t, (s.tcb t).cont = [] := by
    intro t
    cases t
    · exact hc.1
    · exact hc.2.1
    · exact hc.2.2.1
    · exact hc.2.2.2
  obtain ⟨S, hS⟩ := hd
  refine ⟨fun t => ⟨CALDEIRA_OK, ?_⟩, fun t ht => ?_, ⟨S, Tarefa.ok, fun u _ => ?_, ?_⟩⟩
  · rw [hnil t]
    exact (List.mem_tails _ _).mpr List.nil_suffix
  · rw [hnil t] at ht
    exact absurd ht (by decide)
  · rw [hnil u]; rfl
  · rw [hnil Tarefa.ok, hS]; rfl

theorem um_escritor_conclusao (r : Sistema) (h : UmEscritor r) :
    r.escritores.length ≤ 1 ∧
    (∃ S0 t0, r.escritores ⊆ [t0] ∧
      r.estado_atual = escreve_todas (feitas t0 (r.tcb t0).cont) (perfil_spec S0)) ∧
    (r.escritores = [] → ∃ S, r.estado_atual = perfil_spec S) := by
  obtain ⟨S0, t0, h1, h2⟩ := h.registro
  have hsub : r.escritores ⊆ [t0] := by
    intro u hu
    simp only [Sistema.escritores, List.mem_filter] at hu
    by_cases hq : u = t0
    · subst hq; exact List.mem_singleton_self _
    · rw [h1 u hq] at hu
      exact absurd hu.2 Bool.false_ne_true
  have hnodup : r.escritores.Nodup := by
    simp only [Sistema.escritores]
    exact List.Nodup.filter _ (by decide)
  refine ⟨?_, ⟨S0, t0, hsub, h2⟩, fun he => ⟨S0, ?_⟩⟩
  · have := List.Nodup.length_le_card hnodup
    have hsb := List.subperm_of_subset hnodup hsub
    simpa using hsb.length_le
  · have hn : em_escrita (r.tcb t0).cont = false := by
      cases hq : em_escrita (r.tcb t0).cont with
      | false => rfl
      | true =>
        have : t0 ∈ r.escritores := by
          simp only [Sistema.escritores, List.mem_filter]
          exact ⟨(ordem_de_prioridade_decrescente).2 t0, hq⟩
        rw [he] at this
        cases this
    rw [h2]
    simp only [feitas, hn, Bool.false_eq_true, if_false]
    rfl


/-- C20, as stated, fails. After start-up the initial `CALDEIRA_OK` is bounced by the three
higher-priority handlers and received by `tarefa_caldeira_ok`, which makes its first two
stores. Then the 200 ms delay of `tarefa_caldeira_pressao` ends and the sampler posts
`CALDEIRA_PRESSAO_ALTA`: the emergency handler preempts, receives it and makes its
first store, so two handlers are inside their write sequences at once. It completes
its profile and sleeps in the countdown; `tarefa_caldeira_ok` resumes with its last five
stores, and the record is left as (PRESSAO_ALTA, 500, 90, 54, on, off, closed), which is
none of the four profiles. -/
theorem C20_dois_escritores :
    (intercala
      (List.replicate 10 Entrada.corre ++ [Entrada.corre, Entrada.corre] ++
        [Entrada.tique 200, Entrada.joystick CALDEIRA_PRESSAO_ALTA, Entrada.corre, Entrada.corre])
      partida).escritores = [Tarefa.pressao, Tarefa.ok] ∧
    (intercala
      (List.replicate 10 Entrada.corre ++ [Entrada.corre, Entrada.corre] ++
        [Entrada.tique 200, Entrada.joystick CALDEIRA_PRESSAO_ALTA, Entrada.corre, Entrada.corre])
      partida).estado_atual = ⟨CALDEIRA_PRESSAO_ALTA, 300, 90, 54, true, false, false⟩ ∧
    (intercala
      (List.replicate 10 Entrada.corre ++ [Entrada.corre, Entrada.corre] ++
        [Entrada.tique 200, Entrada.joystick CALDEIRA_PRESSAO_ALTA, Entrada.corre, Entrada.corre] ++
        List.replicate 8 Entrada.corre ++ List.replicate 5 Entrada.corre)
      partida).escritores = [] ∧
    (intercala
      (List.replicate 10 Entrada.corre ++ [Entrada.corre, Entrada.corre] ++
        [Entrada.tique 200, Entrada.joystick CALDEIRA_PRESSAO_ALTA, Entrada.corre, Entrada.corre] ++
        List.replicate 8 Entrada.corre ++ List.replicate 5 Entrada.corre)
      partida).estado_atual = ⟨CALDEIRA_PRESSAO_ALTA, 500, 90, 54, true, false, false⟩ ∧
    (∀ S : estado_caldeira_t,
      (intercala
        (List.replicate 10 Entrada.corre ++ [Entrada.corre, Entrada.corre] ++
          [Entrada.tique 200, Entrada.joystick CALDEIRA_PRESSAO_ALTA, Entrada.corre,
           Entrada.corre] ++
          List.replicate 8 Entrada.corre ++ List.replicate 5 Entrada.corre)
        partida).estado_atual ≠ perfil_spec S) ∧
    acoes_de Tarefa.ok (intercala
        (List.replicate 10 Entrada.corre ++ [Entrada.corre, Entrada.corre] ++
          [Entrada.tique 200, Entrada.joystick CALDEIRA_PRESSAO_ALTA, Entrada.corre,
           Entrada.corre] ++
          List.replicate 8 Entrada.corre ++ List.replicate 5 Entrada.corre)
        partida).historico = Tarefa.ok.escritas ∧
    (acoes_de Tarefa.pressao (intercala
        (List.replicate 10 Entrada.corre ++ [Entrada.corre, Entrada.corre] ++
          [Entrada.tique 200, Entrada.joystick CALDEIRA_PRESSAO_ALTA, Entrada.corre,
           Entrada.corre] ++
          List.replicate 8 Entrada.corre ++ List.replicate 5 Entrada.corre)
        partida).historico).filter Acao.armazena = Tarefa.pressao.escritas ∧
    sem_preempcao_na_escrita
      (List.replicate 10 Entrada.corre ++ [Entrada.corre, Entrada.corre] ++
        [Entrada.tique 200, Entrada.joystick CALDEIRA_PRESSAO_ALTA, Entrada.corre, Entrada.corre])
      partida = false := by
  decide!


/-- C20, amended. The seven stores of a handler are not protected against preemption, so
the single-writer property holds for the interleavings in which no handler is preempted
inside its write sequence (whenever a tick or a post of the sampler comes while a
handler is between its first and its last store, that handler is still the
highest-priority ready one). Starting with the four handlers at their `xQueueReceive`
and a profile in `estado_atual`, at every instant of such an interleaving at most one
handler is inside its write sequence, and `estado_atual` is a profile on which that one
handler has made the first stores of its own profile, in program order; it is one of
the four profiles whenever no handler is inside its write sequence. -/
theorem C20_um_escritor_por_vez (s0 : Sistema) (es : List Entrada) (n : Nat)
    (hc : s0.ok.cont = [] ∧ s0.nivel.cont = [] ∧ s0.temperatura.cont = [] ∧
      s0.pressao.cont = [])
    (hd : ∃ S, s0.estado_atual = perfil_spec S)
    (hes : sem_preempcao_na_escrita es s0 = true) :
    (intercala (es.take n) s0).escritores.length ≤ 1 ∧
    (∃ S0 t0, (intercala (es.take n) s0).escritores ⊆ [t0] ∧
      feitas t0 ((intercala (es.take n) s0).tcb t0).cont <+: t0.escritas ∧
      (intercala (es.take n) s0).estado_atual =
        escreve_todas (feitas t0 ((intercala (es.take n) s0).tcb t0).cont) (perfil_spec S0)) ∧
    ((intercala (es.take n) s0).escritores = [] →
      ∃ S, (intercala (es.take n) s0).estado_atual = perfil_spec S) ∧
    (∀ (t : Tarefa) (d : dados_caldeira_t),
      t.escritas.length = 7 ∧ escreve_todas t.escritas d = perfil_spec t.vinculo) := by
  have hinv := um_escritor_intercala (es.take n) s0 (um_escritor_inicial s0 hc hd)
    (sem_preempcao_take es s0 n hes)
  obtain ⟨h1, ⟨S0, t0, h2, h3⟩, h4⟩ := um_escritor_conclusao _ hinv
  refine ⟨h1, ⟨S0, t0, h2, ?_, h3⟩, h4, fun t d => ?_⟩
  · unfold feitas
    split
    · exact List.take_prefix _ _
    · exact List.nil_prefix
  · cases t <;> exact ⟨rfl, rfl⟩

/-- Witness for C20, amended: after start-up a tick falls between the second and the third
store of `tarefa_caldeira_ok`, which is not preempted and completes its profile; then the
delay of `tarefa_caldeira_pressao` ends, the sampler posts `CALDEIRA_PRESSAO_ALTA` and the
emergency handler has made three of its stores. -/
theorem C20_um_escritor_por_vez_witness :
    (intercala
      ((List.replicate 12 Entrada.corre ++ [Entrada.tique 1] ++ List.replicate 6 Entrada.corre ++
          [Entrada.tique 199, Entrada.joystick CALDEIRA_PRESSAO_ALTA] ++
          List.replicate 4 Entrada.corre).take 13)
      partida).escritores.length ≤ 1 ∧
    (intercala
      ((List.replicate 12 Entrada.corre ++ [Entrada.tique 1] ++ List.replicate 6 Entrada.corre ++
          [Entrada.tique 199, Entrada.joystick CALDEIRA_PRESSAO_ALTA] ++
          List.replicate 4 Entrada.corre).take 13)
      partida).escritores = [Tarefa.ok] ∧
    (intercala
      ((List.replicate 12 Entrada.corre ++ [Entrada.tique 1] ++ List.replicate 6 Entrada.corre ++
          [Entrada.tique 199, Entrada.joystick CALDEIRA_PRESSAO_ALTA] ++
          List.replicate 4 Entrada.corre).take 25)
      partida).escritores.length ≤ 1 ∧
    (intercala
      ((List.replicate 12 Entrada.corre ++ [Entrada.tique 1] ++ List.replicate 6 Entrada.corre ++
          [Entrada.tique 199, Entrada.joystick CALDEIRA_PRESSAO_ALTA] ++
          List.replicate 4 Entrada.corre).take 25)
      partida).escritores = [Tarefa.pressao] ∧
    (intercala
      ((List.replicate 12 Entrada.corre ++ [Entrada.tique 1] ++ List.replicate 6 Entrada.corre ++
          [Entrada.tique 199, Entrada.joystick CALDEIRA_PRESSAO_ALTA] ++
          List.replicate 4 Entrada.corre).take 25)
      partida).estado_atual = ⟨CALDEIRA_PRESSAO_ALTA, 500, 120, 54, true, false, false⟩ :=
  ⟨(C20_um_escritor_por_vez partida
      (List.replicate 12 Entrada.corre ++ [Entrada.tique 1] ++ List.replicate 6 Entrada.corre ++
        [Entrada.tique 199, Entrada.joystick CALDEIRA_PRESSAO_ALTA] ++
        List.replicate 4 Entrada.corre) 13
      ⟨rfl, rfl, rfl, rfl⟩ ⟨CALDEIRA_OK, rfl⟩ (by decide!)).1,
   by decide!,
   (C20_um_escritor_por_vez partida
      (List.replicate 12 Entrada.corre ++ [Entrada.tique 1] ++ List.replicate 6 Entrada.corre ++
        [Entrada.tique 199, Entrada.joystick CALDEIRA_PRESSAO_ALTA] ++
        List.replicate 4 Entrada.corre) 25
      ⟨rfl, rfl, rfl, rfl⟩ ⟨CALDEIRA_OK, rfl⟩ (by decide!)).1,
   by decide!, by decide!⟩


/-! ## Theorems: the automatic recovery -/

theorem acoes_de_append (t : Tarefa) (h1 h2 : List Evento) :
    acoes_de t (h1 ++ h2) = acoes_de t h1 ++ acoes_de t h2 := by
  induction h1 with
  | nil => rfl
  | cons e h1 ih =>
    cases e with
    | joystick c => simpa [acoes_de] using ih
    | recebe u c => simpa [acoes_de] using ih
    | faz u a =>
      by_cases hu : u = t
      · simp [acoes_de, hu, ih]
      · simp [acoes_de, hu, ih]

theorem historico_posta (cs : List estado_caldeira_t) :
    ∀ s : Sistema, (posta cs s).historico = s.historico ++ cs.map Evento.joystick := by
  induction cs with
  | nil => intro s; simp [posta]
  | cons c cs ih =>
    intro s
    rw [posta, ih]
    simp

theorem apos_pressao_outra (s : Sistema) (t : Tarefa) (b : TCB) (f : List estado_caldeira_t)
    (e : dados_caldeira_t) (ev : List Evento) (ht : t ≠ Tarefa.pressao) :
    (s.apos t b f e ev).pressao = s.pressao := by
  cases t <;> first | rfl | exact absurd rfl ht

/-- One `Entrada` either leaves `tarefa_caldeira_pressao` where it is, or makes it perform the
first of the statements it has left, or (with none left) lets it receive. -/
theorem avanca_pressao (s : Sistema) (e : Entrada) :
    ∃ ev, (avanca s e).historico = s.historico ++ ev ∧
      ((acoes_de Tarefa.pressao ev = [] ∧ (avanca s e).pressao.cont = s.pressao.cont) ∨
       (∃ a, s.pressao.cont = a :: (avanca s e).pressao.cont ∧
          acoes_de Tarefa.pressao ev = [a]) ∨
       (s.pressao.cont = [] ∧ acoes_de Tarefa.pressao ev = [])) := by
  cases e with
  | tique ms => exact ⟨[], (List.append_nil _).symm, Or.inl ⟨rfl, rfl⟩⟩
  | joystick c =>
    refine ⟨[Evento.joystick c], ?_, Or.inl ⟨rfl, ?_⟩⟩
    · exact historico_posta [c] s
    · have := tcb_posta [c] s Tarefa.pressao
      exact congrArg TCB.cont this
  | corre =>
    simp only [avanca]
    cases hesc : s.escolhida with
    | none => exact ⟨[], (List.append_nil _).symm, Or.inl ⟨rfl, rfl⟩⟩
    | some t =>
      simp only []
      rw [passo_eq_apos]
      cases hc : (s.tcb t).cont with
      | nil =>
        cases hf : s.fila with
        | nil => exact ⟨[], (List.append_nil _).symm, Or.inl ⟨rfl, rfl⟩⟩
        | cons c resto =>
          refine ⟨[Evento.recebe t c], (apos_campos _ _ _ _ _ _).2.2.2, ?_⟩
          by_cases ht : t = Tarefa.pressao
          · subst ht
            exact Or.inr (Or.inr ⟨hc, rfl⟩)
          · exact Or.inl ⟨rfl, congrArg TCB.cont (apos_pressao_outra s t _ _ _ _ ht)⟩
      | cons a resto =>
        refine ⟨[Evento.faz t a], (apos_campos _ _ _ _ _ _).2.2.2, ?_⟩
        by_cases ht : t = Tarefa.pressao
        · subst ht
          refine Or.inr (Or.inl ⟨a, ?_, by simp [acoes_de]⟩)
          exact hc
        · exact Or.inl ⟨by simp [acoes_de, ht],
            congrArg TCB.cont (apos_pressao_outra s t _ _ _ _ ht)⟩

/-- In every interleaving, what `tarefa_caldeira_pressao` has done since a given state,
followed by what it has left, is what it had left in that state, for as long as it has
done fewer actions than it had left there. -/
theorem intercala_pressao (es : List Entrada) :
    ∀ s : Sistema, ∃ novos, (intercala es s).historico = s.historico ++ novos ∧
      (acoes_de Tarefa.pressao novos ++ (intercala es s).pressao.cont = s.pressao.cont ∨
        s.pressao.cont.length ≤ (acoes_de Tarefa.pressao novos).length) := by
  induction es with
  | nil => intro s; exact ⟨[], (List.append_nil _).symm, Or.inl rfl⟩
  | cons e es ih =>
    intro s
    obtain ⟨ev, hev, hcaso⟩ := avanca_pressao s e
    obtain ⟨novos, hn, hinv⟩ := ih (avanca s e)
    refine ⟨ev ++ novos, ?_, ?_⟩
    · show (intercala es (avanca s e)).historico = _
      rw [hn, hev, List.append_assoc]
    · show acoes_de Tarefa.pressao (ev ++ novos) ++ (intercala es (avanca s e)).pressao.cont =
          s.pressao.cont ∨ _
      rw [acoes_de_append]
      rcases hcaso with ⟨h1, h2⟩ | ⟨a, h1, h2⟩ | ⟨h1, h2⟩
      · rw [h1, List.nil_append, ← h2]
        exact hinv
      · rw [h2, h1]
        rcases hinv with h | h
        · left
          rw [List.append_assoc, h]
          rfl
        · right
          simp only [List.length_cons, List.length_append, List.length_singleton]
          omega
      · right
        rw [h1]
        exact Nat.zero_le _

/-- C5, as stated, fails. Joystick UP, then ten times (CENTER, UP), then centred: the
first `CALDEIRA_PRESSAO_ALTA` is claimed at t = 0 and ten more are posted during the
countdown (t = 200, ..., 2000 ms), which nobody claims. At t = 5000 ms the emergency
handler has performed its whole body, its `xQueueSend` of `CALDEIRA_OK` included, but the
queue held 10 commands: the `CALDEIRA_OK` was dropped, it is not on the queue and no
handler ever received it. -/
theorem C5_recuperacao_descartada :
    ∃ s, sistema (JOY_UP :: (List.replicate 10 [JOY_CENTER, JOY_UP]).flatten ++
          List.replicate 30 JOY_CENTER) JOY_CENTER (repouso estado_atual) = some s ∧
      s.agora = 5100 ∧
      postados s.historico = List.replicate 11 CALDEIRA_PRESSAO_ALTA ∧
      acoes_de Tarefa.pressao s.historico = tarefa_caldeira_pressao CALDEIRA_PRESSAO_ALTA ∧
      (Tarefa.pressao, CALDEIRA_OK) ∈ reenvios s.historico ∧
      s.fila = List.replicate 10 CALDEIRA_PRESSAO_ALTA ∧
      CALDEIRA_OK ∉ s.fila ∧
      recebedores CALDEIRA_OK s.historico = [] := by
  have key : ∃ s ∈ sistema (JOY_UP :: (List.replicate 10 [JOY_CENTER, JOY_UP]).flatten ++
          List.replicate 30 JOY_CENTER) JOY_CENTER (repouso estado_atual),
      s.agora = 5100 ∧
      postados s.historico = List.replicate 11 CALDEIRA_PRESSAO_ALTA ∧
      acoes_de Tarefa.pressao s.historico = tarefa_caldeira_pressao CALDEIRA_PRESSAO_ALTA ∧
      (Tarefa.pressao, CALDEIRA_OK) ∈ reenvios s.historico ∧
      s.fila = List.replicate 10 CALDEIRA_PRESSAO_ALTA ∧
      CALDEIRA_OK ∉ s.fila ∧
      recebedores CALDEIRA_OK s.historico = [] := by
    decide!
  exact key

/-- C5, amended. Having received `CALDEIRA_PRESSAO_ALTA`, the emergency handler writes its
profile and the red indicator, performs exactly five times (one-second sleep, red
indicator again), then makes exactly one `xQueueSend` of `CALDEIRA_OK` and takes its
200 ms delay; no input from the sampler enters this sequence. The send does not wait:
in whatever state of the system the handler reaches it, `CALDEIRA_OK` is appended to
the queue when the queue holds fewer than 10 commands and is dropped when it holds 10.
In every interleaving with ticks, posts of the sampler and steps of the other handlers,
what the handler has done since the claim followed by what it has left is that body,
until it has completed it. When nothing else is posted after a `CALDEIRA_PRESSAO_ALTA`
posted at rest, the `CALDEIRA_OK` does enter the queue at t = 5000 ms and is dispatched:
bounced by `tarefa_caldeira_temperatura` and `tarefa_caldeira_nivel`, claimed by
`tarefa_caldeira_ok`. -/
theorem C5_recuperacao_automatica (resto : List estado_caldeira_t) (d : dados_caldeira_t)
    (s : Sistema) (cont : List Acao)
    (hs : s.pressao.cont = Acao.xQueueSend CALDEIRA_OK :: cont) :
    tarefa_caldeira_pressao CALDEIRA_PRESSAO_ALTA =
      [Acao.set_estado CALDEIRA_PRESSAO_ALTA, Acao.set_pressao 500, Acao.set_temperatura 120,
       Acao.set_nivel_agua 54, Acao.set_aquecedor true, Acao.set_bomba true,
       Acao.set_alivio true, Acao.exibir_cor_matriz 255 0 0]
      ++ (List.replicate 5 [Acao.vTaskDelay 1000, Acao.exibir_cor_matriz 255 0 0]).flatten
      ++ [Acao.xQueueSend CALDEIRA_OK, Acao.vTaskDelay 200] ∧
    envios (tarefa_caldeira_pressao CALDEIRA_PRESSAO_ALTA) = [CALDEIRA_OK] ∧
    iteracao Tarefa.pressao { fila := CALDEIRA_PRESSAO_ALTA :: resto, estado_atual := d } =
      some { fila := xQueueSend resto CALDEIRA_OK,
             estado_atual := perfil_spec CALDEIRA_PRESSAO_ALTA } ∧
    (resto.length < 10 → xQueueSend resto CALDEIRA_OK = resto ++ [CALDEIRA_OK]) ∧
    (resto.length = 10 → xQueueSend resto CALDEIRA_OK = resto) ∧
    (passo s Tarefa.pressao).fila = xQueueSend s.fila CALDEIRA_OK ∧
    (passo s Tarefa.pressao).pressao.cont = cont ∧
    (passo s Tarefa.pressao).historico =
      s.historico ++ [Evento.faz Tarefa.pressao (Acao.xQueueSend CALDEIRA_OK)] ∧
    (s.fila.length < 10 → (passo s Tarefa.pressao).fila = s.fila ++ [CALDEIRA_OK]) ∧
    (s.fila.length = 10 → (passo s Tarefa.pressao).fila = s.fila) ∧
    (∀ (s1 : Sistema) (es : List Entrada),
      s1.pressao.cont = [] → s1.fila = CALDEIRA_PRESSAO_ALTA :: resto →
      ∃ novos,
        (intercala es (passo s1 Tarefa.pressao)).historico =
          s1.historico ++ Evento.recebe Tarefa.pressao CALDEIRA_PRESSAO_ALTA :: novos ∧
        (acoes_de Tarefa.pressao novos ++ (intercala es (passo s1 Tarefa.pressao)).pressao.cont =
            tarefa_caldeira_pressao CALDEIRA_PRESSAO_ALTA ∨
          20 ≤ (acoes_de Tarefa.pressao novos).length)) ∧
    (∃ r, (ciclo [CALDEIRA_PRESSAO_ALTA] (repouso d)).bind (ocioso 49) = some r ∧
      r.agora = 5000 ∧ r.fila = [] ∧
      r.pressao.cont = [Acao.exibir_cor_matriz 255 0 0, Acao.xQueueSend CALDEIRA_OK,
        Acao.vTaskDelay 200] ∧
      ∃ r2, ciclo [] r = some r2 ∧
        acoes_de Tarefa.pressao r2.historico = tarefa_caldeira_pressao CALDEIRA_PRESSAO_ALTA ∧
        recebedores CALDEIRA_OK r2.historico = [Tarefa.temperatura, Tarefa.nivel, Tarefa.ok] ∧
        reivindicacoes r2.historico =
          [(Tarefa.pressao, CALDEIRA_PRESSAO_ALTA), (Tarefa.ok, CALDEIRA_OK)] ∧
        r2.fila = []) := by
  have h1 : (s.tcb Tarefa.pressao).cont = Acao.xQueueSend CALDEIRA_OK :: cont := hs
  have hf : (passo s Tarefa.pressao).fila = xQueueSend s.fila CALDEIRA_OK := by
    simp only [passo, h1]
    rfl
  have hc : (passo s Tarefa.pressao).pressao.cont = cont := by
    simp only [passo, h1]
    rfl
  have key : ∃ r ∈ (ciclo [CALDEIRA_PRESSAO_ALTA] (repouso sonda0)).bind (ocioso 49),
      r.agora = 5000 ∧ r.fila = [] ∧
      r.pressao.cont = [Acao.exibir_cor_matriz 255 0 0, Acao.xQueueSend CALDEIRA_OK,
        Acao.vTaskDelay 200] ∧
      ∃ r2 ∈ ciclo [] r,
        acoes_de Tarefa.pressao r2.historico = tarefa_caldeira_pressao CALDEIRA_PRESSAO_ALTA ∧
        recebedores CALDEIRA_OK r2.historico = [Tarefa.temperatura, Tarefa.nivel, Tarefa.ok] ∧
        reivindicacoes r2.historico =
          [(Tarefa.pressao, CALDEIRA_PRESSAO_ALTA), (Tarefa.ok, CALDEIRA_OK)] ∧
        r2.fila = [] := by
    decide!
  refine ⟨rfl, rfl, rfl, fun h => ?_, fun h => ?_, hf, hc, ?_, fun h => ?_, fun h => ?_,
    fun s1 es hs1 hf1 => ?_, ?_⟩
  · simp [xQueueSend, CAPACIDADE_FILA, h]
  · simp [xQueueSend, CAPACIDADE_FILA, h]
  · simp only [passo, h1]
  · rw [hf]
    simp [xQueueSend, CAPACIDADE_FILA, h]
  · rw [hf]
    simp [xQueueSend, CAPACIDADE_FILA, h]
  · have g1 : (s1.tcb Tarefa.pressao).cont = [] := hs1
    have g2 : (passo s1 Tarefa.pressao).pressao.cont =
        tarefa_caldeira_pressao CALDEIRA_PRESSAO_ALTA := by
      simp only [passo, g1, hf1]
      rfl
    have g3 : (passo s1 Tarefa.pressao).historico =
        s1.historico ++ [Evento.recebe Tarefa.pressao CALDEIRA_PRESSAO_ALTA] := by
      simp only [passo, g1, hf1]
    obtain ⟨novos, hn, hinv⟩ := intercala_pressao es (passo s1 Tarefa.pressao)
    refine ⟨novos, ?_, ?_⟩
    · rw [hn, g3, List.append_assoc]
      rfl
    · rw [g2] at hinv
      exact hinv
  · rw [ciclo_um_comando CALDEIRA_PRESSAO_ALTA d]
    obtain ⟨r, hr, h2, h3, h4, r2, hr2, h5⟩ := key
    exact ⟨r, hr, h2, h3, h4, r2, hr2, h5⟩

/-- Witness for C5, amended: the handler reaches its send with one command on the queue,
and with ten. -/
theorem C5_recuperacao_automatica_witness :
    (passo { repouso estado_atual with
        fila := [CALDEIRA_NIVEL_BAIXO]
        pressao := { cont := [Acao.xQueueSend CALDEIRA_OK, Acao.vTaskDelay 200], acorda := 0 } }
      Tarefa.pressao).fila = [CALDEIRA_NIVEL_BAIXO] ++ [CALDEIRA_OK] ∧
    (passo { repouso estado_atual with
        fila := List.replicate 10 CALDEIRA_PRESSAO_ALTA
        pressao := { cont := [Acao.xQueueSend CALDEIRA_OK, Acao.vTaskDelay 200], acorda := 0 } }
      Tarefa.pressao).fila = List.replicate 10 CALDEIRA_PRESSAO_ALTA :=
  ⟨(C5_recuperacao_automatica [] estado_atual
      { repouso estado_atual with
        fila := [CALDEIRA_NIVEL_BAIXO]
        pressao := { cont := [Acao.xQueueSend CALDEIRA_OK, Acao.vTaskDelay 200], acorda := 0 } }
      [Acao.vTaskDelay 200] rfl).2.2.2.2.2.2.2.2.1 (by decide),
   (C5_recuperacao_automatica [] estado_atual
      { repouso estado_atual with
        fila := List.replicate 10 CALDEIRA_PRESSAO_ALTA
        pressao := { cont := [Acao.xQueueSend CALDEIRA_OK, Acao.vTaskDelay 200], acorda := 0 } }
      [Acao.vTaskDelay 200] rfl).2.2.2.2.2.2.2.2.2.1 (by decide)⟩


/-! ## Theorems: sampler translation, dead zone and full queue -/

theorem tarefa_joystick_getD_eq (ds : List joystick_dir_t) :
    ∀ (dir_anterior : joystick_dir_t) (i : Nat), i < ds.length →
      (tarefa_joystick dir_anterior ds).getD i [] =
        (tarefa_joystick_ciclo ((dir_anterior :: ds).getD i JOY_CENTER)
          (ds.getD i JOY_CENTER)).1 := by
  induction ds with
  | nil => intro _ i h; simp at h
  | cons d ds ih =>
    intro dir_anterior i h
    cases i with
    | zero => simp [tarefa_joystick]
    | succ j =>
      have hj : j < ds.length := by simpa using h
      simpa [tarefa_joystick, tarefa_joystick_ciclo] using ih d j hj

theorem envios_ciclo_traducao (dir_anterior d : joystick_dir_t) (c : estado_caldeira_t)
    (h : c ∈ envios (tarefa_joystick_ciclo dir_anterior d).1) :
    (d = JOY_RIGHT ∧ c = CALDEIRA_OK) ∨ (d = JOY_LEFT ∧ c = CALDEIRA_NIVEL_BAIXO) ∨
    (d = JOY_DOWN ∧ c = CALDEIRA_TEMP_ALTA) ∨ (d = JOY_UP ∧ c = CALDEIRA_PRESSAO_ALTA) := by
  revert h
  cases dir_anterior <;> cases d <;> cases c <;> decide

/-- C11. In a cycle that posts (the direction is not `JOY_CENTER` and differs from
`dir_anterior`) the sampler posts `CALDEIRA_OK` for `JOY_RIGHT`, `CALDEIRA_NIVEL_BAIXO`
for `JOY_LEFT`, `CALDEIRA_TEMP_ALTA` for `JOY_DOWN` and `CALDEIRA_PRESSAO_ALTA` for
`JOY_UP`; and in every cycle of a run, a value that is posted is the only one posted
in that cycle and is the translation of the direction sampled in it. -/
theorem C11_traducao_direcao_estado (dir_anterior : joystick_dir_t) :
    (dir_anterior ≠ JOY_RIGHT →
      envios (tarefa_joystick_ciclo dir_anterior JOY_RIGHT).1 = [CALDEIRA_OK]) ∧
    (dir_anterior ≠ JOY_LEFT →
      envios (tarefa_joystick_ciclo dir_anterior JOY_LEFT).1 = [CALDEIRA_NIVEL_BAIXO]) ∧
    (dir_anterior ≠ JOY_DOWN →
      envios (tarefa_joystick_ciclo dir_anterior JOY_DOWN).1 = [CALDEIRA_TEMP_ALTA]) ∧
    (dir_anterior ≠ JOY_UP →
      envios (tarefa_joystick_ciclo dir_anterior JOY_UP).1 = [CALDEIRA_PRESSAO_ALTA]) ∧
    (∀ (ds : List joystick_dir_t) (i : Nat) (c : estado_caldeira_t), i < ds.length →
      c ∈ envios ((tarefa_joystick dir_anterior ds).getD i []) →
      envios ((tarefa_joystick dir_anterior ds).getD i []) = [c] ∧
      ((ds.getD i JOY_CENTER = JOY_RIGHT ∧ c = CALDEIRA_OK) ∨
       (ds.getD i JOY_CENTER = JOY_LEFT ∧ c = CALDEIRA_NIVEL_BAIXO) ∨
       (ds.getD i JOY_CENTER = JOY_DOWN ∧ c = CALDEIRA_TEMP_ALTA) ∨
       (ds.getD i JOY_CENTER = JOY_UP ∧ c = CALDEIRA_PRESSAO_ALTA))) := by
  refine ⟨?_, ?_, ?_, ?_, ?_⟩
  · intro h; cases dir_anterior <;> first | rfl | exact absurd rfl h
  · intro h; cases dir_anterior <;> first | rfl | exact absurd rfl h
  · intro h; cases dir_anterior <;> first | rfl | exact absurd rfl h
  · intro h; cases dir_anterior <;> first | rfl | exact absurd rfl h
  · intro ds i c hi hc
    rw [tarefa_joystick_getD_eq ds dir_anterior i hi] at hc ⊢
    refine ⟨?_, envios_ciclo_traducao _ _ c hc⟩
    revert hc
    generalize (dir_anterior :: ds).getD i JOY_CENTER = a
    generalize ds.getD i JOY_CENTER = d
    cases a <;> cases d <;> cases c <;> decide

/-- Witness for C11: UP after CENTER, and the second cycle of RIGHT, LEFT. -/
theorem C11_traducao_direcao_estado_witness :
    envios (tarefa_joystick_ciclo JOY_CENTER JOY_UP).1 = [CALDEIRA_PRESSAO_ALTA] ∧
    (envios ((tarefa_joystick JOY_CENTER [JOY_RIGHT, JOY_LEFT]).getD 1 []) =
        [CALDEIRA_NIVEL_BAIXO] ∧
      (([JOY_RIGHT, JOY_LEFT].getD 1 JOY_CENTER = JOY_RIGHT ∧
          CALDEIRA_NIVEL_BAIXO = CALDEIRA_OK) ∨
       ([JOY_RIGHT, JOY_LEFT].getD 1 JOY_CENTER = JOY_LEFT ∧
          CALDEIRA_NIVEL_BAIXO = CALDEIRA_NIVEL_BAIXO) ∨
       ([JOY_RIGHT, JOY_LEFT].getD 1 JOY_CENTER = JOY_DOWN ∧
          CALDEIRA_NIVEL_BAIXO = CALDEIRA_TEMP_ALTA) ∨
       ([JOY_RIGHT, JOY_LEFT].getD 1 JOY_CENTER = JOY_UP ∧
          CALDEIRA_NIVEL_BAIXO = CALDEIRA_PRESSAO_ALTA))) :=
  ⟨(C11_traducao_direcao_estado JOY_CENTER).2.2.2.1 (by decide),
   (C11_traducao_direcao_estado JOY_CENTER).2.2.2.2 [JOY_RIGHT, JOY_LEFT] 1
     CALDEIRA_NIVEL_BAIXO (by decide) (by decide)⟩

/-- C12. The band limits are 800 and 3300, and `ler_joystick` returns `JOY_CENTER`
exactly when both samples lie in the closed band [800, 3300]; a sample above 3300 or
below 800 on either axis gives a direction other than `JOY_CENTER`. -/
theorem C12_zona_morta (x y : Nat) :
    JOY_CENTER_MIN - JOY_THRESHOLD = 800 ∧ JOY_CENTER_MAX + JOY_THRESHOLD = 3300 ∧
    (ler_joystick x y = JOY_CENTER ↔ (800 ≤ x ∧ x ≤ 3300) ∧ (800 ≤ y ∧ y ≤ 3300)) ∧
    ((3300 < x ∨ x < 800 ∨ 3300 < y ∨ y < 800) → ler_joystick x y ≠ JOY_CENTER) := by
  have key : ler_joystick x y = JOY_CENTER ↔ (800 ≤ x ∧ x ≤ 3300) ∧ (800 ≤ y ∧ y ≤ 3300) := by
    unfold ler_joystick JOY_CENTER_MAX JOY_CENTER_MIN JOY_THRESHOLD
    split
    · simp; omega
    · split
      · simp; omega
      · split
        · simp; omega
        · split
          · simp; omega
          · simp; omega
  refine ⟨rfl, rfl, key, fun h hc => ?_⟩
  have := key.mp hc
  omega

/-- Witness for C12: x centred, y at the top of the 12-bit range. -/
theorem C12_zona_morta_witness : ler_joystick 2000 4095 ≠ JOY_CENTER :=
  (C12_zona_morta 2000 4095).2.2.2 (by decide)

/-- C13. From `dir_anterior = JOY_CENTER` the directions RIGHT, RIGHT, UP, CENTER, LEFT
make the sampler post `CALDEIRA_OK`, nothing, `CALDEIRA_PRESSAO_ALTA`, nothing,
`CALDEIRA_NIVEL_BAIXO`: in all the sequence OK, PRESSAO_ALTA, NIVEL_BAIXO, also as
recorded by the whole system started at rest with the initial telemetry. -/
theorem C13_cenario_do_amostrador :
    (tarefa_joystick JOY_CENTER [JOY_RIGHT, JOY_RIGHT, JOY_UP, JOY_CENTER, JOY_LEFT]).map envios =
      [[CALDEIRA_OK], [], [CALDEIRA_PRESSAO_ALTA], [], [CALDEIRA_NIVEL_BAIXO]] ∧
    ((tarefa_joystick JOY_CENTER
        [JOY_RIGHT, JOY_RIGHT, JOY_UP, JOY_CENTER, JOY_LEFT]).map envios).flatten =
      [CALDEIRA_OK, CALDEIRA_PRESSAO_ALTA, CALDEIRA_NIVEL_BAIXO] ∧
    ∃ s, sistema [JOY_RIGHT, JOY_RIGHT, JOY_UP, JOY_CENTER, JOY_LEFT] JOY_CENTER
        (repouso estado_atual) = some s ∧
      postados s.historico = [CALDEIRA_OK, CALDEIRA_PRESSAO_ALTA, CALDEIRA_NIVEL_BAIXO] := by
  refine ⟨by decide, by decide, ?_⟩
  have key : ∃ s ∈ sistema [JOY_RIGHT, JOY_RIGHT, JOY_UP, JOY_CENTER, JOY_LEFT] JOY_CENTER
        (repouso estado_atual),
      postados s.historico = [CALDEIRA_OK, CALDEIRA_PRESSAO_ALTA, CALDEIRA_NIVEL_BAIXO] := by
    decide!
  exact key

theorem tarefa_joystick_mantido_envios (d : joystick_dir_t) (n : Nat) :
    (tarefa_joystick d (List.replicate n d)).map envios = List.replicate n [] := by
  induction n with
  | zero => rfl
  | succ n ih =>
    have h0 : envios (tarefa_joystick_ciclo d d).1 = [] := by cases d <;> rfl
    simp only [List.replicate_succ, tarefa_joystick, List.map_cons, h0]
    exact congrArg _ ih

/-- C16. With the queue holding its capacity of 10 commands, a sampler cycle that
detects a transition to a non-center direction makes its one `xQueueSend` call and
leaves the queue (and the telemetry) as they were; `dir_anterior` becomes the current
direction all the same, so however many cycles the direction is then held, none of
them posts: the dropped command is not retried. -/
theorem C16_fila_cheia (fila : List estado_caldeira_t) (d : dados_caldeira_t)
    (dir_anterior dir_atual : joystick_dir_t)
    (hcheia : fila.length = CAPACIDADE_FILA)
    (hmuda : dir_atual ≠ dir_anterior) (hfora : dir_atual ≠ JOY_CENTER) :
    (envios (tarefa_joystick_ciclo dir_anterior dir_atual).1).length = 1 ∧
    executa (tarefa_joystick_ciclo dir_anterior dir_atual).1 { fila := fila, estado_atual := d }
      = { fila := fila, estado_atual := d } ∧
    (tarefa_joystick_ciclo dir_anterior dir_atual).2 = dir_atual ∧
    ∀ n : Nat,
      (tarefa_joystick (tarefa_joystick_ciclo dir_anterior dir_atual).2
        (List.replicate n dir_atual)).map envios = List.replicate n [] := by
  refine ⟨?_, ?_, rfl, fun n => ?_⟩
  · rw [envios_ciclo_length, if_pos ⟨hfora, hmuda⟩]
  · simp [tarefa_joystick_ciclo, hmuda, hfora, executa, Acao.efeito, Acao.enfileira,
      Acao.escreve, xQueueSend, hcheia]
  · exact tarefa_joystick_mantido_envios dir_atual n

/-- Witness for C16: UP after CENTER on a queue of ten commands, then UP held three cycles. -/
theorem C16_fila_cheia_witness :
    (envios (tarefa_joystick_ciclo JOY_CENTER JOY_UP).1).length = 1 ∧
    executa (tarefa_joystick_ciclo JOY_CENTER JOY_UP).1
        { fila := List.replicate 10 CALDEIRA_NIVEL_BAIXO, estado_atual := estado_atual }
      = { fila := List.replicate 10 CALDEIRA_NIVEL_BAIXO, estado_atual := estado_atual } ∧
    (tarefa_joystick_ciclo JOY_CENTER JOY_UP).2 = JOY_UP ∧
    (tarefa_joystick (tarefa_joystick_ciclo JOY_CENTER JOY_UP).2
        (List.replicate 3 JOY_UP)).map envios = List.replicate 3 [] :=
  have h := C16_fila_cheia (List.replicate 10 CALDEIRA_NIVEL_BAIXO) estado_atual JOY_CENTER
    JOY_UP (by decide) (by decide) (by decide)
  ⟨h.1, h.2.1, h.2.2.1, h.2.2.2 3⟩

/-! ## Theorems: profiles and start-up -/

/-- C14. The profile write of `tarefa_caldeira_ok` applied to the record
(OK, 300, 90, 54, on, off, closed) leaves all seven fields as they are; and for every
state `S`, the body of the handler bound to `S` applied to the record it has itself
produced gives that record again. -/
theorem C14_perfil_idempotente (S : estado_caldeira_t) (d : dados_caldeira_t)
    (fila fila2 : List estado_caldeira_t) :
    (executa (tarefa_caldeira_ok CALDEIRA_OK)
        { fila := fila, estado_atual := ⟨CALDEIRA_OK, 300, 90, 54, true, false, false⟩ }
      ).estado_atual = ⟨CALDEIRA_OK, 300, 90, 54, true, false, false⟩ ∧
    (executa ((dono S).corpo S)
        { fila := fila2,
          estado_atual :=
            (executa ((dono S).corpo S) { fila := fila, estado_atual := d }).estado_atual }
      ).estado_atual =
      (executa ((dono S).corpo S) { fila := fila, estado_atual := d }).estado_atual := by
  refine ⟨rfl, ?_⟩
  cases S <;> rfl

/-- C15. The statically initialised `estado_atual` equals, field by field, the record
`tarefa_caldeira_ok` writes when it claims `CALDEIRA_OK`, whatever record it starts
from: state OK, 300, 90, 54, heater on, pump off, relief closed. -/
theorem C15_telemetria_inicial (d : dados_caldeira_t) (fila : List estado_caldeira_t) :
    estado_atual =
      (executa (tarefa_caldeira_ok CALDEIRA_OK) { fila := fila, estado_atual := d }).estado_atual ∧
    estado_atual = ⟨CALDEIRA_OK, 300, 90, 54, true, false, false⟩ ∧
    estado_atual.estado = CALDEIRA_OK ∧ estado_atual.pressao = 300 ∧
    estado_atual.temperatura = 90 ∧ estado_atual.nivel_agua = 54 ∧
    estado_atual.aquecedor = true ∧ estado_atual.bomba = false ∧
    estado_atual.alivio = false :=
  ⟨rfl, rfl, rfl, rfl, rfl, rfl, rfl, rfl, rfl⟩

theorem cria_tarefas_falha (criou : Funcao → Bool) (antes : List (Funcao × Nat)) :
    ∀ (f : Funcao × Nat) (depois : List (Funcao × Nat)),
      (∀ g ∈ antes, criou g.1 = true) → criou f.1 = false →
      cria_tarefas criou (antes ++ f :: depois) =
        (antes ++ [f]).map (fun g : Funcao × Nat => Inicializacao.xTaskCreate g.1 g.2) ++
          [Inicializacao.trava] := by
  induction antes with
  | nil =>
    intro f depois _ hf
    simp [cria_tarefas, hf]
  | cons a antes ih =>
    intro f depois hantes hf
    have ha : criou a.1 = true := hantes a (List.mem_cons_self _ _)
    have hr : ∀ g ∈ antes, criou g.1 = true := fun g hg => hantes g (List.mem_cons_of_mem _ hg)
    simp [cria_tarefas, ha, ih f depois hr hf]

theorem cria_tarefas_sucesso (criou : Funcao → Bool) (tabela : List (Funcao × Nat)) :
    (∀ g ∈ tabela, criou g.1 = true) →
      cria_tarefas criou tabela =
        tabela.map (fun g : Funcao × Nat => Inicializacao.xTaskCreate g.1 g.2) ++
          [Inicializacao.xQueueSend CALDEIRA_OK, Inicializacao.vTaskStartScheduler] := by
  induction tabela with
  | nil => intro _; rfl
  | cons a tabela ih =>
    intro h
    have ha : criou a.1 = true := h a (List.mem_cons_self _ _)
    have hr : ∀ g ∈ tabela, criou g.1 = true := fun g hg => h g (List.mem_cons_of_mem _ hg)
    simp [cria_tarefas, ha, ih hr]

theorem cria_tarefas_inicia (criou : Funcao → Bool) (tabela : List (Funcao × Nat)) :
    (Inicializacao.vTaskStartScheduler ∈ cria_tarefas criou tabela ↔
      ∀ g ∈ tabela, criou g.1 = true) ∧
    (Inicializacao.xQueueSend CALDEIRA_OK ∈ cria_tarefas criou tabela ↔
      ∀ g ∈ tabela, criou g.1 = true) ∧
    ((cria_tarefas criou tabela).getLast? = some Inicializacao.trava ↔
      ¬ ∀ g ∈ tabela, criou g.1 = true) := by
  induction tabela with
  | nil => simp [cria_tarefas]
  | cons a tabela ih =>
    obtain ⟨ih1, ih2, ih3⟩ := ih
    cases ha : criou a.1 with
    | false =>
      simp [cria_tarefas, ha, List.getLast?_cons_cons]
    | true =>
      have hne : cria_tarefas criou tabela ≠ [] := by
        cases tabela with
        | nil => simp [cria_tarefas]
        | cons b t => obtain ⟨f, p⟩ := b; simp [cria_tarefas]
      obtain ⟨x, xs, hx⟩ := List.exists_cons_of_ne_nil hne
      refine ⟨?_, ?_, ?_⟩
      · simp [cria_tarefas, ha, ih1]
      · simp [cria_tarefas, ha, ih2]
      · simp only [cria_tarefas, ha, if_true]
        rw [hx, List.getLast?_cons_cons, ← hx, ih3]
        simp [ha]

theorem tabela_de_tarefas_completa (criou : Funcao → Bool) :
    (∀ g ∈ tabela_de_tarefas, criou g.1 = true) ↔ ∀ f : Funcao, criou f = true := by
  constructor
  · intro h f
    cases f
    · exact h (Funcao.tarefa_joystick, 5) (by decide)
    · exact h (Funcao.tarefa_caldeira_ok, 1) (by decide)
    · exact h (Funcao.tarefa_caldeira_nivel, 2) (by decide)
    · exact h (Funcao.tarefa_caldeira_temperatura, 3) (by decide)
    · exact h (Funcao.tarefa_caldeira_pressao, 4) (by decide)
    · exact h (Funcao.tarefa_display, 1) (by decide)
  · intro h g _
    exact h g.1

/-- C17. `main` reaches `vTaskStartScheduler` (and posts the initial `CALDEIRA_OK`)
if and only if the queue creation and all six task creations succeed; otherwise it
ends in `while(1);`: right after `xQueueCreate` when the queue creation fails, and
right after the first failing `xTaskCreate` otherwise, with no later task created,
no initial post and no scheduler start. -/
theorem C17_falha_de_inicializacao (fila_criada : Bool) (criou : Funcao → Bool) :
    (Inicializacao.vTaskStartScheduler ∈ main fila_criada criou ↔
      (fila_criada = true ∧ ∀ f : Funcao, criou f = true)) ∧
    (Inicializacao.xQueueSend CALDEIRA_OK ∈ main fila_criada criou ↔
      (fila_criada = true ∧ ∀ f : Funcao, criou f = true)) ∧
    ((main fila_criada criou).getLast? = some Inicializacao.trava ↔
      ¬ (fila_criada = true ∧ ∀ f : Funcao, criou f = true)) ∧
    (fila_criada = false →
      main fila_criada criou = [Inicializacao.xQueueCreate 10, Inicializacao.trava]) ∧
    (∀ (antes : List (Funcao × Nat)) (f : Funcao × Nat) (depois : List (Funcao × Nat)),
      tabela_de_tarefas = antes ++ f :: depois → fila_criada = true →
      (∀ g ∈ antes, criou g.1 = true) → criou f.1 = false →
      main fila_criada criou =
        Inicializacao.xQueueCreate 10 ::
          ((antes ++ [f]).map (fun g : Funcao × Nat => Inicializacao.xTaskCreate g.1 g.2) ++
            [Inicializacao.trava])) ∧
    ((fila_criada = true ∧ ∀ f : Funcao, criou f = true) →
      main fila_criada criou =
        Inicializacao.xQueueCreate 10 ::
          (tabela_de_tarefas.map (fun g : Funcao × Nat => Inicializacao.xTaskCreate g.1 g.2) ++
            [Inicializacao.xQueueSend CALDEIRA_OK, Inicializacao.vTaskStartScheduler])) := by
  obtain ⟨h1, h2, h3⟩ := cria_tarefas_inicia criou tabela_de_tarefas
  rw [tabela_de_tarefas_completa] at h1 h2 h3
  have hne : cria_tarefas criou tabela_de_tarefas ≠ [] := by
    simp [tabela_de_tarefas, cria_tarefas]
  obtain ⟨x, xs, hx⟩ := List.exists_cons_of_ne_nil hne
  refine ⟨?_, ?_, ?_, ?_, ?_, ?_⟩
  · cases fila_criada
    · simp [main]
    · simpa [main] using h1
  · cases fila_criada
    · simp [main]
    · simpa [main] using h2
  · cases fila_criada
    · simp [main]
    · simp only [main, if_true, true_and]
      rw [hx, List.getLast?_cons_cons, ← hx]
      exact h3
  · intro hf
    subst hf
    rfl
  · intro antes f depois htab hf hantes hfalha
    subst hf
    simp only [main, if_true, htab, CAPACIDADE_FILA]
    rw [cria_tarefas_falha criou antes f depois hantes hfalha]
  · intro ⟨hf, hc⟩
    subst hf
    simp only [main, if_true, CAPACIDADE_FILA]
    rw [cria_tarefas_sucesso criou tabela_de_tarefas ((tabela_de_tarefas_completa criou).mpr hc)]

/-- Witness for C17: the third task creation fails; the queue creation fails; all succeed. -/
theorem C17_falha_de_inicializacao_witness :
    main true (fun f => decide (f ≠ Funcao.tarefa_caldeira_nivel)) =
      Inicializacao.xQueueCreate 10 ::
        (([(Funcao.tarefa_joystick, 5), (Funcao.tarefa_caldeira_ok, 1)] ++
            [(Funcao.tarefa_caldeira_nivel, 2)]).map
            (fun g : Funcao × Nat => Inicializacao.xTaskCreate g.1 g.2) ++
          [Inicializacao.trava]) ∧
    main false (fun _ => true) = [Inicializacao.xQueueCreate 10, Inicializacao.trava] ∧
    main true (fun _ => true) =
      Inicializacao.xQueueCreate 10 ::
        (tabela_de_tarefas.map (fun g : Funcao × Nat => Inicializacao.xTaskCreate g.1 g.2) ++
          [Inicializacao.xQueueSend CALDEIRA_OK, Inicializacao.vTaskStartScheduler]) :=
  ⟨(C17_falha_de_inicializacao true (fun f => decide (f ≠ Funcao.tarefa_caldeira_nivel))).2.2.2.2.1
      [(Funcao.tarefa_joystick, 5), (Funcao.tarefa_caldeira_ok, 1)]
      (Funcao.tarefa_caldeira_nivel, 2)
      [(Funcao.tarefa_caldeira_temperatura, 3), (Funcao.tarefa_caldeira_pressao, 4),
       (Funcao.tarefa_display, 1)]
      rfl rfl (by decide) (by decide),
   (C17_falha_de_inicializacao false (fun _ => true)).2.2.2.1 rfl,
   (C17_falha_de_inicializacao true (fun _ => true)).2.2.2.2.2 ⟨rfl, fun _ => rfl⟩⟩

theorem criadas_cria_tarefas (criou : Funcao → Bool) :
    ∀ tabela : List (Funcao × Nat), criadas (cria_tarefas criou tabela) <+: tabela := by
  intro tabela
  induction tabela with
  | nil => exact List.prefix_refl _
  | cons a tabela ih =>
    obtain ⟨f, p⟩ := a
    cases hf : criou f with
    | false =>
      simp only [cria_tarefas, hf, criadas, Bool.false_eq_true, if_false]
      exact (List.cons_prefix_cons).mpr ⟨rfl, List.nil_prefix⟩
    | true =>
      simp only [cria_tarefas, hf, criadas, if_true]
      exact (List.cons_prefix_cons).mpr ⟨rfl, ih⟩

/-- C19. The tasks `main` creates when every creation succeeds are, in order, the sampler
with priority 5, the handlers of OK, NIVEL_BAIXO, TEMP_ALTA and PRESSAO_ALTA with priorities
1, 2, 3 and 4 (enumeration value + 1: strictly increasing, hence distinct, and all below
the sampler's 5) and the display task with priority 1, each created once; whatever
creation fails, the tasks `main` has created up to there have those same priorities. -/
theorem C19_prioridades_das_tarefas :
    criadas (main true (fun _ => true)) =
      [(Funcao.tarefa_joystick, 5), (Funcao.tarefa_caldeira_ok, 1),
       (Funcao.tarefa_caldeira_nivel, 2), (Funcao.tarefa_caldeira_temperatura, 3),
       (Funcao.tarefa_caldeira_pressao, 4), (Funcao.tarefa_display, 1)] ∧
    (∀ S : estado_caldeira_t,
      (criadas (main true (fun _ => true))).lookup (dono S).funcao = some (S.valor + 1) ∧
      (dono S).vinculo = S) ∧
    (criadas (main true (fun _ => true))).lookup Funcao.tarefa_caldeira_ok = some 1 ∧
    (criadas (main true (fun _ => true))).lookup Funcao.tarefa_caldeira_nivel = some 2 ∧
    (criadas (main true (fun _ => true))).lookup Funcao.tarefa_caldeira_temperatura = some 3 ∧
    (criadas (main true (fun _ => true))).lookup Funcao.tarefa_caldeira_pressao = some 4 ∧
    (criadas (main true (fun _ => true))).lookup Funcao.tarefa_joystick = some 5 ∧
    (criadas (main true (fun _ => true))).lookup Funcao.tarefa_display = some 1 ∧
    ((criadas (main true (fun _ => true))).map Prod.fst).Nodup ∧
    ([CALDEIRA_OK, CALDEIRA_NIVEL_BAIXO, CALDEIRA_TEMP_ALTA, CALDEIRA_PRESSAO_ALTA].filterMap
      fun S => (criadas (main true (fun _ => true))).lookup (dono S).funcao) = [1, 2, 3, 4] ∧
    ([CALDEIRA_OK, CALDEIRA_NIVEL_BAIXO, CALDEIRA_TEMP_ALTA, CALDEIRA_PRESSAO_ALTA].filterMap
      fun S => (criadas (main true (fun _ => true))).lookup (dono S).funcao).Pairwise
        (fun a b => a < b) ∧
    (∀ t : Tarefa,
      (criadas (main true (fun _ => true))).lookup t.funcao = some t.prioridade ∧
      t.prioridade < 5) ∧
    (∀ (fila_criada : Bool) (criou : Funcao → Bool),
      criadas (main fila_criada criou) <+: criadas (main true (fun _ => true))) := by
  refine ⟨by decide, by decide, by decide, by decide, by decide, by decide, by decide,
    by decide, by decide, by decide, by decide, by decide, fun fila_criada criou => ?_⟩
  have h : criadas (main true (fun _ => true)) = tabela_de_tarefas := by decide
  rw [h]
  cases fila_criada with
  | false => exact List.nil_prefix
  | true => exact criadas_cria_tarefas criou tabela_de_tarefas

/-! ## Theorems: the emergency handler returns to its receive -/

theorem passo_outra_tarefa (s : Sistema) (t : Tarefa) (h : t ≠ Tarefa.pressao) :
    (passo s t).pressao = s.pressao := by
  unfold passo
  cases t with
  | pressao => exact absurd rfl h
  | ok => split <;> [split; skip] <;> rfl
  | nivel => split <;> [split; skip] <;> rfl
  | temperatura => split <;> [split; skip] <;> rfl

theorem passo_pressao_cont (s : Sistema) (a : Acao) (resto : List Acao)
    (h : s.pressao.cont = a :: resto) : (passo s Tarefa.pressao).pressao.cont = resto := by
  have h1 : (s.tcb Tarefa.pressao).cont = a :: resto := h
  simp only [passo, h1]
  rfl

theorem passos_pressao_cont (ts : List Tarefa) :
    ∀ s : Sistema, ts.count Tarefa.pressao ≤ s.pressao.cont.length →
      (ts.foldl passo s).pressao.cont = s.pressao.cont.drop (ts.count Tarefa.pressao) := by
  induction ts with
  | nil => intro s _; rfl
  | cons t ts ih =>
    intro s h
    by_cases ht : t = Tarefa.pressao
    · subst ht
      rw [List.count_cons_self] at h ⊢
      cases hc : s.pressao.cont with
      | nil => rw [hc] at h; simp at h
      | cons a resto =>
        rw [hc] at h
        have hp := passo_pressao_cont s a resto hc
        have hle : ts.count Tarefa.pressao ≤ (passo s Tarefa.pressao).pressao.cont.length := by
          rw [hp]; simpa using h
        rw [List.foldl_cons, ih _ hle, hp, List.drop_succ_cons]
    · have hne : (t == Tarefa.pressao) = false := by simpa using ht
      rw [List.count_cons, hne] at h ⊢
      simp only [Bool.false_eq_true, if_false, Nat.add_zero] at h ⊢
      have hp := passo_outra_tarefa s t ht
      rw [List.foldl_cons, ih (passo s t) (by rw [hp]; exact h), hp]

/-- C18. Once `tarefa_caldeira_pressao` has received `CALDEIRA_PRESSAO_ALTA` (whatever
the rest of the queue, the telemetry and the state of the other handlers), what it
has left to do is its 20-action body: five one-second countdown delays, one post of
`CALDEIRA_OK`, the 200 ms delay last. After exactly 20 steps of its own, in any
interleaving with steps of the other handlers, it is back at `xQueueReceive`, and
not before. -/
theorem C18_emergencia_termina (s : Sistema) (resto : List estado_caldeira_t)
    (ts : List Tarefa)
    (hrecv : s.pressao.cont = []) (hfila : s.fila = CALDEIRA_PRESSAO_ALTA :: resto) :
    (passo s Tarefa.pressao).pressao.cont = tarefa_caldeira_pressao CALDEIRA_PRESSAO_ALTA ∧
    (tarefa_caldeira_pressao CALDEIRA_PRESSAO_ALTA).length = 20 ∧
    (tarefa_caldeira_pressao CALDEIRA_PRESSAO_ALTA).count (Acao.vTaskDelay 1000) = 5 ∧
    envios (tarefa_caldeira_pressao CALDEIRA_PRESSAO_ALTA) = [CALDEIRA_OK] ∧
    (tarefa_caldeira_pressao CALDEIRA_PRESSAO_ALTA).getLast? = some (Acao.vTaskDelay 200) ∧
    (ts.count Tarefa.pressao = 20 →
      (ts.foldl passo (passo s Tarefa.pressao)).pressao.cont = []) ∧
    (ts.count Tarefa.pressao < 20 →
      (ts.foldl passo (passo s Tarefa.pressao)).pressao.cont ≠ []) := by
  have h0 : (passo s Tarefa.pressao).pressao.cont =
      tarefa_caldeira_pressao CALDEIRA_PRESSAO_ALTA := by
    have h1 : (s.tcb Tarefa.pressao).cont = [] := hrecv
    simp only [passo, h1, hfila]
    rfl
  have hlen : (tarefa_caldeira_pressao CALDEIRA_PRESSAO_ALTA).length = 20 := rfl
  refine ⟨h0, hlen, by decide, rfl, rfl, fun h => ?_, fun h => ?_⟩
  · rw [passos_pressao_cont ts _ (by rw [h0, hlen, h]), h0, h]
    rfl
  · rw [passos_pressao_cont ts _ (by rw [h0, hlen]; omega), h0]
    intro hnil
    have := congrArg List.length hnil
    rw [List.length_drop, hlen] at this
    simp at this
    omega

/-- Witness for C18: twenty consecutive own steps; and two own steps with one foreign step between. -/
theorem C18_emergencia_termina_witness :
    (List.foldl passo
        (passo { repouso estado_atual with fila := [CALDEIRA_PRESSAO_ALTA, CALDEIRA_TEMP_ALTA] }
          Tarefa.pressao)
        (List.replicate 20 Tarefa.pressao)).pressao.cont = [] ∧
    (List.foldl passo
        (passo { repouso estado_atual with fila := [CALDEIRA_PRESSAO_ALTA, CALDEIRA_TEMP_ALTA] }
          Tarefa.pressao)
        [Tarefa.pressao, Tarefa.temperatura, Tarefa.pressao]).pressao.cont ≠ [] :=
  ⟨(C18_emergencia_termina
      { repouso estado_atual with fila := [CALDEIRA_PRESSAO_ALTA, CALDEIRA_TEMP_ALTA] }
      [CALDEIRA_TEMP_ALTA] (List.replicate 20 Tarefa.pressao) rfl rfl).2.2.2.2.2.1 (by decide),
   (C18_emergencia_termina
      { repouso estado_atual with fila := [CALDEIRA_PRESSAO_ALTA, CALDEIRA_TEMP_ALTA] }
      [CALDEIRA_TEMP_ALTA] [Tarefa.pressao, Tarefa.temperatura, Tarefa.pressao]
      rfl rfl).2.2.2.2.2.2 (by decide)⟩

end Caldeira

namespace Caldeira

open estado_caldeira_t joystick_dir_t


/-! ## Theorems: LED matrix and display -/

/-- The rounding `f32` gives the single-precision literals their IEEE 754 values:
`0.01f` is 0x3C23D70A, `3.3f` is 0x40533333, `0.706f` is 0x3F34BC6A; integers up to
`2 ^ 24` are kept, and a tie goes to the even significand. -/
theorem f32_literais :
    BRIGHTNESS_FACTOR = 10737418 / 2 ^ 30 ∧
    f32 (33 / 10) = 13841203 / 2 ^ 22 ∧
    f32 (706 / 1000) = 11844714 / 2 ^ 24 ∧
    f32 4095 = 4095 ∧ f32 16777217 = 16777216 ∧ f32 16777219 = 16777220 := by
  decide!

theorem apply_brightness_tabela : ∀ c < 256, apply_brightness c = c / 100 := by
  decide!

/-- C23. For every 8-bit `c`, `apply_brightness c` is `c / 100` rounded down: 0 below 100,
1 from 100 to 199, 2 from 200 on, and it never decreases when `c` grows. This rests on
the single-precision product being rounded to nearest: `0.01f` is slightly below 1/100,
so the exact product at `c = 100` is below 1, and it is the rounding that gives 1. -/
theorem C23_atenuacao_de_brilho (c c2 : Nat) (hc : c ≤ 255) (hc2 : c2 ≤ 255) :
    apply_brightness c = c / 100 ∧
    (c < 100 → apply_brightness c = 0) ∧
    (100 ≤ c → c < 200 → apply_brightness c = 1) ∧
    (200 ≤ c → apply_brightness c = 2) ∧
    (c ≤ c2 → apply_brightness c ≤ apply_brightness c2) ∧
    (100 : ℚ) * BRIGHTNESS_FACTOR < 1 ∧ f32 ((100 : ℚ) * BRIGHTNESS_FACTOR) = 1 := by
  have h1 := apply_brightness_tabela c (by omega)
  have h2 := apply_brightness_tabela c2 (by omega)
  refine ⟨h1, fun h => ?_, fun h h' => ?_, fun h => ?_, fun h => ?_, by decide!, by decide!⟩
  · rw [h1]; omega
  · rw [h1]; omega
  · rw [h1]; omega
  · rw [h1, h2]; omega

/-- Witness for C23: the values at the two thresholds and next to the first. -/
theorem C23_atenuacao_de_brilho_witness :
    apply_brightness 100 = 1 ∧ apply_brightness 200 = 2 ∧ apply_brightness 99 = 0 ∧
    apply_brightness 100 ≤ apply_brightness 255 :=
  ⟨(C23_atenuacao_de_brilho 100 255 (by decide) (by decide)).2.2.1 (by decide) (by decide),
   (C23_atenuacao_de_brilho 200 255 (by decide) (by decide)).2.2.2.1 (by decide),
   (C23_atenuacao_de_brilho 99 255 (by decide) (by decide)).2.1 (by decide),
   (C23_atenuacao_de_brilho 100 255 (by decide) (by decide)).2.2.2.2.1 (by decide)⟩


theorem utf8ByteSize_go_append (a b : List Char) :
    String.utf8ByteSize.go (a ++ b) = String.utf8ByteSize.go a + String.utf8ByteSize.go b := by
  induction a with
  | nil => simp [String.utf8ByteSize.go]
  | cons c a ih => simp [String.utf8ByteSize.go, ih]; omega

theorem utf8ByteSize_append (a b : String) :
    (a ++ b).utf8ByteSize = a.utf8ByteSize + b.utf8ByteSize := by
  cases a
  cases b
  exact utf8ByteSize_go_append _ _

theorem sprintf_estado (d : dados_caldeira_t) :
    sprintf ("Estado: " ++ estados.getD d.estado.valor ("")) =
      some ("Estado: " ++ estados.getD d.estado.valor ("")) := by
  cases d.estado <;> decide!

theorem sprintf_on_off (rotulo : String) (b : Bool) (h : rotulo.utf8ByteSize = 8) :
    sprintf (rotulo ++ on_off b) = some (rotulo ++ on_off b) := by
  have hb : (on_off b).utf8ByteSize ≤ 3 := by cases b <;> decide!
  simp only [sprintf, utf8ByteSize_append, h, TAMANHO_TEXTO]
  rw [if_pos (by omega)]

theorem sprintf_cabe (s : String) :
    (sprintf s = some s ↔ s.utf8ByteSize ≤ 31) ∧ (sprintf s = none ↔ 31 < s.utf8ByteSize) := by
  simp only [sprintf, TAMANHO_TEXTO]
  by_cases h : s.utf8ByteSize + 1 ≤ 32
  · rw [if_pos h]
    exact ⟨⟨fun _ => (by omega), fun _ => rfl⟩, ⟨fun e => (by cases e), fun e => (by omega)⟩⟩
  · rw [if_neg h]
    exact ⟨⟨fun e => (by cases e), fun e => (by omega)⟩, ⟨fun _ => (by omega), fun _ => rfl⟩⟩

/-- C21, as stated, fails. The three numeric lines are built by `sprintf` into the
32-byte buffer `texto` with no bound. For the record with pressure `2 ^ 64` (a value a
`float` field can hold) and the other fields of the OK profile, `%.0f` expands to 20
digits, the pressure line needs 32 characters plus the terminating NUL, and the call
writes past the end of the buffer: no seven lines are guaranteed. -/
theorem C21_linha_maior_que_o_buffer :
    formato_0f (2 ^ 64) = ("18446744073709551616") ∧
    ("Pressao:" ++ formato_0f (2 ^ 64) ++ " kPa").utf8ByteSize + 1 = 33 ∧
    TAMANHO_TEXTO = 32 ∧
    sprintf ("Pressao:" ++ formato_0f (2 ^ 64) ++ " kPa") = none ∧
    atualizar_display formato_0f
      { estado := CALDEIRA_OK, pressao := 2 ^ 64, temperatura := 90, nivel_agua := 54,
        aquecedor := true, bomba := false, alivio := false } = none := by
  decide!

/-- C21, amended. `atualizar_display` completes exactly when the three numeric lines fit in
the 32-byte buffer with their terminating NUL, that is when `%.0f` renders the pressure in
at most 19 characters, the temperature in at most 21 and the level in at most 22. For
every such record it clears the display, draws exactly seven text lines at x = 0 and
y = 0, 8, 16, 24, 32, 40, 48 (state name, pressure, temperature, level, heater, pump,
relief valve, in that order), renders, and leaves the record as it received it. The index
into the four-entry table of state names is the enumeration value, always below 4; a
boolean is rendered `On` when true and `Off` when false. The four profiles the handlers
write are such records. -/
theorem C21_linhas_do_display (fmt : ℚ → String) (d : dados_caldeira_t) :
    (atualizar_display fmt d ≠ none ↔
      ((fmt d.pressao).utf8ByteSize ≤ 19 ∧ (fmt d.temperatura).utf8ByteSize ≤ 21 ∧
        (fmt d.nivel_agua).utf8ByteSize ≤ 22)) ∧
    (((fmt d.pressao).utf8ByteSize ≤ 19 ∧ (fmt d.temperatura).utf8ByteSize ≤ 21 ∧
        (fmt d.nivel_agua).utf8ByteSize ≤ 22) →
      ∃ chamadas, atualizar_display fmt d = some (chamadas, d) ∧
        chamadas.head? = some Desenho.ssd1306_clear ∧
        chamadas.getLast? = some Desenho.render_on_display ∧
        chamadas.length = 9 ∧
        linhas chamadas =
          [(0, 0, "Estado: " ++ estados.getD d.estado.valor ("")),
           (0, 8, "Pressao:" ++ fmt d.pressao ++ " kPa"),
           (0, 16, "Temp:   " ++ fmt d.temperatura ++ " C"),
           (0, 24, "Nivel:  " ++ fmt d.nivel_agua ++ "%"),
           (0, 32, "Aquec:  " ++ on_off d.aquecedor),
           (0, 40, "Bomba:  " ++ on_off d.bomba),
           (0, 48, "Alivio: " ++ on_off d.alivio)] ∧
        (linhas chamadas).length = 7 ∧
        (linhas chamadas).map (fun l => l.2.1) = [0, 8, 16, 24, 32, 40, 48]) ∧
    d.estado.valor < estados.length ∧ estados.length = 4 ∧
    estados.get? d.estado.valor =
      some (match d.estado with
        | CALDEIRA_OK => ("OK")
        | CALDEIRA_NIVEL_BAIXO => ("Nv Low")
        | CALDEIRA_TEMP_ALTA => ("Tp High")
        | CALDEIRA_PRESSAO_ALTA => ("Pr high")) ∧
    on_off true = ("On") ∧ on_off false = ("Off") ∧
    (∀ S : estado_caldeira_t, atualizar_display formato_0f (perfil_spec S) ≠ none) := by
  have h1 := sprintf_estado d
  have h5 := sprintf_on_off ("Aquec:  ") d.aquecedor (by decide!)
  have h6 := sprintf_on_off ("Bomba:  ") d.bomba (by decide!)
  have h7 := sprintf_on_off ("Alivio: ") d.alivio (by decide!)
  have e2 : ("Pressao:" ++ fmt d.pressao ++ " kPa").utf8ByteSize =
      (fmt d.pressao).utf8ByteSize + 12 := by
    rw [utf8ByteSize_append, utf8ByteSize_append]
    have a : ("Pressao:").utf8ByteSize = 8 := by decide!
    have b : (" kPa").utf8ByteSize = 4 := by decide!
    omega
  have e3 : ("Temp:   " ++ fmt d.temperatura ++ " C").utf8ByteSize =
      (fmt d.temperatura).utf8ByteSize + 10 := by
    rw [utf8ByteSize_append, utf8ByteSize_append]
    have a : ("Temp:   ").utf8ByteSize = 8 := by decide!
    have b : (" C").utf8ByteSize = 2 := by decide!
    omega
  have e4 : ("Nivel:  " ++ fmt d.nivel_agua ++ "%").utf8ByteSize =
      (fmt d.nivel_agua).utf8ByteSize + 9 := by
    rw [utf8ByteSize_append, utf8ByteSize_append]
    have a : ("Nivel:  ").utf8ByteSize = 8 := by decide!
    have b : ("%").utf8ByteSize = 1 := by decide!
    omega
  have c2 := sprintf_cabe ("Pressao:" ++ fmt d.pressao ++ " kPa")
  have c3 := sprintf_cabe ("Temp:   " ++ fmt d.temperatura ++ " C")
  have c4 := sprintf_cabe ("Nivel:  " ++ fmt d.nivel_agua ++ "%")
  rw [e2] at c2
  rw [e3] at c3
  rw [e4] at c4
  have vai : ((fmt d.pressao).utf8ByteSize ≤ 19 ∧ (fmt d.temperatura).utf8ByteSize ≤ 21 ∧
        (fmt d.nivel_agua).utf8ByteSize ≤ 22) →
      atualizar_display fmt d = some
        ([Desenho.ssd1306_clear,
          Desenho.ssd1306_draw_string 0 0 ("Estado: " ++ estados.getD d.estado.valor ("")),
          Desenho.ssd1306_draw_string 0 8 ("Pressao:" ++ fmt d.pressao ++ " kPa"),
          Desenho.ssd1306_draw_string 0 16 ("Temp:   " ++ fmt d.temperatura ++ " C"),
          Desenho.ssd1306_draw_string 0 24 ("Nivel:  " ++ fmt d.nivel_agua ++ "%"),
          Desenho.ssd1306_draw_string 0 32 ("Aquec:  " ++ on_off d.aquecedor),
          Desenho.ssd1306_draw_string 0 40 ("Bomba:  " ++ on_off d.bomba),
          Desenho.ssd1306_draw_string 0 48 ("Alivio: " ++ on_off d.alivio),
          Desenho.render_on_display], d) := by
    intro ⟨hp, ht, hn⟩
    have s2 := c2.1.2 (by omega)
    have s3 := c3.1.2 (by omega)
    have s4 := c4.1.2 (by omega)
    simp only [atualizar_display, h1, s2, s3, s4, h5, h6, h7, Option.bind_eq_bind,
      Option.some_bind]
  refine ⟨⟨fun hne => ?_, fun hc => by rw [vai hc]; exact Option.some_ne_none _⟩,
    fun hc => ⟨_, vai hc, rfl, rfl, rfl, rfl, rfl, rfl⟩, ?_, rfl, ?_, rfl, rfl, ?_⟩
  · by_contra hnc
    apply hne
    by_cases hp : (fmt d.pressao).utf8ByteSize ≤ 19
    · by_cases ht : (fmt d.temperatura).utf8ByteSize ≤ 21
      · have hn : ¬ (fmt d.nivel_agua).utf8ByteSize ≤ 22 := fun hn => hnc ⟨hp, ht, hn⟩
        have s2 := c2.1.2 (by omega)
        have s3 := c3.1.2 (by omega)
        have s4 := c4.2.2 (by omega)
        simp only [atualizar_display, h1, s2, s3, s4, Option.bind_eq_bind, Option.some_bind,
          Option.none_bind]
      · have s2 := c2.1.2 (by omega)
        have s3 := c3.2.2 (by omega)
        simp only [atualizar_display, h1, s2, s3, Option.bind_eq_bind, Option.some_bind,
          Option.none_bind]
    · have s2 := c2.2.2 (by omega)
      simp only [atualizar_display, h1, s2, Option.bind_eq_bind, Option.some_bind,
        Option.none_bind]
  · cases d.estado <;> decide
  · cases d.estado <;> rfl
  · intro S
    cases S <;> decide!

/-- Witness for C21, amended: the PRESSAO_ALTA profile rendered with the ISO C `%.0f`. -/
theorem C21_linhas_do_display_witness :
    ∃ chamadas, atualizar_display formato_0f (perfil_spec CALDEIRA_PRESSAO_ALTA) =
        some (chamadas, perfil_spec CALDEIRA_PRESSAO_ALTA) ∧
      linhas chamadas =
        [(0, 0, "Estado: Pr high"), (0, 8, "Pressao:500 kPa"), (0, 16, "Temp:   120 C"),
         (0, 24, "Nivel:  54%"), (0, 32, "Aquec:  On"), (0, 40, "Bomba:  On"),
         (0, 48, "Alivio: On")] :=
  have h := (C21_linhas_do_display formato_0f (perfil_spec CALDEIRA_PRESSAO_ALTA)).2.1
    (by decide!)
  h.imp fun _ hc => ⟨hc.1, hc.2.2.2.2.1.trans (by decide!)⟩

/-- C22. On 0 <= x, y <= 4 `get_led_index` takes values in 0..24, is injective and reaches
every index of 0..24; it is `24 - (5y + x)` on even rows and `24 - (5y + (4 - x))` on odd
rows, so stepping from `x` to `x + 1` in a row moves the index by one (down on even
rows, up on odd rows). -/
theorem C22_indice_serpentina (x y x2 y2 i : Int)
    (hx : 0 ≤ x ∧ x ≤ 4) (hy : 0 ≤ y ∧ y ≤ 4) (hx2 : 0 ≤ x2 ∧ x2 ≤ 4)
    (hi : 0 ≤ i ∧ i ≤ 24) :
    (0 ≤ get_led_index x y ∧ get_led_index x y ≤ 24) ∧
    (get_led_index x y = get_led_index x2 y2 → x = x2 ∧ y = y2) ∧
    (∃ a b : Int, (0 ≤ a ∧ a ≤ 4) ∧ (0 ≤ b ∧ b ≤ 4) ∧ get_led_index a b = i) ∧
    (y % 2 = 0 → get_led_index x y = 24 - (5 * y + x)) ∧
    (y % 2 ≠ 0 → get_led_index x y = 24 - (5 * y + (4 - x))) ∧
    (x < 4 → (y % 2 = 0 → get_led_index (x + 1) y = get_led_index x y - 1) ∧
             (y % 2 ≠ 0 → get_led_index (x + 1) y = get_led_index x y + 1)) := by
  refine ⟨?_, ?_, ?_, ?_, ?_, ?_⟩
  · unfold get_led_index; split <;> omega
  · unfold get_led_index; split <;> split <;> omega
  · refine ⟨if ((24 - i) / 5) % 2 = 0 then (24 - i) % 5 else 4 - (24 - i) % 5, (24 - i) / 5,
      ?_, ?_, ?_⟩
    · split <;> omega
    · omega
    · unfold get_led_index; split <;> omega
  · intro h; unfold get_led_index; rw [if_pos h]; omega
  · intro h; unfold get_led_index; rw [if_neg h]; omega
  · intro _
    refine ⟨fun h => ?_, fun h => ?_⟩
    · unfold get_led_index; rw [if_pos h]; omega
    · unfold get_led_index; rw [if_neg h]; omega

/-- Witness for C22: the cell (3, 1) of an odd row. -/
theorem C22_indice_serpentina_witness :
    (0 ≤ get_led_index 3 1 ∧ get_led_index 3 1 ≤ 24) ∧
    get_led_index (3 + 1) 1 = get_led_index 3 1 + 1 ∧
    get_led_index 3 1 = 24 - (5 * 1 + (4 - 3)) :=
  have h := C22_indice_serpentina 3 1 0 0 7 (by decide) (by decide) (by decide) (by decide)
  ⟨h.1, (h.2.2.2.2.2 (by decide)).2 (by decide), h.2.2.2.2.1 (by decide)⟩

/-- C27. In `ler_joystick` the X axis is tested first: `x > 3300` gives `JOY_RIGHT` and
`x < 800` gives `JOY_LEFT` whatever `y` is; `JOY_UP` and `JOY_DOWN` are returned only, and
then always, when `x` lies in [800, 3300] and `y > 3300`, respectively `y < 800`. The
result is one of the five directions, and each direction is returned for some pair of
12-bit samples. -/
theorem C27_precedencia_do_eixo_x (x y : Nat) :
    (3300 < x → ler_joystick x y = JOY_RIGHT) ∧
    (x < 800 → ler_joystick x y = JOY_LEFT) ∧
    (ler_joystick x y = JOY_UP → (800 ≤ x ∧ x ≤ 3300) ∧ 3300 < y) ∧
    (ler_joystick x y = JOY_DOWN → (800 ≤ x ∧ x ≤ 3300) ∧ y < 800) ∧
    ((800 ≤ x ∧ x ≤ 3300) → 3300 < y → ler_joystick x y = JOY_UP) ∧
    ((800 ≤ x ∧ x ≤ 3300) → y < 800 → ler_joystick x y = JOY_DOWN) ∧
    ler_joystick x y ∈ [JOY_CENTER, JOY_RIGHT, JOY_LEFT, JOY_DOWN, JOY_UP] ∧
    (ler_joystick 2048 2048 = JOY_CENTER ∧ ler_joystick 4095 2048 = JOY_RIGHT ∧
     ler_joystick 0 2048 = JOY_LEFT ∧ ler_joystick 2048 0 = JOY_DOWN ∧
     ler_joystick 2048 4095 = JOY_UP) := by
  have key : ∀ d, ler_joystick x y = d →
      (d = JOY_RIGHT ∧ 3300 < x) ∨ (d = JOY_LEFT ∧ x < 800) ∨
      (d = JOY_UP ∧ (800 ≤ x ∧ x ≤ 3300) ∧ 3300 < y) ∨
      (d = JOY_DOWN ∧ (800 ≤ x ∧ x ≤ 3300) ∧ y < 800) ∨
      (d = JOY_CENTER ∧ (800 ≤ x ∧ x ≤ 3300) ∧ (800 ≤ y ∧ y ≤ 3300)) := by
    intro d hd
    subst hd
    unfold ler_joystick JOY_CENTER_MAX JOY_CENTER_MIN JOY_THRESHOLD
    split
    · left; exact ⟨rfl, by omega⟩
    split
    · right; left; exact ⟨rfl, by omega⟩
    split
    · right; right; left; exact ⟨rfl, by omega, by omega⟩
    split
    · right; right; right; left; exact ⟨rfl, by omega, by omega⟩
    · right; right; right; right; exact ⟨rfl, by omega, by omega⟩
  have k := key (ler_joystick x y) rfl
  refine ⟨fun h => ?_, fun h => ?_, fun h => ?_, fun h => ?_, fun h h' => ?_, fun h h' => ?_,
    ?_, by decide⟩
  · rcases k with k | k | k | k | k <;> first | exact k.1 | omega
  · rcases k with k | k | k | k | k <;> first | exact k.1 | omega
  · rw [h] at k
    rcases k with k | k | k | k | k <;> first | exact k.2 | exact absurd k.1 (by decide)
  · rw [h] at k
    rcases k with k | k | k | k | k <;> first | exact k.2 | exact absurd k.1 (by decide)
  · rcases k with k | k | k | k | k <;> first | exact k.1 | omega
  · rcases k with k | k | k | k | k <;> first | exact k.1 | omega
  · cases ler_joystick x y <;> decide

/-- Witness for C27: both axes beyond the band, and X inside the band. -/
theorem C27_precedencia_do_eixo_x_witness :
    ler_joystick 4000 4000 = JOY_RIGHT ∧ ler_joystick 100 4000 = JOY_LEFT ∧
    ler_joystick 2000 4000 = JOY_UP ∧ ler_joystick 2000 100 = JOY_DOWN :=
  ⟨(C27_precedencia_do_eixo_x 4000 4000).1 (by decide),
   (C27_precedencia_do_eixo_x 100 4000).2.1 (by decide),
   (C27_precedencia_do_eixo_x 2000 4000).2.2.2.2.1 (by decide) (by decide),
   (C27_precedencia_do_eixo_x 2000 100).2.2.2.2.2.1 (by decide) (by decide)⟩

theorem set_no_fim_do_prefixo (px s : pixel_t) (suf : List pixel_t) (pre : List pixel_t) :
    (pre ++ s :: suf).set pre.length px = pre ++ px :: suf := by
  induction pre with
  | nil => rfl
  | cons a pre ih => simp [List.set, ih]

theorem exibir_cor_matriz_laco_eq (r g b : Nat) (n : Nat) :
    ∀ pre suf : List pixel_t, suf.length = n → pre.length + n = LED_COUNT →
      exibir_cor_matriz_laco r g b n pre.length (pre ++ suf) =
        pre ++ List.replicate n
          { R := apply_brightness r, G := apply_brightness g, B := apply_brightness b } := by
  induction n with
  | zero =>
    intro pre suf hs _
    have : suf = [] := List.length_eq_zero.mp hs
    subst this
    rfl
  | succ n ih =>
    intro pre suf hs hp
    cases suf with
    | nil => simp at hs
    | cons s suf =>
      have hlt : pre.length < LED_COUNT := by omega
      have hs2 : suf.length = n := by simpa using hs
      simp only [exibir_cor_matriz_laco, neopixel_set_led, if_pos hlt, set_no_fim_do_prefixo]
      have h1 := ih (pre ++ [pixel_t.mk (apply_brightness g) (apply_brightness r)
        (apply_brightness b)]) suf hs2 (by simp; omega)
      simp only [List.length_append, List.length_singleton, List.append_assoc,
        List.singleton_append] at h1
      rw [h1, List.replicate_succ]

theorem apply_brightness_cores :
    apply_brightness 0 = 0 ∧ apply_brightness 165 = 1 ∧ apply_brightness 255 = 2 := by
  decide!

/-- C28. The handlers pass green (0,255,0), yellow (255,255,0), orange (255,165,0) and red
(255,0,0) to `exibir_cor_matriz`. On the 25-cell buffer each call leaves the same
attenuated pixel in all 25 cells: (R,G,B) = (0,2,0), (2,2,0), (2,1,0) and (2,0,0). These
four are pairwise different and none is (0,0,0). -/
theorem C28_indicadores_distintos (leds : List pixel_t) (h : leds.length = LED_COUNT) :
    (cores (tarefa_caldeira_ok CALDEIRA_OK) = [(0, 255, 0)] ∧
     cores (tarefa_caldeira_nivel CALDEIRA_NIVEL_BAIXO) = [(255, 255, 0)] ∧
     cores (tarefa_caldeira_temperatura CALDEIRA_TEMP_ALTA) = [(255, 165, 0)] ∧
     cores (tarefa_caldeira_pressao CALDEIRA_PRESSAO_ALTA) = List.replicate 6 (255, 0, 0)) ∧
    exibir_cor_matriz 0 255 0 leds = List.replicate 25 { R := 0, G := 2, B := 0 } ∧
    exibir_cor_matriz 255 255 0 leds = List.replicate 25 { R := 2, G := 2, B := 0 } ∧
    exibir_cor_matriz 255 165 0 leds = List.replicate 25 { R := 2, G := 1, B := 0 } ∧
    exibir_cor_matriz 255 0 0 leds = List.replicate 25 { R := 2, G := 0, B := 0 } ∧
    ([({ R := 0, G := 2, B := 0 } : pixel_t), { R := 2, G := 2, B := 0 },
      { R := 2, G := 1, B := 0 }, { R := 2, G := 0, B := 0 }]).Nodup ∧
    ({ R := 0, G := 0, B := 0 } : pixel_t) ∉
      [({ R := 0, G := 2, B := 0 } : pixel_t), { R := 2, G := 2, B := 0 },
       { R := 2, G := 1, B := 0 }, { R := 2, G := 0, B := 0 }] := by
  obtain ⟨a0, a165, a255⟩ := apply_brightness_cores
  have key : ∀ r g b : Nat, exibir_cor_matriz r g b leds =
      List.replicate 25
        { R := apply_brightness r, G := apply_brightness g, B := apply_brightness b } := by
    intro r g b
    have := exibir_cor_matriz_laco_eq r g b LED_COUNT [] leds h rfl
    simpa [exibir_cor_matriz, LED_COUNT] using this
  refine ⟨⟨rfl, rfl, rfl, rfl⟩, ?_, ?_, ?_, ?_, by decide, by decide⟩
  · rw [key, a0, a255]
  · rw [key, a0, a255]
  · rw [key, a0, a165, a255]
  · rw [key, a0, a255]

/-- Witness for C28: orange written over a dark buffer. -/
theorem C28_indicadores_distintos_witness :
    exibir_cor_matriz 255 165 0 (List.replicate 25 { R := 0, G := 0, B := 0 }) =
      List.replicate 25 { R := 2, G := 1, B := 0 } :=
  (C28_indicadores_distintos (List.replicate 25 { R := 0, G := 0, B := 0 }) rfl).2.2.2.1

/-! ## Theorems: queue and telemetry invariants -/

/-- C25. When a handler receives a command `c` other than its bound state from the queue
`c :: resto` (at most 10 commands) and runs its iteration without interruption, the
re-post finds a free slot and the queue ends as `resto ++ [c]`: a permutation of the
queue before, of the same length, with `c` last. -/
theorem C25_reenvio_conserva_a_fila (t : Tarefa) (c : estado_caldeira_t)
    (resto : List estado_caldeira_t) (d : dados_caldeira_t)
    (hc : c ≠ t.vinculo) (hcap : (c :: resto).length ≤ CAPACIDADE_FILA) :
    CAPACIDADE_FILA = 10 ∧
    xQueueSend resto c = resto ++ [c] ∧
    ∃ m, iteracao t { fila := c :: resto, estado_atual := d } = some m ∧
      m.fila = resto ++ [c] ∧
      m.fila.Perm (c :: resto) ∧
      m.fila.length = (c :: resto).length ∧
      m.fila.getLast? = some c := by
  have hlen : resto.length < CAPACIDADE_FILA := by
    simp only [List.length_cons] at hcap
    omega
  have hsend : xQueueSend resto c = resto ++ [c] := by
    unfold xQueueSend
    rw [if_pos hlen]
  refine ⟨rfl, hsend, ⟨{ fila := resto ++ [c], estado_atual := d }, ?_, rfl, ?_, ?_, ?_⟩⟩
  · simp [iteracao, corpo_nao_vinculado t c hc, executa, Acao.efeito, Acao.enfileira,
      Acao.escreve, hsend]
  · exact (List.perm_append_singleton c resto)
  · simp
  · simp

/-- Witness for C25: `tarefa_caldeira_nivel` bounces `CALDEIRA_PRESSAO_ALTA`. -/
theorem C25_reenvio_conserva_a_fila_witness :
    xQueueSend [CALDEIRA_OK, CALDEIRA_TEMP_ALTA] CALDEIRA_PRESSAO_ALTA =
      [CALDEIRA_OK, CALDEIRA_TEMP_ALTA] ++ [CALDEIRA_PRESSAO_ALTA] :=
  (C25_reenvio_conserva_a_fila Tarefa.nivel CALDEIRA_PRESSAO_ALTA
    [CALDEIRA_OK, CALDEIRA_TEMP_ALTA] estado_atual (by decide) (by decide)).2.1

theorem executa_vinculo (t : Tarefa) (m : Mundo) :
    (executa (t.corpo t.vinculo) m).estado_atual = perfil_spec t.vinculo := by
  cases t <;> rfl

/-- C26. With every handler iteration taken as one step, each telemetry record reachable
from the initial `estado_atual` by handler iterations in any order, on any queue
contents, is the profile of the state in its own `estado` field. -/
theorem C26_telemetria_e_um_perfil (d : dados_caldeira_t) (h : TelemetriaAlcancavel d) :
    d = perfil_spec d.estado ∧
    (∀ S : estado_caldeira_t, d.estado = S → d = perfil_spec S) ∧
    (perfil_spec d.estado).estado = d.estado := by
  have key : d = perfil_spec d.estado := by
    induction h with
    | inicial => rfl
    | passo t fila d m _ hit ih =>
      cases fila with
      | nil => simp [iteracao] at hit
      | cons c resto =>
        simp only [iteracao, Option.some.injEq] at hit
        subst hit
        by_cases hc : c = t.vinculo
        · subst hc
          rw [executa_vinculo]
          cases t <;> rfl
        · rw [corpo_nao_vinculado t c hc]
          exact ih
  refine ⟨key, fun S hS => ?_, ?_⟩
  · rw [← hS]; exact key
  · cases d.estado <;> rfl

/-- Witness for C26: the record after the emergency handler has claimed its command. -/
theorem C26_telemetria_e_um_perfil_witness :
    (executa (Tarefa.pressao.corpo CALDEIRA_PRESSAO_ALTA)
        { fila := [CALDEIRA_OK], estado_atual := estado_atual }).estado_atual =
      perfil_spec (executa (Tarefa.pressao.corpo CALDEIRA_PRESSAO_ALTA)
        { fila := [CALDEIRA_OK], estado_atual := estado_atual }).estado_atual.estado :=
  (C26_telemetria_e_um_perfil _
    (TelemetriaAlcancavel.passo Tarefa.pressao [CALDEIRA_PRESSAO_ALTA, CALDEIRA_OK]
      estado_atual _ TelemetriaAlcancavel.inicial rfl)).1

end Caldeira

/-! ## Theorems: temperature conversion -/

namespace Temperatura


/-- C24. The ADC code the test computes, `roundf((0.706f * 4095.0f) / 3.3f)`, is 876, as is
the exact 0.706 * 4095 / 3.3 rounded to the nearest integer; `adc_to_celsius(876)`,
computed in single precision, lies within 0.5 of 27, and so does the exact formula
`27 - (a * 3.3 / 4095 - 0.706) / 0.001721`, from which it differs by less than 0.001. -/
theorem C24_valor_conhecido :
    roundf adc_val_float = 876 ∧
    roundf ((706 / 1000 : ℚ) * 4095 / (33 / 10)) = 876 ∧
    27 - 1 / 2 < adc_to_celsius 876 ∧ adc_to_celsius 876 < 27 + 1 / 2 ∧
    27 - 1 / 2 < adc_to_celsius_exato 876 ∧ adc_to_celsius_exato 876 < 27 + 1 / 2 ∧
    adc_to_celsius 876 - adc_to_celsius_exato 876 < 1 / 1000 ∧
    adc_to_celsius_exato 876 - adc_to_celsius 876 < 1 / 1000 := by
  decide!

end Temperatura

/-! ## Theorems: the Galton board -/

namespace GaltonBoard

open simulation_state_t

theorem length_incrementa (bs : List Int) : ∀ i, (incrementa i bs).length = bs.length := by
  induction bs with
  | nil => intro i; cases i <;> rfl
  | cons b bs ih => intro i; cases i with
    | zero => rfl
    | succ i => simp [incrementa, ih]

theorem sum_incrementa (bs : List Int) :
    ∀ i, i < bs.length → (incrementa i bs).sum = bs.sum + 1 := by
  induction bs with
  | nil => intro i h; simp at h
  | cons b bs ih => intro i h; cases i with
    | zero => simp [incrementa]; omega
    | succ i =>
      have hi : i < bs.length := by simpa using h
      simp [incrementa, ih i hi]; omega

theorem nao_negativos_incrementa (bs : List Int) :
    ∀ i, (∀ b ∈ bs, 0 ≤ b) → ∀ b ∈ incrementa i bs, 0 ≤ b := by
  induction bs with
  | nil => intro i _ b hb; cases i <;> simp [incrementa] at hb
  | cons a bs ih =>
    intro i h b hb
    have ha : 0 ≤ a := h a (List.mem_cons_self _ _)
    have hbs : ∀ x ∈ bs, 0 ≤ x := fun x hx => h x (List.mem_cons_of_mem _ hx)
    cases i with
    | zero =>
      simp only [incrementa, List.mem_cons] at hb
      rcases hb with hb | hb
      · omega
      · exact hbs b hb
    | succ i =>
      simp only [incrementa, List.mem_cons] at hb
      rcases hb with hb | hb
      · omega
      · exact ih i hbs b hb

theorem invariante_reset (g : Estado) : Invariante (galton_reset g) := by
  constructor <;> simp [galton_reset, NUM_BINS, NUM_LEVELS, NUM_BALLS]

theorem invariante_set_state (state : simulation_state_t) (agora : Nat) (g : Estado)
    (h : Invariante g) : Invariante (galton_set_state state agora g) :=
  ⟨h.comprimento, h.nao_negativos, h.soma, h.bolas, h.posicao_min, h.posicao_max, h.nivel,
    h.passos_min, h.passos_max⟩

theorem invariante_update (current_time rand : Nat) (g : Estado) (h : Invariante g) :
    Invariante (galton_update current_time rand g) := by
  obtain ⟨h1, h2, h3, h4, h5, h6, h7, h8, h9⟩ := h
  unfold galton_update
  split
  · exact ⟨h1, h2, h3, h4, h5, h6, h7, h8, h9⟩
  split
  · exact ⟨h1, h2, h3, h4, h5, h6, h7, h8, h9⟩
  split
  · exact ⟨h1, h2, h3, h4, h5, h6, h7, h8, h9⟩
  split
  · exact ⟨h1, h2, h3, h4, Int.le_refl 0, Int.le_refl 0, (by decide : (0 : Int) ≤ NUM_LEVELS),
      Int.le_refl 0, (by decide : (0 : Int) < 3)⟩
  split
  · split
    · rename_i hb _ _ _
      have hpos : g.ball_position.position.toNat < g.bins.length := by
        rw [h1]; unfold NUM_LEVELS at h7; omega
      refine ⟨?_, ?_, ?_, ?_, h5, h6, h7, Int.le_refl 0, (by decide : (0 : Int) < 3)⟩
      · simp only [length_incrementa, h1]
      · exact nao_negativos_incrementa _ _ h2
      · simp only [sum_incrementa _ _ hpos, h3]
      · unfold NUM_BALLS at hb ⊢; show g.current_ball + 1 ≤ 75; omega
    · rename_i hl
      refine ⟨h1, h2, h3, h4, ?_, ?_, ?_, Int.le_refl 0, (by decide : (0 : Int) < 3)⟩
      · show 0 ≤ (if ((rand % 2 : Nat) : Int) = 1 then g.ball_position.position + 1
          else g.ball_position.position)
        split <;> omega
      · show (if ((rand % 2 : Nat) : Int) = 1 then g.ball_position.position + 1
          else g.ball_position.position) ≤ g.ball_position.current_level + 1
        split <;> omega
      · unfold NUM_LEVELS at hl ⊢; show g.ball_position.current_level + 1 ≤ 7; omega
  · rename_i hs
    refine ⟨h1, h2, h3, h4, h5, h6, h7, ?_, ?_⟩
    · show 0 ≤ g.ball_position.steps + 1; omega
    · show g.ball_position.steps + 1 < 3; omega

theorem invariante_alcancavel (g : Estado) (h : Alcancavel g) : Invariante g := by
  induction h with
  | reset g => exact invariante_reset g
  | update t r g _ ih => exact invariante_update t r g ih
  | set_state st t g _ ih => exact invariante_set_state st t g ih

theorem alcancavel_atualiza (entradas : List (Nat × Nat)) :
    ∀ g : Estado, Alcancavel g → Alcancavel (atualiza entradas g) := by
  induction entradas with
  | nil => intro g h; exact h
  | cons e resto ih =>
    intro g h
    obtain ⟨t, r⟩ := e
    exact ih _ (Alcancavel.update t r g h)

theorem maior_spec (bs : List Int) :
    ∀ m : Int, m ≤ maior bs m ∧ (∀ b ∈ bs, b ≤ maior bs m) ∧
      (maior bs m = m ∨ maior bs m ∈ bs) := by
  induction bs with
  | nil => intro m; simp [maior]
  | cons a bs ih =>
    intro m
    simp only [maior]
    by_cases ham : a > m
    · rw [if_pos ham]
      obtain ⟨h1, h2, h3⟩ := ih a
      refine ⟨by omega, ?_, ?_⟩
      · intro b hb
        rcases List.mem_cons.mp hb with hb | hb
        · subst hb; exact h1
        · exact h2 b hb
      · right
        rcases h3 with h3 | h3
        · rw [h3]; exact List.mem_cons_self _ _
        · exact List.mem_cons_of_mem _ h3
    · rw [if_neg ham]
      obtain ⟨h1, h2, h3⟩ := ih m
      refine ⟨h1, ?_, ?_⟩
      · intro b hb
        rcases List.mem_cons.mp hb with hb | hb
        · subst hb; omega
        · exact h2 b hb
      · rcases h3 with h3 | h3
        · left; exact h3
        · right; exact List.mem_cons_of_mem _ h3

/-- C29. In every state reachable from `galton_reset` by calls of `galton_update` and
`galton_set_state`, with any clock values and any results of `rand()`, the ball has
0 <= position <= current_level <= NUM_LEVELS = 7 and 0 <= steps < 3; hence
position < NUM_BINS = 8 and the access `bins[position]` is inside the array. -/
theorem C29_bola_dentro_do_tabuleiro (g : Estado) (h : Alcancavel g) :
    0 ≤ g.ball_position.position ∧
    g.ball_position.position ≤ g.ball_position.current_level ∧
    g.ball_position.current_level ≤ NUM_LEVELS ∧ NUM_LEVELS = 7 ∧
    0 ≤ g.ball_position.steps ∧ g.ball_position.steps < 3 ∧
    g.ball_position.position < NUM_BINS ∧ NUM_BINS = 8 ∧
    g.ball_position.position.toNat < g.bins.length := by
  have hi := invariante_alcancavel g h
  have h5 := hi.posicao_min
  have h6 := hi.posicao_max
  have h7 := hi.nivel
  have h1 := hi.comprimento
  refine ⟨h5, h6, h7, rfl, hi.passos_min, hi.passos_max, ?_, rfl, ?_⟩
  · unfold NUM_LEVELS at h7; show g.ball_position.position < 8; omega
  · rw [h1]; unfold NUM_LEVELS at h7; omega

/-- Witness for C29: the state after a start and 26 updates, all to the right. -/
theorem C29_bola_dentro_do_tabuleiro_witness :
    (atualiza ((List.range 26).map fun i => (10 * (i + 1), 1))
        (galton_set_state STATE_RUNNING 0 (galton_reset inicial))).ball_position.position
      < NUM_BINS ∧
    (atualiza ((List.range 26).map fun i => (10 * (i + 1), 1))
        (galton_set_state STATE_RUNNING 0 (galton_reset inicial))).ball_position.position.toNat
      < (atualiza ((List.range 26).map fun i => (10 * (i + 1), 1))
        (galton_set_state STATE_RUNNING 0 (galton_reset inicial))).bins.length :=
  have h := C29_bola_dentro_do_tabuleiro
    (atualiza ((List.range 26).map fun i => (10 * (i + 1), 1))
      (galton_set_state STATE_RUNNING 0 (galton_reset inicial)))
    (alcancavel_atualiza _ _ (Alcancavel.set_state _ _ _ (Alcancavel.reset inicial)))
  ⟨h.2.2.2.2.2.2.1, h.2.2.2.2.2.2.2.2⟩

/-- C30. In every state reachable from `galton_reset` by calls of `galton_update` and
`galton_set_state`, the collector counts add up to `current_ball`, which is at most
NUM_BALLS = 75; a call of `galton_update` leaves `current_ball` as it is or adds one; and
`galton_get_max_bin_value` returns an element of `bins` that no element exceeds, 0 when
all collectors are empty. -/
theorem C30_contagem_das_bolas (g : Estado) (h : Alcancavel g) (current_time rand : Nat) :
    g.bins.sum = g.current_ball ∧
    g.current_ball ≤ NUM_BALLS ∧ NUM_BALLS = 75 ∧
    ((galton_update current_time rand g).current_ball = g.current_ball ∨
      (galton_update current_time rand g).current_ball = g.current_ball + 1) ∧
    (∀ b ∈ g.bins, b ≤ galton_get_max_bin_value g) ∧
    galton_get_max_bin_value g ∈ g.bins ∧
    ((∀ b ∈ g.bins, b = 0) → galton_get_max_bin_value g = 0) := by
  have hi := invariante_alcancavel g h
  obtain ⟨m1, m2, m3⟩ := maior_spec g.bins 0
  have hmem : galton_get_max_bin_value g ∈ g.bins := by
    rcases m3 with m3 | m3
    · have hne : g.bins ≠ [] := by
        intro hnil
        have := hi.comprimento
        rw [hnil] at this
        simp at this
      obtain ⟨b, bs, hb⟩ := List.exists_cons_of_ne_nil hne
      have hbm : b ∈ g.bins := by rw [hb]; exact List.mem_cons_self _ _
      have h0 : b = 0 := by
        have := m2 b hbm
        have := hi.nao_negativos b hbm
        omega
      show maior g.bins 0 ∈ g.bins
      rw [m3, ← h0]
      exact hbm
    · exact m3
  refine ⟨hi.soma, hi.bolas, rfl, ?_, m2, hmem, fun hz => hz _ hmem⟩
  unfold galton_update
  split
  · left; rfl
  split
  · left; rfl
  split
  · left; rfl
  split
  · left; rfl
  split
  · split
    · right; rfl
    · left; rfl
  · left; rfl

/-- Witness for C30: the state after a start and 26 updates, and the state after a reset. -/
theorem C30_contagem_das_bolas_witness :
    (atualiza ((List.range 26).map fun i => (10 * (i + 1), 1))
        (galton_set_state STATE_RUNNING 0 (galton_reset inicial))).bins.sum =
      (atualiza ((List.range 26).map fun i => (10 * (i + 1), 1))
        (galton_set_state STATE_RUNNING 0 (galton_reset inicial))).current_ball ∧
    galton_get_max_bin_value (galton_reset inicial) = 0 :=
  ⟨(C30_contagem_das_bolas
      (atualiza ((List.range 26).map fun i => (10 * (i + 1), 1))
        (galton_set_state STATE_RUNNING 0 (galton_reset inicial)))
      (alcancavel_atualiza _ _ (Alcancavel.set_state _ _ _ (Alcancavel.reset inicial))) 0 0).1,
   (C30_contagem_das_bolas (galton_reset inicial) (Alcancavel.reset inicial) 0 0).2.2.2.2.2.2
     (by decide)⟩

end GaltonBoard
